import Mathlib

/-!
# TurkLogos back office: campaign engine

A shallow embedding of `backend/services/campaignService.js` together with the
Sequelize models it reads and writes (`backend/models/*.js`).

* Tables are lists of rows in storage order; `findByPk`, `findOne`, `findAll`,
  `create`, `increment` and `update` are the list operations of the same name.
* `INTEGER` columns are `Int`, `DATE` columns are `Int` (milliseconds since the
  epoch, the value JavaScript compares), nullable columns are `Option`.
* `FLOAT` columns are JavaScript numbers: IEEE-754 binary64 values.  A finite
  value is represented by the rational it denotes, and every arithmetic
  operation rounds its exact result to the nearest binary64 value, ties to
  even.  The two zeros are identified (they are `===` and both falsy).
* Columns with a default that the services never write as null
  (`Campaign.is_active`, `Campaign.current_uses`, `UserCampaign.status`,
  `SupportTicket.priority`, `SupportTicket.status`) are not nullable in the
  model.
* JSON attribute bags that the services only pass on (`Package.features`) are
  left out.
* A service call takes the store and the instant read by `new Date()` and
  returns the store it leaves behind together with its result or the error it
  throws.  The ORM's own bookkeeping columns (`createdAt`, `updatedAt`) are
  configured outside the service and are not part of the model.
-/

namespace TurkLogos

/-! ## JavaScript numbers -/

/-- A JavaScript number: a finite binary64 value (given by the rational it
denotes, the two zeros identified), an infinity, or NaN. -/
inductive JsNumber where
  | fin (q : ℚ)
  | inf (negative : Bool)
  | nan
  deriving DecidableEq

/-- Nearest natural number to `n / d` (for `0 < d`), a tie going to the even
neighbour. -/
def roundHalfEven (n d : Nat) : Nat :=
  let f := n / d
  let r := n % d
  if 2 * r < d then f
  else if d < 2 * r then f + 1
  else if f % 2 = 0 then f else f + 1

/-- Decides `n / d < 2 ^ e` for naturals `n`, `0 < d` and an integer `e`. -/
def belowPow2 (n d : Nat) (e : Int) : Bool :=
  if 0 ≤ e then decide (n < d * 2 ^ e.toNat) else decide (n * 2 ^ (-e).toNat < d)

/-- Position of the leading bit, `⌊log₂ n⌋` (and `0` for `n = 0`), computed by
halving; `fuel = n` halvings always suffice. -/
def floorLog2 : Nat → Nat → Nat
  | 0, _ => 0
  | fuel + 1, n => if n < 2 then 0 else floorLog2 fuel (n / 2) + 1

/-- The binary exponent `⌊log₂ (n / d)⌋` of a positive rational `n / d`. -/
def binaryExponent (n d : Nat) : Int :=
  let e : Int := (floorLog2 n n : Int) - (floorLog2 d d : Int)
  if belowPow2 n d e then e - 1 else e

/-- Rounding of an exact real result to binary64 (round to nearest, ties to
even): 53 significant bits, gradual underflow below `2 ^ (-1022)` (quantum
`2 ^ (-1074)`), overflow to an infinity from `2 ^ 1024` on. -/
def toDouble (q : ℚ) : JsNumber :=
  if q = 0 then .fin 0
  else
    let n := q.num.natAbs
    let d := q.den
    let k : Int := max (binaryExponent n d - 52) (-1074)
    let m : Nat :=
      if 0 ≤ k then roundHalfEven n (d * 2 ^ k.toNat)
      else roundHalfEven (n * 2 ^ (-k).toNat) d
    let mag : ℚ :=
      if 0 ≤ k then ((m * 2 ^ k.toNat : Nat) : ℚ)
      else (m : ℚ) / ((2 ^ (-k).toNat : Nat) : ℚ)
    if (2 : ℚ) ^ 1024 ≤ mag then .inf (decide (q < 0))
    else .fin (if q < 0 then -mag else mag)

/-- The exponent of the quantum that `toDouble` rounds `n / d` to. -/
def quantum (n d : Nat) : Int :=
  max (binaryExponent n d - 52) (-1074)

/-- The number of quanta that `toDouble` rounds `n / d` to. -/
def significand (n d : Nat) : Nat :=
  if 0 ≤ quantum n d then roundHalfEven n (d * 2 ^ (quantum n d).toNat)
  else roundHalfEven (n * 2 ^ (-(quantum n d)).toNat) d

/-- The magnitude that `toDouble` rounds `n / d` to, before the overflow
test. -/
def magnitude (n d : Nat) : ℚ :=
  if 0 ≤ quantum n d then ((significand n d * 2 ^ (quantum n d).toNat : Nat) : ℚ)
  else (significand n d : ℚ) / ((2 ^ (-(quantum n d)).toNat : Nat) : ℚ)

namespace JsNumber

/-- JavaScript truthiness of a number: everything but zero and NaN. -/
def truthy : JsNumber → Bool
  | fin q => decide (q ≠ 0)
  | inf _ => true
  | nan => false

/-- The `*` operator on numbers. -/
def mul : JsNumber → JsNumber → JsNumber
  | nan, _ => nan
  | _, nan => nan
  | fin a, fin b => toDouble (a * b)
  | fin a, inf t => if a = 0 then nan else inf (xor (decide (a < 0)) t)
  | inf s, fin b => if b = 0 then nan else inf (xor s (decide (b < 0)))
  | inf s, inf t => inf (xor s t)

/-- The `/` operator on numbers (a zero divisor is taken as `+0`). -/
def div : JsNumber → JsNumber → JsNumber
  | nan, _ => nan
  | _, nan => nan
  | fin a, fin b =>
    if b = 0 then (if a = 0 then nan else inf (decide (a < 0))) else toDouble (a / b)
  | fin _, inf _ => fin 0
  | inf s, fin b => inf (xor s (decide (b < 0)))
  | inf _, inf _ => nan

/-- The `>=` operator on numbers. -/
def ge : JsNumber → JsNumber → Bool
  | nan, _ => false
  | _, nan => false
  | fin a, fin b => decide (b ≤ a)
  | fin _, inf t => t
  | inf s, fin _ => !s
  | inf s, inf t => !s || t

/-- The `+` operator on numbers. -/
def add : JsNumber → JsNumber → JsNumber
  | nan, _ => nan
  | _, nan => nan
  | fin a, fin b => toDouble (a + b)
  | fin _, inf t => inf t
  | inf s, fin _ => inf s
  | inf s, inf t => if s = t then inf s else nan

/-- Unary minus. -/
def neg : JsNumber → JsNumber
  | nan => nan
  | fin a => fin (-a)
  | inf s => inf (!s)

/-- The binary `-` operator on numbers. -/
def sub (a b : JsNumber) : JsNumber :=
  a.add b.neg

/-- The call `Math.max(a, b)`. -/
def max (a b : JsNumber) : JsNumber :=
  match a, b with
  | nan, _ => nan
  | _, nan => nan
  | a, b => if a.ge b then a else b

/-- The number an `INTEGER` column value is in JavaScript. -/
def ofInt (n : Int) : JsNumber :=
  fin n

/-- Decimal digits of a natural number. -/
def digits (n : Nat) : List Char :=
  Nat.toDigits 10 n

/-- The text of `Number::toString` for a finite `x ≥ 10 ^ 21`, found from the
number `n0` of digits of its integer part: the shortest digit string `s` (of
`k` digits, `k` counting up from 1) with `s × 10 ^ (n0 - k)` rounding to `x`,
the nearer of the two neighbours of `x` (the even one on a tie), printed in
exponent form.  `fuel` bounds the search; 17 digits identify any number. -/
def exponentForm (a : ℚ) (n0 : Nat) : Nat → Nat → List Char
  | 0, k => digits (Nat.floor (a / 10 ^ (n0 - k))) ++ "e+".toList ++ digits (n0 - 1)
  | fuel + 1, k =>
    let unit : ℚ := 10 ^ (n0 - k)
    let lo : Nat := Nat.floor (a / unit)
    let okLo : Bool := decide (toDouble (lo * unit) = toDouble a)
    let okHi : Bool := decide (toDouble ((lo + 1) * unit) = toDouble a)
    let dLo : ℚ := a - lo * unit
    let dHi : ℚ := (lo + 1) * unit - a
    let useHi : Bool :=
      okHi && (!okLo || decide (dHi < dLo) || (decide (dHi = dLo) && decide (lo % 2 = 1)))
    if okLo || okHi then
      let s : Nat := if useHi then lo + 1 else lo
      if s = 10 ^ k then '1' :: ("e+".toList ++ digits n0)
      else
        match digits s with
        | [] => []
        | [d] => d :: ("e+".toList ++ digits (n0 - 1))
        | d :: rest => d :: '.' :: (rest ++ "e+".toList ++ digits (n0 - 1))
    else exponentForm a n0 fuel (k + 1)

/-- The method `x.toFixed(2)`: the sign, then the integer `n` nearest to
`100 × |x|` (the larger on a tie) written with a point before its last two
digits; `Number::toString` for a non-finite `x` and from `10 ^ 21` on. -/
def toFixed2 : JsNumber → String
  | nan => "NaN"
  | inf false => "Infinity"
  | inf true => "-Infinity"
  | fin q =>
    let sign : List Char := if q < 0 then ['-'] else []
    let a : ℚ := |q|
    if (10 : ℚ) ^ 21 ≤ a then
      String.mk (sign ++ exponentForm a (digits (Nat.floor a)).length 17 1)
    else
      let n : Nat := Nat.floor (a * 100 + 1 / 2)
      let m : List Char := digits n
      let m : List Char := List.replicate (3 - m.length) '0' ++ m
      String.mk (sign ++ m.take (m.length - 2) ++ '.' :: m.drop (m.length - 2))

/-- The `>` operator on numbers. -/
def gt : JsNumber → JsNumber → Bool
  | nan, _ => false
  | _, nan => false
  | fin a, fin b => decide (b < a)
  | fin _, inf t => t
  | inf s, fin _ => !s
  | inf s, inf t => !s && t

/-- The call `Math.ceil(x)`. -/
def ceil : JsNumber → JsNumber
  | fin q => fin (Int.ceil q)
  | x => x

/-- The call `Math.round(x)`: the integer nearest to `x`, the larger one on a
tie. -/
def round : JsNumber → JsNumber
  | fin q => fin (Int.floor (q + 1 / 2))
  | x => x

end JsNumber

/-- The natural number written by a list of decimal digits. -/
def natOfDigits (ds : List Char) : Nat :=
  ds.foldl (fun n c => 10 * n + (c.toNat - 48)) 0

/-- The exponent part `e±digits` at the head of `cs`, or 0 when there is
none. -/
def parseExponent (cs : List Char) : Int :=
  match cs with
  | c :: rest =>
    if c = 'e' ∨ c = 'E' then
      match rest with
      | '-' :: ds =>
        if (ds.takeWhile Char.isDigit).isEmpty then 0
        else -(natOfDigits (ds.takeWhile Char.isDigit) : Int)
      | '+' :: ds => (natOfDigits (ds.takeWhile Char.isDigit) : Int)
      | ds => (natOfDigits (ds.takeWhile Char.isDigit) : Int)
    else 0
  | [] => 0

/-- The function `parseFloat(text)`: the number written by the longest prefix of
the trimmed text that is a decimal literal (sign, digits, fraction, exponent,
or `Infinity`), NaN when there is none. -/
def parseFloat (text : String) : JsNumber :=
  let cs := text.toList.dropWhile Char.isWhitespace
  let negative : Bool := cs.head? = some '-'
  let cs := if cs.head? = some '-' ∨ cs.head? = some '+' then cs.tail else cs
  if "Infinity".toList.isPrefixOf cs then .inf negative
  else
    let intPart := cs.takeWhile Char.isDigit
    let rest := cs.dropWhile Char.isDigit
    let fracPart := if rest.head? = some '.' then rest.tail.takeWhile Char.isDigit else []
    let rest := if rest.head? = some '.' then rest.tail.dropWhile Char.isDigit else rest
    if intPart.isEmpty && fracPart.isEmpty then .nan
    else
      let exponent := parseExponent rest
      let mantissa : ℚ := (natOfDigits (intPart ++ fracPart) : ℚ) / 10 ^ fracPart.length
      let value : ℚ :=
        if 0 ≤ exponent then mantissa * 10 ^ exponent.toNat
        else mantissa / 10 ^ (-exponent).toNat
      toDouble (if negative then -value else value)

/-- A JavaScript value that is a number or a string. -/
inductive JsScalar where
  | number (n : JsNumber)
  | string (s : String)
  deriving DecidableEq

/-! ## Rows (`backend/models`) -/

/-- Row of `packages` (`models/Package.js`). -/
structure Package where
  id : Int
  package_id : String
  name : String
  price : JsNumber
  data_limit_gb : Option Int
  voice_minutes : Option Int
  sms_count : Option Int
  is_active : Bool
  deriving DecidableEq

/-- Row of `users` (`models/User.js`). -/
structure User where
  id : Int
  customer_id : String
  phone_number : String
  first_name : String
  last_name : String
  email : String
  current_package_id : Option String
  payment_status : Option String
  balance : JsNumber
  data_usage_gb : JsNumber
  voice_usage_minutes : Int
  created_at : Int
  updated_at : Int
  deriving DecidableEq

/-- Row of `Campaigns` (`models/Campaign.js`). -/
structure Campaign where
  id : Int
  campaign_id : String
  name : String
  campaign_type : String
  target_audience : Option String
  discount_percentage : Option JsNumber
  discount_amount : Option JsNumber
  free_data_gb : Option Int
  free_voice_minutes : Option Int
  applicable_packages : Option (List String)
  start_date : Int
  end_date : Int
  is_active : Bool
  max_uses : Option Int
  current_uses : Int
  created_at : Int
  updated_at : Int
  deriving DecidableEq

/-- Row of `UserCampaigns` (`models/UserCampaign.js`). -/
structure UserCampaign where
  id : Int
  user_id : Int
  campaign_id : Int
  applied_date : Int
  status : String
  discount_applied : Option JsNumber
  data_bonus_gb : Option Int
  voice_bonus_minutes : Option Int
  expires_at : Option Int
  notes : Option String
  created_at : Int
  updated_at : Int
  deriving DecidableEq

/-- Row of `bills` (`models/Bill.js`). -/
structure Bill where
  id : Int
  bill_id : String
  user_id : Option Int
  billing_period_start : Option Int
  billing_period_end : Option Int
  due_date : Option Int
  total_amount : Option JsNumber
  payment_status : Option String
  payment_date : Option Int
  data_used_gb : Option JsNumber
  voice_used_minutes : Option Int
  created_at : Int
  updated_at : Int
  deriving DecidableEq

/-- Row of `support_tickets` (`models/SupportTicket.js`). -/
structure SupportTicket where
  id : Int
  ticket_id : String
  user_id : Option Int
  issue_type : Option String
  priority : String
  status : String
  title : Option String
  description : Option String
  resolution : Option String
  resolved_at : Option Int
  created_at : Int
  updated_at : Int
  deriving DecidableEq

/-- The tables the services read and write. -/
structure Store where
  users : List User
  packages : List Package
  campaigns : List Campaign
  userCampaigns : List UserCampaign
  bills : List Bill := []
  tickets : List SupportTicket := []
  deriving DecidableEq

/-! ## Storage operations -/

/-- The call `Campaign.findByPk(id)`. -/
def Campaign.findByPk (s : Store) (id : Int) : Option Campaign :=
  s.campaigns.find? (fun c => c.id == id)

/-- The association `User.belongsTo(Package, {foreignKey: "current_package_id",
targetKey: "package_id"})`: the package whose business key is the given one. -/
def Package.findByKey (s : Store) (key : Option String) : Option Package :=
  match key with
  | none => none
  | some k => s.packages.find? (fun p => p.package_id == k)

/-- The call `User.findByPk(id, {include: package})`: the user row together
with `user.package` (`null` when the key resolves to no package). -/
def User.findByPk (s : Store) (id : Int) : Option (User × Option Package) :=
  match s.users.find? (fun u => u.id == id) with
  | none => none
  | some u => some (u, Package.findByKey s u.current_package_id)

/-- The filter `where: {user_id, campaign_id, status: "active"}`. -/
def UserCampaign.isActiveFor (userId campaignId : Int) (uc : UserCampaign) : Bool :=
  uc.user_id == userId && uc.campaign_id == campaignId && uc.status == "active"

/-- The call `UserCampaign.findOne({where: {user_id, campaign_id,
status: "active"}})`. -/
def UserCampaign.findOne (s : Store) (userId campaignId : Int) : Option UserCampaign :=
  s.userCampaigns.find? (UserCampaign.isActiveFor userId campaignId)

/-- The auto-increment primary key given to the next `UserCampaign` row. -/
def UserCampaign.nextId (s : Store) : Int :=
  (s.userCampaigns.map (fun uc => uc.id)).foldl max 0 + 1

/-- The call `campaign.increment("current_uses")`:
`UPDATE ... SET current_uses = current_uses + 1 WHERE id = campaign.id`. -/
def Campaign.increment (campaignId : Int) (c : Campaign) : Campaign :=
  if c.id == campaignId then { c with current_uses := c.current_uses + 1 } else c

/-! ## `CampaignService` (`backend/services/campaignService.js`) -/

deriving instance DecidableEq for Except

/-- The errors `applyCampaignToUser` can raise from its own code, in the order
in which the code can raise them. -/
inductive ApplyError where
  | notFound
  | notActive
  | limitReached
  | alreadyApplied
  | packageMissing
  deriving DecidableEq

/-- The message of the `Error` that reaches the caller (the `catch` block
prefixes every message); the text of the `TypeError` raised by reading
`price` of a `null` package is the engine's and is not modelled. -/
def ApplyError.message : ApplyError → Option String
  | .notFound => some "Error applying campaign: Campaign or user not found"
  | .notActive => some "Error applying campaign: Campaign is not active or has expired"
  | .limitReached => some "Error applying campaign: Campaign has reached maximum usage limit"
  | .alreadyApplied => some "Error applying campaign: User already has this campaign applied"
  | .packageMissing => none

/-- The errors the specification files under `InvalidState`. -/
def ApplyError.isInvalidState : ApplyError → Bool
  | .notActive => true
  | .limitReached => true
  | .alreadyApplied => true
  | _ => false

/-- The test `campaign.max_uses && campaign.current_uses >= campaign.max_uses`
(a `null` or `0` limit is falsy). -/
def Campaign.limitReached (c : Campaign) : Bool :=
  match c.max_uses with
  | none => false
  | some m => m != 0 && decide (m ≤ c.current_uses)

/-- The test `!campaign.is_active || currentDate < campaign.start_date ||
currentDate > campaign.end_date`. -/
def Campaign.notActiveAt (c : Campaign) (now : Int) : Bool :=
  !c.is_active || decide (now < c.start_date) || decide (c.end_date < now)

/-- The expression `x || 0` on a nullable integer column. -/
def orZero (x : Option Int) : Int :=
  match x with
  | none => 0
  | some n => if n != 0 then n else 0

/-- The conditional `campaign.discount_percentage ?
user.package.price * (campaign.discount_percentage / 100) : 0`; `none` is the
`TypeError` of reading `price` of a `null` package. -/
def percentageDiscount (campaign : Campaign) (package : Option Package) : Option JsNumber :=
  match campaign.discount_percentage with
  | some pct =>
    if pct.truthy then
      match package with
      | some pkg => some (pkg.price.mul (pct.div (.fin 100)))
      | none => none
    else some (.fin 0)
  | none => some (.fin 0)

/-- The expression `campaign.discount_amount || (campaign.discount_percentage ?
user.package.price * (campaign.discount_percentage / 100) : 0)`. -/
def discountApplied (campaign : Campaign) (package : Option Package) : Option JsNumber :=
  match campaign.discount_amount with
  | some a => if a.truthy then some a else percentageDiscount campaign package
  | none => percentageDiscount campaign package

/-- The `benefits` object returned by `applyCampaignToUser`. -/
structure Benefits where
  discount_applied : JsNumber
  data_bonus_gb : Int
  voice_bonus_minutes : Int
  deriving DecidableEq

/-- The object returned by a successful `applyCampaignToUser`. -/
structure ApplyResult where
  success : Bool
  userCampaign : UserCampaign
  benefits : Benefits
  deriving DecidableEq

/-- The row built by `UserCampaign.create({...})` in `applyCampaignToUser`; the
columns not given take their defaults (`applied_date`, `created_at`,
`updated_at`: the instant of the insert; `notes`: null). -/
def newUserCampaign (s : Store) (now : Int) (campaign : Campaign) (userId campaignId : Int)
    (discount : JsNumber) : UserCampaign :=
  { id := UserCampaign.nextId s
    user_id := userId
    campaign_id := campaignId
    applied_date := now
    status := "active"
    discount_applied := some discount
    data_bonus_gb := some (orZero campaign.free_data_gb)
    voice_bonus_minutes := some (orZero campaign.free_voice_minutes)
    expires_at := some campaign.end_date
    notes := none
    created_at := now
    updated_at := now }

/-- The method `CampaignService.applyCampaignToUser(campaignId, userId)` run
alone on store `s` at instant `now`: the store it leaves and what it returns or
throws. -/
def applyCampaignToUser (s : Store) (now : Int) (campaignId userId : Int) :
    Store × Except ApplyError ApplyResult :=
  match Campaign.findByPk s campaignId, User.findByPk s userId with
  | some campaign, some (_, package) =>
    if campaign.notActiveAt now then (s, .error .notActive)
    else if campaign.limitReached then (s, .error .limitReached)
    else
      match UserCampaign.findOne s userId campaignId with
      | some _ => (s, .error .alreadyApplied)
      | none =>
        match discountApplied campaign package with
        | none => (s, .error .packageMissing)
        | some discount =>
          let userCampaign := newUserCampaign s now campaign userId campaignId discount
          let s1 : Store := { s with userCampaigns := s.userCampaigns ++ [userCampaign] }
          let s2 : Store := { s1 with campaigns := s1.campaigns.map (Campaign.increment campaignId) }
          (s2, .ok
            { success := true
              userCampaign := userCampaign
              benefits :=
                { discount_applied := discount
                  data_bonus_gb := orZero campaign.free_data_gb
                  voice_bonus_minutes := orZero campaign.free_voice_minutes } })
  | _, _ => (s, .error .notFound)

/-- The filter `where: {status: "active", expires_at: {[Op.lt]: currentDate}}`
(a null `expires_at` compares as unknown and is not selected). -/
def UserCampaign.isOverdue (now : Int) (uc : UserCampaign) : Bool :=
  uc.status == "active" &&
    (match uc.expires_at with
     | some t => decide (t < now)
     | none => false)

/-- The method `CampaignService.expireOldCampaigns()` at instant `now`: the store
it leaves and the `expired_user_campaigns` count it returns. -/
def expireOldCampaigns (s : Store) (now : Int) : Store × Nat :=
  ({ s with
      userCampaigns := s.userCampaigns.map
        (fun uc => if uc.isOverdue now then { uc with status := "expired" } else uc) },
   (s.userCampaigns.filter (UserCampaign.isOverdue now)).length)

/-- The "user category" computed at lines 41-51 of
`getEligibleCampaignsForUser` from the user, `user.package` and the instant. -/
def userCategory (user : User) (package : Option Package) (now : Int) : String :=
  if user.payment_status == some "overdue" then "overdue_users"
  else if (match package with
           | some pkg => pkg.price.ge (.fin 200)
           | none => false) then "premium_users"
  else if now - 30 * 24 * 60 * 60 * 1000 < user.created_at then "new_users"
  else "all"

/-- The `where` clause of the `Campaign.findAll` in
`getEligibleCampaignsForUser`. -/
def Campaign.selectedFor (category : String) (now : Int) (c : Campaign) : Bool :=
  c.is_active && decide (c.start_date ≤ now) && decide (now ≤ c.end_date) &&
    (c.target_audience == some category || c.target_audience == some "all" ||
      c.target_audience == none)

/-- The package test of the filter loop: `applicable_packages` is a non-empty
list that does not include `user.current_package_id`. -/
def Campaign.excludesPackage (c : Campaign) (current : Option String) : Bool :=
  match c.applicable_packages with
  | none => false
  | some pkgs =>
    decide (0 < pkgs.length) &&
      !(match current with
        | some k => pkgs.contains k
        | none => false)

/-- The method `CampaignService.getEligibleCampaignsForUser(userId)` at instant
`now`; `none` is the "User not found" error. -/
def getEligibleCampaignsForUser (s : Store) (now : Int) (userId : Int) :
    Option (List Campaign) :=
  match User.findByPk s userId with
  | none => none
  | some (user, package) =>
    let campaigns := s.campaigns.filter (Campaign.selectedFor (userCategory user package now) now)
    some (campaigns.filter (fun campaign =>
      !(UserCampaign.findOne s userId campaign.id).isSome &&
        !campaign.excludesPackage user.current_package_id &&
        !campaign.limitReached))

/-- The expression `x || 0` on a nullable number column. -/
def orZeroNumber (x : Option JsNumber) : JsNumber :=
  match x with
  | none => .fin 0
  | some a => if a.truthy then a else .fin 0

/-- The filter `where: {user_id, status: "active", expires_at: {[Op.gte]: now}}`
of `getUserActiveCampaigns` (a null `expires_at` is not selected). -/
def UserCampaign.isCurrentFor (userId now : Int) (uc : UserCampaign) : Bool :=
  uc.user_id == userId && uc.status == "active" &&
    (match uc.expires_at with
     | some t => decide (now ≤ t)
     | none => false)

/-- The accumulator of the `reduce` in `getUserActiveCampaigns`. -/
structure TotalBenefits where
  total_discount : JsNumber
  total_data_bonus : Int
  total_voice_bonus : Int
  deriving DecidableEq

/-- One step of the `reduce`: the three `+=` of the callback. -/
def TotalBenefits.accumulate (acc : TotalBenefits) (uc : UserCampaign) : TotalBenefits :=
  { total_discount := acc.total_discount.add (orZeroNumber uc.discount_applied)
    total_data_bonus := acc.total_data_bonus + orZero uc.data_bonus_gb
    total_voice_bonus := acc.total_voice_bonus + orZero uc.voice_bonus_minutes }

/-- The object returned by `getUserActiveCampaigns`; each row comes with the
campaign joined to it. -/
structure ActiveCampaigns where
  user_info : User × Option Package
  active_campaigns : List (UserCampaign × Option Campaign)
  total_benefits : TotalBenefits
  campaigns_count : Nat
  deriving DecidableEq

/-- The method `CampaignService.getUserActiveCampaigns(userId)` at instant `now`;
`none` is the "User not found" error.  The rows come most recently applied
first, rows applied at the same instant in storage order. -/
def getUserActiveCampaigns (s : Store) (now : Int) (userId : Int) : Option ActiveCampaigns :=
  match User.findByPk s userId with
  | none => none
  | some user =>
    let userCampaigns :=
      (s.userCampaigns.filter (UserCampaign.isCurrentFor userId now)).insertionSort
        (fun a b => b.applied_date ≤ a.applied_date)
    some
      { user_info := user
        active_campaigns := userCampaigns.map (fun uc => (uc, Campaign.findByPk s uc.campaign_id))
        total_benefits := userCampaigns.foldl TotalBenefits.accumulate ⟨.fin 0, 0, 0⟩
        campaigns_count := userCampaigns.length }

/-! ## The route `GET /api/v1/campaigns/eligible/:userId` (`backend/routes/campaigns.js`) -/

/-- The JSON body the route answers with. -/
structure EligibleResponse where
  user_id : Int
  user_name : String
  current_package : Option String
  eligible_campaigns : List Campaign
  count : Nat
  deriving DecidableEq

/-- The `where` clause of the `Campaign.findAll` of the route handler. -/
def Campaign.activeAt (now : Int) (c : Campaign) : Bool :=
  c.is_active && decide (c.start_date ≤ now) && decide (now ≤ c.end_date)

/-- The handler of `router.get("/eligible/:userId")` at instant `now`; `none` is
the 404 answer "User not found". -/
def routerGetEligible (s : Store) (now : Int) (userId : Int) : Option EligibleResponse :=
  match User.findByPk s userId with
  | none => none
  | some (user, package) =>
    let activeCampaigns := s.campaigns.filter (Campaign.activeAt now)
    let eligibleCampaigns := activeCampaigns.filter (fun campaign =>
      !(UserCampaign.findOne s userId campaign.id).isSome &&
        !campaign.excludesPackage user.current_package_id &&
        !campaign.limitReached)
    some
      { user_id := user.id
        user_name := user.first_name ++ " " ++ user.last_name
        current_package := package.map (fun p => p.name)
        eligible_campaigns := eligibleCampaigns
        count := eligibleCampaigns.length }

/-! ## The user service (`backend/services/userService.js`) -/

/-- The `usage_summary` object of `getUserPackageInfo`. -/
structure UsageSummary where
  data_used_percentage : JsScalar
  voice_used_percentage : JsScalar
  remaining_data_gb : JsScalar
  remaining_voice_minutes : JsScalar
  deriving DecidableEq

/-- The conditional `limit > 0 ? ((used / limit) * 100).toFixed(2) : 0`. -/
def usedPercentage (used : JsNumber) (limit : Option Int) : JsScalar :=
  match limit with
  | some n =>
    if 0 < n then .string ((used.div (JsNumber.ofInt n)).mul (.fin 100)).toFixed2
    else .number (.fin 0)
  | none => .number (.fin 0)

/-- The conditional `limit > 0 ? Math.max(0, limit - used) : "Unlimited"`. -/
def remaining (used : JsNumber) (limit : Option Int) : JsScalar :=
  match limit with
  | some n =>
    if 0 < n then .number (JsNumber.max (.fin 0) ((JsNumber.ofInt n).sub used))
    else .string "Unlimited"
  | none => .string "Unlimited"

/-- The `usage_summary` computed for a user and the package found for it. -/
def usageSummary (user : User) (package : Package) : UsageSummary :=
  { data_used_percentage := usedPercentage user.data_usage_gb package.data_limit_gb
    voice_used_percentage :=
      usedPercentage (JsNumber.ofInt user.voice_usage_minutes) package.voice_minutes
    remaining_data_gb := remaining user.data_usage_gb package.data_limit_gb
    remaining_voice_minutes :=
      remaining (JsNumber.ofInt user.voice_usage_minutes) package.voice_minutes }

/-- The `user_info` object of `getUserPackageInfo`. -/
structure PackageUserInfo where
  id : Int
  customer_id : String
  name : String
  phone_number : String
  email : String
  payment_status : Option String
  balance : JsNumber
  data_usage_gb : JsNumber
  voice_usage_minutes : Int
  deriving DecidableEq

/-- The `current_package` object of `getUserPackageInfo`. -/
structure CurrentPackage where
  package_id : String
  name : String
  price : JsNumber
  data_limit_gb : Option Int
  voice_minutes : Option Int
  sms_count : Option Int
  is_active : Bool
  usage_summary : UsageSummary
  deriving DecidableEq

/-- The object returned by `getUserPackageInfo`. -/
structure PackageInfo where
  user_info : PackageUserInfo
  current_package : Option CurrentPackage
  deriving DecidableEq

/-- The function `getUserPackageInfo(user_id)`; `none` is the "User not found"
error. -/
def getUserPackageInfo (s : Store) (user_id : Int) : Option PackageInfo :=
  match User.findByPk s user_id with
  | none => none
  | some (user, package) =>
    some
      { user_info :=
          { id := user.id
            customer_id := user.customer_id
            name := user.first_name ++ " " ++ user.last_name
            phone_number := user.phone_number
            email := user.email
            payment_status := user.payment_status
            balance := user.balance
            data_usage_gb := user.data_usage_gb
            voice_usage_minutes := user.voice_usage_minutes }
        current_package := package.map (fun pkg =>
          { package_id := pkg.package_id
            name := pkg.name
            price := pkg.price
            data_limit_gb := pkg.data_limit_gb
            voice_minutes := pkg.voice_minutes
            sms_count := pkg.sms_count
            is_active := pkg.is_active
            usage_summary := usageSummary user pkg }) }

/-- The options of `getUserBillInfo`, with their defaults. -/
structure BillOptions where
  limit : Nat := 10
  payment_status : Option String := none

/-- The instant of `new Date(d)` for a nullable `DATE` column (`new Date(null)`
is the epoch). -/
def dateOf (d : Option Int) : Int :=
  match d with
  | some t => t
  | none => 0

/-- The test `bill.payment_status === "overdue" || (bill.payment_status ===
"pending" && new Date(bill.due_date) < new Date())`. -/
def Bill.isOverdue (now : Int) (bill : Bill) : Bool :=
  bill.payment_status == some "overdue" ||
    (bill.payment_status == some "pending" && decide (dateOf bill.due_date < now))

/-- The test `bill.payment_status === "pending" || bill.payment_status ===
"overdue"`. -/
def Bill.isOwed (bill : Bill) : Bool :=
  bill.payment_status == some "pending" || bill.payment_status == some "overdue"

/-- The fold `.reduce((sum, bill) => sum + (bill.total_amount || 0), 0)`. -/
def sumAmounts (bills : List Bill) : JsNumber :=
  bills.foldl (fun sum bill => sum.add (orZeroNumber bill.total_amount)) (.fin 0)

/-- The call `Bill.findAndCountAll({where, limit, order: created_at DESC})`: the
number of matching bills and the first `limit` of them, newest first (bills
created at the same instant in storage order). -/
def Bill.findAndCountAll (s : Store) (user_id : Int) (options : BillOptions) :
    Nat × List Bill :=
  let matching := s.bills.filter (fun bill =>
    bill.user_id == some user_id &&
      (match options.payment_status with
       | some status => if status != "" then bill.payment_status == some status else true
       | none => true))
  (matching.length,
    (matching.insertionSort (fun a b => b.created_at ≤ a.created_at)).take options.limit)

/-- The `user_info` object of `getUserBillInfo`. -/
structure BillUserInfo where
  id : Int
  customer_id : String
  name : String
  phone_number : String
  payment_status : Option String
  current_balance : JsNumber
  deriving DecidableEq

/-- The `billing_summary` object of `getUserBillInfo`. -/
structure BillingSummary where
  total_bills : Nat
  total_owed : JsNumber
  overdue_bills_count : Nat
  overdue_amount : JsNumber
  deriving DecidableEq

/-- One element of `recent_bills`. -/
structure RecentBill where
  bill_id : String
  billing_period_start : Option Int
  billing_period_end : Option Int
  due_date : Option Int
  amount : Option JsNumber
  payment_status : Option String
  payment_date : Option Int
  data_used_gb : Option JsNumber
  voice_used_minutes : Option Int
  created_at : Int
  is_overdue : Bool
  deriving DecidableEq

/-- The object returned by `getUserBillInfo`. -/
structure BillInfo where
  user_info : BillUserInfo
  billing_summary : BillingSummary
  recent_bills : List RecentBill
  deriving DecidableEq

/-- The summary computed from the fetched bills at instant `now`. -/
def billingSummary (count : Nat) (bills : List Bill) (now : Int) : BillingSummary :=
  let totalOwed := sumAmounts (bills.filter Bill.isOwed)
  let overdueBills := bills.filter (Bill.isOverdue now)
  { total_bills := count
    total_owed := totalOwed
    overdue_bills_count := overdueBills.length
    overdue_amount := sumAmounts overdueBills }

/-- The callback of `bills.map` that builds one element of `recent_bills`. -/
def recentBill (now : Int) (bill : Bill) : RecentBill :=
  { bill_id := bill.bill_id
    billing_period_start := bill.billing_period_start
    billing_period_end := bill.billing_period_end
    due_date := bill.due_date
    amount := bill.total_amount
    payment_status := bill.payment_status
    payment_date := bill.payment_date
    data_used_gb := bill.data_used_gb
    voice_used_minutes := bill.voice_used_minutes
    created_at := bill.created_at
    is_overdue := bill.isOverdue now }

/-- The function `getUserBillInfo(user_id, options)` at instant `now`; `none` is
the "User not found" error. -/
def getUserBillInfo (s : Store) (now : Int) (user_id : Int) (options : BillOptions) :
    Option BillInfo :=
  match s.users.find? (fun u => u.id == user_id) with
  | none => none
  | some user =>
    let fetched := Bill.findAndCountAll s user_id options
    some
      { user_info :=
          { id := user.id
            customer_id := user.customer_id
            name := user.first_name ++ " " ++ user.last_name
            phone_number := user.phone_number
            payment_status := user.payment_status
            current_balance := user.balance }
        billing_summary := billingSummary fetched.1 fetched.2 now
        recent_bills := fetched.2.map (recentBill now) }

/-- The options of `getUserSupportTickets`, with their defaults. -/
structure TicketOptions where
  limit : Nat := 20
  status : Option String := none
  priority : Option String := none

/-- An optional filter value of a `where` clause: absent or empty, it does not
filter. -/
def matchesFilter (filter : Option String) (value : String) : Bool :=
  match filter with
  | some wanted => if wanted != "" then value == wanted else true
  | none => true

/-- The order `[["priority", "DESC"], ["created_at", "DESC"]]`: the priority
column is text, compared as text. -/
def SupportTicket.before (a b : SupportTicket) : Prop :=
  b.priority < a.priority ∨ (a.priority = b.priority ∧ b.created_at ≤ a.created_at)

instance (a b : SupportTicket) : Decidable (a.before b) := by
  unfold SupportTicket.before
  infer_instance

/-- The call `SupportTicket.findAndCountAll({where, limit, order})`: the number
of matching tickets and the first `limit` of them in the order asked for
(tickets equal in both keys in storage order). -/
def SupportTicket.findAndCountAll (s : Store) (user_id : Int) (options : TicketOptions) :
    Nat × List SupportTicket :=
  let matching := s.tickets.filter (fun ticket =>
    ticket.user_id == some user_id && matchesFilter options.status ticket.status &&
      matchesFilter options.priority ticket.priority)
  (matching.length, (matching.insertionSort SupportTicket.before).take options.limit)

/-- One step of the counting `reduce`: `acc[key] = (acc[key] || 0) + 1`, the
keys in the order in which they were first met. -/
def bumpCount (acc : List (String × Nat)) (key : String) : List (String × Nat) :=
  if acc.any (fun entry => entry.1 == key) then
    acc.map (fun entry => if entry.1 == key then (entry.1, entry.2 + 1) else entry)
  else acc ++ [(key, 1)]

/-- The test `ticket.status === "open" || ticket.status === "in_progress"`. -/
def SupportTicket.isOpen (ticket : SupportTicket) : Bool :=
  ticket.status == "open" || ticket.status == "in_progress"

/-- The test `ticket.status === "resolved" || ticket.status === "closed"`. -/
def SupportTicket.isResolved (ticket : SupportTicket) : Bool :=
  ticket.status == "resolved" || ticket.status == "closed"

/-- The difference `new Date(later) - new Date(earlier)` in milliseconds. -/
def elapsedMs (later earlier : Int) : JsNumber :=
  (JsNumber.ofInt later).sub (JsNumber.ofInt earlier)

/-- The number `1000 * 60 * 60 * 24` of milliseconds in a day. -/
def msPerDay : JsNumber := .fin (1000 * 60 * 60 * 24)

/-- The callback of the `reduce` that adds up the resolution times: a ticket
without `resolved_at` leaves the sum as it is. -/
def addResolutionTime (sum : JsNumber) (ticket : SupportTicket) : JsNumber :=
  match ticket.resolved_at with
  | some resolved => sum.add (elapsedMs resolved ticket.created_at)
  | none => sum

/-- The value `avgResolutionTime` computed from the fetched tickets. -/
def avgResolutionTime (tickets : List SupportTicket) : JsNumber :=
  let resolvedTickets := tickets.filter SupportTicket.isResolved
  if 0 < resolvedTickets.length then
    (resolvedTickets.foldl addResolutionTime (.fin 0)).div
      (JsNumber.ofInt resolvedTickets.length)
  else .fin 0

/-- The value `avgResolutionDays`. -/
def avgResolutionDays (tickets : List SupportTicket) : JsNumber :=
  ((avgResolutionTime tickets).div msPerDay).round

/-- The expression `Math.ceil((new Date() - new Date(ticket.created_at)) /
(1000 * 60 * 60 * 24))`. -/
def daysOpen (now : Int) (ticket : SupportTicket) : JsNumber :=
  ((elapsedMs now ticket.created_at).div msPerDay).ceil

/-- One element of the `tickets` list of `getUserSupportTickets`. -/
structure TicketView where
  ticket_id : String
  issue_type : Option String
  priority : String
  status : String
  title : Option String
  description : Option String
  resolution : Option String
  created_at : Int
  resolved_at : Option Int
  days_open : JsNumber
  is_overdue : Bool
  deriving DecidableEq

/-- The callback of `tickets.map` that builds one element of `tickets`. -/
def ticketView (now : Int) (ticket : SupportTicket) : TicketView :=
  { ticket_id := ticket.ticket_id
    issue_type := ticket.issue_type
    priority := ticket.priority
    status := ticket.status
    title := ticket.title
    description := ticket.description
    resolution := ticket.resolution
    created_at := ticket.created_at
    resolved_at := ticket.resolved_at
    days_open := daysOpen now ticket
    is_overdue := ticket.status == "open" && (daysOpen now ticket).gt (.fin 7) }

/-- The `user_info` object of `getUserSupportTickets`. -/
structure TicketUserInfo where
  id : Int
  customer_id : String
  name : String
  phone_number : String
  email : String
  deriving DecidableEq

/-- The `tickets_summary` object of `getUserSupportTickets`. -/
structure TicketsSummary where
  total_tickets : Nat
  open_tickets : Nat
  resolved_tickets : Nat
  avg_resolution_days : JsNumber
  status_breakdown : List (String × Nat)
  priority_breakdown : List (String × Nat)
  deriving DecidableEq

/-- The object returned by `getUserSupportTickets`. -/
structure TicketInfo where
  user_info : TicketUserInfo
  tickets_summary : TicketsSummary
  tickets : List TicketView
  deriving DecidableEq

/-- The summary computed from the fetched tickets. -/
def ticketsSummary (count : Nat) (tickets : List SupportTicket) : TicketsSummary :=
  { total_tickets := count
    open_tickets := (tickets.filter SupportTicket.isOpen).length
    resolved_tickets := (tickets.filter SupportTicket.isResolved).length
    avg_resolution_days := avgResolutionDays tickets
    status_breakdown := (tickets.map (fun t => t.status)).foldl bumpCount []
    priority_breakdown := (tickets.map (fun t => t.priority)).foldl bumpCount [] }

/-- The function `getUserSupportTickets(user_id, options)` at instant `now`;
`none` is the "User not found" error. -/
def getUserSupportTickets (s : Store) (now : Int) (user_id : Int) (options : TicketOptions) :
    Option TicketInfo :=
  match s.users.find? (fun u => u.id == user_id) with
  | none => none
  | some user =>
    let fetched := SupportTicket.findAndCountAll s user_id options
    some
      { user_info :=
          { id := user.id
            customer_id := user.customer_id
            name := user.first_name ++ " " ++ user.last_name
            phone_number := user.phone_number
            email := user.email }
        tickets_summary := ticketsSummary fetched.1 fetched.2
        tickets := fetched.2.map (ticketView now) }

/-! ## The wrappers of `backend/utils/userUtils.js` -/

/-- The `message` of an alert: a fixed text, or a template with the value put
into it. -/
inductive AlertMessage where
  | dataUsage
  | voiceUsage
  | overdueBills (count : Nat)
  | outstanding (total : JsNumber)
  | urgentTickets (count : Nat)
  | overdueTickets (count : Nat)
  deriving DecidableEq

/-- An element of `alerts` or `reminders`. -/
structure Alert where
  type : String
  message : AlertMessage
  action : String
  amount : Option JsNumber := none
  deriving DecidableEq

/-- The call `parseFloat(value)` on a number or a string (the text of a number
parses back to that number). -/
def JsScalar.parseFloat : JsScalar → JsNumber
  | .number n => n
  | .string text => TurkLogos.parseFloat text

/-- The usage alerts pushed by `getUserPackageInfoWithAlerts`. -/
def usageAlerts (packageInfo : PackageInfo) : List Alert :=
  match packageInfo.current_package with
  | none => []
  | some pkg =>
    (if pkg.usage_summary.data_used_percentage.parseFloat.gt (.fin 90) then
        [{ type := "warning", message := .dataUsage,
           action := "Consider upgrading your package or monitoring usage" }]
      else []) ++
    (if pkg.usage_summary.voice_used_percentage.parseFloat.gt (.fin 90) then
        [{ type := "warning", message := .voiceUsage,
           action := "Consider upgrading your package or using alternative communication" }]
      else [])

/-- The function `getUserPackageInfoWithAlerts(user_id)`. -/
def getUserPackageInfoWithAlerts (s : Store) (user_id : Int) :
    Option (PackageInfo × List Alert) :=
  (getUserPackageInfo s user_id).map (fun packageInfo => (packageInfo, usageAlerts packageInfo))

/-- The payment reminders pushed by `getUserBillInfoWithReminders`. -/
def paymentReminders (billInfo : BillInfo) : List Alert :=
  (if 0 < billInfo.billing_summary.overdue_bills_count then
      [{ type := "urgent",
         message := .overdueBills billInfo.billing_summary.overdue_bills_count,
         amount := some billInfo.billing_summary.overdue_amount,
         action := "Please make payment immediately to avoid service interruption" }]
    else []) ++
  (if billInfo.billing_summary.total_owed.gt (.fin 0) then
      [{ type := "info", message := .outstanding billInfo.billing_summary.total_owed,
         action := "Please review and pay pending bills" }]
    else [])

/-- The function `getUserBillInfoWithReminders(user_id)` at instant `now`. -/
def getUserBillInfoWithReminders (s : Store) (now : Int) (user_id : Int) :
    Option (BillInfo × List Alert) :=
  (getUserBillInfo s now user_id {}).map (fun billInfo => (billInfo, paymentReminders billInfo))

/-- The priority alerts pushed by `getUserTicketsWithAlerts`. -/
def ticketAlerts (ticketInfo : TicketInfo) : List Alert :=
  let urgentTickets :=
    ticketInfo.tickets.filter (fun t => t.priority == "urgent" && t.status == "open")
  let overdueTickets := ticketInfo.tickets.filter (fun t => t.is_overdue)
  (if 0 < urgentTickets.length then
      [{ type := "urgent", message := .urgentTickets urgentTickets.length,
         action := "These require immediate attention" }]
    else []) ++
  (if 0 < overdueTickets.length then
      [{ type := "warning", message := .overdueTickets overdueTickets.length,
         action := "Please follow up on these tickets" }]
    else [])

/-- The function `getUserTicketsWithAlerts(user_id)` at instant `now`. -/
def getUserTicketsWithAlerts (s : Store) (now : Int) (user_id : Int) :
    Option (TicketInfo × List Alert) :=
  (getUserSupportTickets s now user_id {}).map
    (fun ticketInfo => (ticketInfo, ticketAlerts ticketInfo))

/-- The account status derived at lines 157-164 of `getUserDashboard` from the
billing summary, the ticket summary and the combined alerts. -/
def accountStatus (overdue_bills_count open_tickets : Nat) (allAlerts : List Alert) : String :=
  if 0 < overdue_bills_count then "payment_required"
  else if 2 < open_tickets then "support_needed"
  else if allAlerts.any (fun alert => alert.type == "urgent") then "attention_required"
  else "good"

/-- The expression `value || 0` on an optional number or string. -/
def orZeroScalar (value : Option JsScalar) : JsScalar :=
  match value with
  | some (.string text) => if text != "" then .string text else .number (.fin 0)
  | some (.number n) => if n.truthy then .number n else .number (.fin 0)
  | none => .number (.fin 0)

/-- The `dashboard_summary` object. -/
structure DashboardSummary where
  package_name : String
  monthly_bill : JsNumber
  outstanding_amount : JsNumber
  open_tickets : Nat
  data_usage_percentage : JsScalar
  voice_usage_percentage : JsScalar
  deriving DecidableEq

/-- The object returned by `getUserDashboard`; `last_updated` is kept as the
instant it prints. -/
structure Dashboard where
  user_info : PackageUserInfo
  account_status : String
  dashboard_summary : DashboardSummary
  alerts : List Alert
  package_info : PackageInfo × List Alert
  billing_info : BillInfo × List Alert
  support_info : TicketInfo × List Alert
  last_updated : Int
  deriving DecidableEq

/-- The function `getUserDashboard(user_id)` at instant `now`; `none` is the
rejection of one of the three calls ("User not found"). -/
def getUserDashboard (s : Store) (now : Int) (user_id : Int) : Option Dashboard :=
  match getUserPackageInfoWithAlerts s user_id, getUserBillInfoWithReminders s now user_id,
    getUserTicketsWithAlerts s now user_id with
  | some packageInfo, some billInfo, some ticketInfo =>
    let allAlerts := packageInfo.2 ++ billInfo.2 ++ ticketInfo.2
    some
      { user_info := packageInfo.1.user_info
        account_status :=
          accountStatus billInfo.1.billing_summary.overdue_bills_count
            ticketInfo.1.tickets_summary.open_tickets allAlerts
        dashboard_summary :=
          { package_name :=
              match packageInfo.1.current_package with
              | some pkg => if pkg.name != "" then pkg.name else "No Package"
              | none => "No Package"
            monthly_bill :=
              match packageInfo.1.current_package with
              | some pkg => if pkg.price.truthy then pkg.price else .fin 0
              | none => .fin 0
            outstanding_amount := billInfo.1.billing_summary.total_owed
            open_tickets := ticketInfo.1.tickets_summary.open_tickets
            data_usage_percentage :=
              orZeroScalar
                (packageInfo.1.current_package.map (fun p => p.usage_summary.data_used_percentage))
            voice_usage_percentage :=
              orZeroScalar
                (packageInfo.1.current_package.map
                  (fun p => p.usage_summary.voice_used_percentage)) }
        alerts := allAlerts
        package_info := packageInfo
        billing_info := billInfo
        support_info := ticketInfo
        last_updated := now }
  | _, _, _ => none

/-! ## `CampaignService.getCampaignAnalytics` -/

/-- The `usage_stats` object. -/
structure UsageStats where
  total_applications : Nat
  max_uses : Option Int
  remaining_uses : Option Int
  usage_percentage : Option String
  deriving DecidableEq

/-- The `financial_impact` object. -/
structure FinancialImpact where
  total_discount_given : JsNumber
  average_discount_per_user : JsScalar
  deriving DecidableEq

/-- One entry of `user_segments`. -/
structure Segment where
  count : Nat
  total_discount : JsNumber
  total_data_bonus : Int
  total_voice_bonus : Int
  deriving DecidableEq

/-- The fold `.reduce((sum, uc) => sum + (uc.discount_applied || 0), 0)`. -/
def sumDiscounts (rows : List UserCampaign) : JsNumber :=
  rows.foldl (fun sum uc => sum.add (orZeroNumber uc.discount_applied)) (.fin 0)

/-- The `financial_impact` computed from the rows of the campaign. -/
def financialImpact (rows : List UserCampaign) : FinancialImpact :=
  { total_discount_given := sumDiscounts rows
    average_discount_per_user :=
      if 0 < rows.length then
        .string ((sumDiscounts rows).div (JsNumber.ofInt rows.length)).toFixed2
      else .number (.fin 0) }

/-- One step of `_analyzeCampaignUserSegments`: the entry of the package of the
row's user (or "unknown") is created if needed and the row is added to it. -/
def addToSegment (s : Store) (segments : List (String × Segment)) (uc : UserCampaign) :
    List (String × Segment) :=
  let packageId : String :=
    match (s.users.find? (fun u => u.id == uc.user_id)).bind (fun u => u.current_package_id) with
    | some key => if key != "" then key else "unknown"
    | none => "unknown"
  let segments :=
    if segments.any (fun entry => entry.1 == packageId) then segments
    else segments ++ [(packageId, ⟨0, .fin 0, 0, 0⟩)]
  segments.map (fun entry =>
    if entry.1 == packageId then
      (entry.1,
        { count := entry.2.count + 1
          total_discount := entry.2.total_discount.add (orZeroNumber uc.discount_applied)
          total_data_bonus := entry.2.total_data_bonus + orZero uc.data_bonus_gb
          total_voice_bonus := entry.2.total_voice_bonus + orZero uc.voice_bonus_minutes })
    else entry)

/-- The object returned by `getCampaignAnalytics`. -/
structure CampaignAnalytics where
  campaign_id : Int
  campaign_name : String
  campaign_type : String
  start_date : Int
  end_date : Int
  usage_stats : UsageStats
  financial_impact : FinancialImpact
  total_data_bonus_given : Int
  total_voice_bonus_given : Int
  user_segments : List (String × Segment)
  deriving DecidableEq

/-- The rows `campaign.userCampaigns` joined by the `include`. -/
def Campaign.userCampaigns (s : Store) (campaign : Campaign) : List UserCampaign :=
  s.userCampaigns.filter (fun uc => uc.campaign_id == campaign.id)

/-- The method `CampaignService.getCampaignAnalytics(campaignId)`; `none` is the
"Campaign not found" error. -/
def getCampaignAnalytics (s : Store) (campaignId : Int) : Option CampaignAnalytics :=
  match Campaign.findByPk s campaignId with
  | none => none
  | some campaign =>
    let rows := campaign.userCampaigns s
    let limited : Bool :=
      match campaign.max_uses with
      | some m => m != 0
      | none => false
    some
      { campaign_id := campaign.id
        campaign_name := campaign.name
        campaign_type := campaign.campaign_type
        start_date := campaign.start_date
        end_date := campaign.end_date
        usage_stats :=
          { total_applications := rows.length
            max_uses := campaign.max_uses
            remaining_uses :=
              if limited then campaign.max_uses.map (fun m => m - campaign.current_uses)
              else none
            usage_percentage :=
              if limited then
                campaign.max_uses.map (fun m =>
                  (((JsNumber.ofInt campaign.current_uses).div (JsNumber.ofInt m)).mul
                    (.fin 100)).toFixed2)
              else none }
        financial_impact := financialImpact rows
        total_data_bonus_given := (rows.map (fun uc => orZero uc.data_bonus_gb)).sum
        total_voice_bonus_given := (rows.map (fun uc => orZero uc.voice_bonus_minutes)).sum
        user_segments := rows.foldl (addToSegment s) [] }

/-! ## `applyCampaignToUser` step by step -/

/-- Where a call of `applyCampaignToUser` stands between two of its `await`s,
with the local variables it holds. -/
inductive ApplyState where
  | start
  | haveCampaign (campaign : Option Campaign)
  | validated (campaign : Campaign) (package : Option Package)
  | checked (campaign : Campaign) (discount : JsNumber)
  | created (campaign : Campaign) (userCampaign : UserCampaign) (discount : JsNumber)
  | done (result : Except ApplyError ApplyResult)
  deriving DecidableEq

/-- The arguments of a call and the instant it reads. -/
structure ApplyCall where
  now : Int
  campaignId : Int
  userId : Int
  deriving DecidableEq

/-- One awaited storage operation of the call together with the code that
follows it up to the next `await`: `Campaign.findByPk`; `User.findByPk` and the
validation; `UserCampaign.findOne` and the discount; `UserCampaign.create`;
`campaign.increment`. -/
def ApplyCall.step (call : ApplyCall) (s : Store) : ApplyState → Store × ApplyState
  | .start => (s, .haveCampaign (Campaign.findByPk s call.campaignId))
  | .haveCampaign campaign =>
    match campaign, User.findByPk s call.userId with
    | some campaign, some (_, package) =>
      if campaign.notActiveAt call.now then (s, .done (.error .notActive))
      else if campaign.limitReached then (s, .done (.error .limitReached))
      else (s, .validated campaign package)
    | _, _ => (s, .done (.error .notFound))
  | .validated campaign package =>
    match UserCampaign.findOne s call.userId call.campaignId with
    | some _ => (s, .done (.error .alreadyApplied))
    | none =>
      match discountApplied campaign package with
      | none => (s, .done (.error .packageMissing))
      | some discount => (s, .checked campaign discount)
  | .checked campaign discount =>
    let userCampaign :=
      newUserCampaign s call.now campaign call.userId call.campaignId discount
    ({ s with userCampaigns := s.userCampaigns ++ [userCampaign] },
      .created campaign userCampaign discount)
  | .created campaign userCampaign discount =>
    ({ s with campaigns := s.campaigns.map (Campaign.increment call.campaignId) },
      .done (.ok
        { success := true
          userCampaign := userCampaign
          benefits :=
            { discount_applied := discount
              data_bonus_gb := orZero campaign.free_data_gb
              voice_bonus_minutes := orZero campaign.free_voice_minutes } }))
  | .done result => (s, .done result)

/-- The call run alone for `n` steps. -/
def ApplyCall.run (call : ApplyCall) : Nat → Store × ApplyState → Store × ApplyState
  | 0, cfg => cfg
  | n + 1, cfg => call.run n (call.step cfg.1 cfg.2)

/-- Two calls run concurrently: at each turn of the schedule one of them takes
its next step (`true` the first call, `false` the second). -/
def interleave (first second : ApplyCall) :
    List Bool → Store × ApplyState × ApplyState → Store × ApplyState × ApplyState
  | [], cfg => cfg
  | true :: rest, (s, a, b) =>
    interleave first second rest ((first.step s a).1, (first.step s a).2, b)
  | false :: rest, (s, a, b) =>
    interleave first second rest ((second.step s b).1, a, (second.step s b).2)

/-- Whether the call has returned its result object. -/
def ApplyState.succeeded : ApplyState → Bool
  | .done (.ok _) => true
  | _ => false

/-- Whether the call has thrown. -/
def ApplyState.failed : ApplyState → Bool
  | .done (.error _) => true
  | _ => false

/-- The schedule in which the first call takes its five steps before the second
call takes its five. -/
def sequentialSchedule : List Bool :=
  [true, true, true, true, true, false, false, false, false, false]

/-- A schedule in which both calls pass their limit check before either
writes. -/
def racingSchedule : List Bool :=
  [true, true, false, false, true, false, true, false, true, false]

/-! ## Rules of the specification for the user service -/

/-- The rule of the specification for one usage dimension (data or voice), for
the amount `used`, the package `limit`, and the `percentage` and `remaining`
reported: with a limit above 0 the percentage is `used / limit × 100` (as the
two-decimal text of the JavaScript number) and the remainder is
`max(0, limit − used)`, never negative; with a limit of 0 or less the
percentage is 0 and the remainder is the "Unlimited" marker. -/
def UsageRule (used : JsNumber) (limit : Option Int) (percentage remaining : JsScalar) : Prop :=
  (∀ n : Int, limit = some n → 0 < n →
      percentage = .string ((used.div (.fin n)).mul (.fin 100)).toFixed2 ∧
      ∃ x, remaining = .number x ∧
        x = JsNumber.max (.fin 0) ((JsNumber.fin n).sub used) ∧
        x ≠ .inf true ∧ ∀ q, x = .fin q → 0 ≤ q) ∧
    (∀ n : Int, limit = some n → n ≤ 0 →
      percentage = .number (.fin 0) ∧ remaining = .string "Unlimited")

/-- The overdue rule of the specification for a bill at instant `now`:
`payment_status` is "overdue", or it is "pending" and `due_date < now` (a null
`due_date` compares as the epoch, as `new Date(null)` does). -/
def Bill.OverdueRule (now : Int) (bill : Bill) : Prop :=
  bill.payment_status = some "overdue" ∨
    (bill.payment_status = some "pending" ∧ dateOf bill.due_date < now)

instance (now : Int) (bill : Bill) : Decidable (bill.OverdueRule now) := by
  unfold Bill.OverdueRule
  infer_instance

/-! ## Sequences of service calls -/

/-- One service call that writes to the store, with the instant at which it
runs. -/
inductive Call where
  | apply (now : Int) (campaignId userId : Int)
  | expire (now : Int)

/-- The store a call leaves behind. -/
def Call.run (s : Store) : Call → Store
  | .apply now campaignId userId => (applyCampaignToUser s now campaignId userId).1
  | .expire now => (expireOldCampaigns s now).1

/-- The store left by calls run one after the other, none overlapping the
next. -/
def runCalls (s : Store) (calls : List Call) : Store :=
  calls.foldl Call.run s

/-- At most one `UserCampaign` with status "active" for each
(user_id, campaign_id) pair. -/
def ActiveUnique (s : Store) : Prop :=
  ∀ userId campaignId : Int,
    (s.userCampaigns.filter (UserCampaign.isActiveFor userId campaignId)).length ≤ 1

/-! ## Example rows -/

/-- A package of price 100. -/
def examplePackage : Package :=
  { id := 1, package_id := "PKG001", name := "Temel Paket", price := .fin 100,
    data_limit_gb := some 10, voice_minutes := some 500, sms_count := some 100,
    is_active := true }

/-- A paying user on `examplePackage`, created at instant 0. -/
def exampleUser : User :=
  { id := 1, customer_id := "CUST001", phone_number := "+905551234567",
    first_name := "Ahmet", last_name := "Yilmaz", email := "ahmet@example.com",
    current_package_id := some "PKG001", payment_status := some "paid",
    balance := .fin 0, data_usage_gb := .fin 0, voice_usage_minutes := 0,
    created_at := 0, updated_at := 0 }

/-- A campaign valid from instant 1000 to instant 2000, with both discount
fields set (amount 50, percentage 20), a data bonus, no package restriction and
a limit of two uses. -/
def exampleCampaign : Campaign :=
  { id := 1, campaign_id := "CAMP001", name := "Yaz Kampanyasi",
    campaign_type := "discount", target_audience := some "all",
    discount_percentage := some (.fin 20), discount_amount := some (.fin 50),
    free_data_gb := some 5, free_voice_minutes := none, applicable_packages := none,
    start_date := 1000, end_date := 2000, is_active := true,
    max_uses := some 2, current_uses := 0, created_at := 0, updated_at := 0 }

/-- A store holding exactly the given campaign and package, `exampleUser` and
no application. -/
def storeWith (campaign : Campaign) (package : Package) : Store :=
  { users := [exampleUser], packages := [package], campaigns := [campaign],
    userCampaigns := [] }

/-- The store of the three example rows. -/
def exampleStore : Store := storeWith exampleCampaign examplePackage

/-- The row that applying `exampleCampaign` to `exampleUser` at instant 1500
creates in `exampleStore`. -/
def exampleRow : UserCampaign :=
  { id := 1, user_id := 1, campaign_id := 1, applied_date := 1500, status := "active",
    discount_applied := some (.fin 50), data_bonus_gb := some 5,
    voice_bonus_minutes := some 0, expires_at := some 2000, notes := none,
    created_at := 1500, updated_at := 1500 }

/-- The object that call returns. -/
def exampleResult : ApplyResult :=
  { success := true, userCampaign := exampleRow, benefits := ⟨.fin 50, 5, 0⟩ }

/-- A campaign restricted to the packages PKG002 and PKG003. -/
def restrictedCampaign : Campaign :=
  { exampleCampaign with applicable_packages := some ["PKG002", "PKG003"] }

/-- The example package at the price written `199.99` in JavaScript. -/
def pricedPackage : Package :=
  { examplePackage with price := toDouble (19999 / 100) }

/-- The example campaign with `discount_amount = 0`, so that its 20 percent
apply. -/
def percentCampaign : Campaign :=
  { exampleCampaign with discount_amount := some (.fin 0) }

/-- The number JavaScript prints as `39.998000000000005`. -/
def pricedDiscount : JsNumber := .fin (2814609029618205 / 70368744177664)

/-- The object returned by applying `percentCampaign` to the user on
`pricedPackage` at instant 1500. -/
def pricedResult : ApplyResult :=
  { success := true
    userCampaign := { exampleRow with discount_applied := some pricedDiscount }
    benefits := ⟨pricedDiscount, 5, 0⟩ }

/-- The example store after `exampleCampaign` has been applied to
`exampleUser`. -/
def appliedStore : Store :=
  { exampleStore with userCampaigns := [exampleRow] }

/-- The example campaign with `max_uses = 0`. -/
def zeroLimitCampaign : Campaign :=
  { exampleCampaign with max_uses := some 0 }

/-- A second campaign, open to everybody and not yet applied. -/
def secondCampaign : Campaign :=
  { exampleCampaign with id := 2, campaign_id := "CAMP002" }

/-- A campaign restricted to PKG002 and PKG003, with id 3. -/
def thirdCampaign : Campaign :=
  { restrictedCampaign with id := 3, campaign_id := "CAMP003" }

/-- A campaign that has used up its two uses. -/
def exhaustedCampaign : Campaign :=
  { exampleCampaign with id := 4, campaign_id := "CAMP004", current_uses := 2 }

/-- A campaign with `max_uses = 0` and no use so far. -/
def zeroCampaign : Campaign :=
  { zeroLimitCampaign with id := 5, campaign_id := "CAMP005" }

/-- A campaign targeted at premium users. -/
def premiumCampaign : Campaign :=
  { exampleCampaign with
    id := 6, campaign_id := "CAMP006", target_audience := some "premium_users" }

/-- A store with six campaigns, in which `exampleCampaign` is already applied
to `exampleUser`. -/
def listingStore : Store :=
  { users := [exampleUser], packages := [examplePackage],
    campaigns := [exampleCampaign, secondCampaign, thirdCampaign, exhaustedCampaign,
      zeroCampaign, premiumCampaign],
    userCampaigns := [exampleRow] }

/-- An application of `exampleCampaign` that ran out at instant 1200 and is
still marked active. -/
def staleRow : UserCampaign :=
  { exampleRow with id := 2, user_id := 2, expires_at := some 1200 }

/-- An active application without expiry date. -/
def openRow : UserCampaign :=
  { exampleRow with id := 3, user_id := 3, expires_at := none }

/-- A cancelled application that ran out at instant 1200. -/
def cancelledRow : UserCampaign :=
  { exampleRow with id := 4, user_id := 4, status := "cancelled", expires_at := some 1200 }

/-- The example store with four applications. -/
def expiryStore : Store :=
  { exampleStore with userCampaigns := [exampleRow, staleRow, openRow, cancelledRow] }

/-- A second application of the example user, applied earlier, running out
exactly at instant 1500, with a voice bonus and no discount. -/
def voiceRow : UserCampaign :=
  { exampleRow with
    id := 2, campaign_id := 2, applied_date := 1400, discount_applied := none,
    data_bonus_gb := none, voice_bonus_minutes := some 100, expires_at := some 1500 }

/-- An active application of the example user that ran out at instant 1200. -/
def lapsedRow : UserCampaign :=
  { exampleRow with id := 3, campaign_id := 3, expires_at := some 1200 }

/-- The example store with three applications of the example user and one of
another user. -/
def benefitsStore : Store :=
  { exampleStore with userCampaigns := [voiceRow, lapsedRow, staleRow, exampleRow] }

/-- The result of `getUserActiveCampaigns` on `benefitsStore` at instant 1500. -/
def benefitsResult : ActiveCampaigns :=
  { user_info := (exampleUser, some examplePackage)
    active_campaigns := [(exampleRow, some exampleCampaign), (voiceRow, none)]
    total_benefits := ⟨.fin 50, 5, 100⟩
    campaigns_count := 2 }

/-- A user who has used 12 GB and 300 minutes. -/
def heavyUser : User :=
  { exampleUser with data_usage_gb := .fin 12, voice_usage_minutes := 300 }

/-- A package with 10 GB of data and unlimited voice (the `-1` sentinel). -/
def unlimitedVoicePackage : Package :=
  { examplePackage with data_limit_gb := some 10, voice_minutes := some (-1) }

/-- The store of `heavyUser` on `unlimitedVoicePackage`. -/
def usageStore : Store :=
  { users := [heavyUser], packages := [unlimitedVoicePackage], campaigns := [],
    userCampaigns := [] }

/-- A bill of the example user: pending, due at instant 1000. -/
def pendingBill : Bill :=
  { id := 1, bill_id := "BILL001", user_id := some 1, billing_period_start := some 0,
    billing_period_end := some 900, due_date := some 1000, total_amount := some (.fin 150),
    payment_status := some "pending", payment_date := none, data_used_gb := some (.fin 3),
    voice_used_minutes := some 120, created_at := 900, updated_at := 900 }

/-- A bill marked overdue. -/
def overdueBill : Bill :=
  { pendingBill with
    id := 2, bill_id := "BILL002", payment_status := some "overdue",
    total_amount := some (.fin 100), created_at := 800 }

/-- A paid bill. -/
def paidBill : Bill :=
  { pendingBill with
    id := 3, bill_id := "BILL003", payment_status := some "paid", payment_date := some 950,
    created_at := 700 }

/-- A pending bill due at instant 3000. -/
def futureBill : Bill :=
  { pendingBill with id := 4, bill_id := "BILL004", due_date := some 3000, created_at := 1400 }

/-- The example store with four bills of the example user. -/
def billingStore : Store :=
  { exampleStore with bills := [paidBill, overdueBill, pendingBill, futureBill] }

/-- The object `getUserPackageInfo` returns for `heavyUser`. -/
def usageResult : PackageInfo :=
  { user_info :=
      { id := 1, customer_id := "CUST001", name := "Ahmet Yilmaz",
        phone_number := "+905551234567", email := "ahmet@example.com",
        payment_status := some "paid", balance := .fin 0, data_usage_gb := .fin 12,
        voice_usage_minutes := 300 }
    current_package := some
      { package_id := "PKG001", name := "Temel Paket", price := .fin 100,
        data_limit_gb := some 10, voice_minutes := some (-1), sms_count := some 100,
        is_active := true,
        usage_summary :=
          { data_used_percentage := .string "120.00"
            voice_used_percentage := .number (.fin 0)
            remaining_data_gb := .number (.fin 0)
            remaining_voice_minutes := .string "Unlimited" } } }

/-- A ticket of the example user: high priority, open, created at instant 0. -/
def highTicket : SupportTicket :=
  { id := 1, ticket_id := "TKT001", user_id := some 1, issue_type := some "billing",
    priority := "high", status := "open", title := some "Fatura", description := none,
    resolution := none, resolved_at := none, created_at := 0, updated_at := 0 }

/-- A low-priority ticket, open, created at instant 100. -/
def lowTicket : SupportTicket :=
  { highTicket with id := 2, ticket_id := "TKT002", priority := "low", created_at := 100 }

/-- A closed ticket that took four days to resolve. -/
def resolvedTicket : SupportTicket :=
  { highTicket with
    id := 3, ticket_id := "TKT003", priority := "medium", status := "closed",
    created_at := 1000, resolved_at := some (1000 + 4 * 86400000) }

/-- A closed ticket without `resolved_at`. -/
def closedTicket : SupportTicket :=
  { highTicket with
    id := 4, ticket_id := "TKT004", priority := "medium", status := "closed",
    created_at := 2000, resolved_at := none }

/-- An urgent open ticket created at instant 200. -/
def urgentTicket : SupportTicket :=
  { highTicket with id := 5, ticket_id := "TKT005", priority := "urgent", created_at := 200 }

/-- The example store with the high and the low ticket. -/
def priorityStore : Store :=
  { exampleStore with tickets := [highTicket, lowTicket] }

/-- The example store with the two closed tickets. -/
def resolutionStore : Store :=
  { exampleStore with tickets := [resolvedTicket, closedTicket] }

/-- The example store with one urgent open ticket and no bill. -/
def urgentStore : Store :=
  { exampleStore with tickets := [urgentTicket] }

/-- A second user, on the same package. -/
def secondUser : User :=
  { exampleUser with id := 2, customer_id := "CUST002", phone_number := "+905557654321" }

/-- A campaign that can be used once. -/
def singleUseCampaign : Campaign :=
  { exampleCampaign with max_uses := some 1 }

/-- A store with two users and the single-use campaign. -/
def raceStore : Store :=
  { users := [exampleUser, secondUser], packages := [examplePackage],
    campaigns := [singleUseCampaign], userCampaigns := [] }

/-- The call of the first user for the single-use campaign. -/
def firstCall : ApplyCall := { now := 1500, campaignId := 1, userId := 1 }

/-- The call of the second user for the single-use campaign. -/
def secondCall : ApplyCall := { now := 1500, campaignId := 1, userId := 2 }

/-- A user whose `current_package_id` is null. -/
def noPackageUser : User :=
  { exampleUser with current_package_id := none }

/-- The store of the user without package and the 20 percent campaign. -/
def noPackageStore : Store :=
  { users := [noPackageUser], packages := [examplePackage], campaigns := [percentCampaign],
    userCampaigns := [] }

/-- Three applications of `exampleCampaign` with discounts 50, 25 and 25. -/
def analyticsStore : Store :=
  { exampleStore with
    userCampaigns :=
      [exampleRow,
        { exampleRow with id := 2, user_id := 2, discount_applied := some (.fin 25) },
        { exampleRow with id := 3, user_id := 3, discount_applied := some (.fin 25) }] }

/-! ## The rounding to binary64 -/

/-- With fuel at least `n`, `floorLog2` is the position of the leading bit of
`n`. -/
theorem floorLog2_bounds (fuel n : Nat) (hfuel : n ≤ fuel) (hn : 0 < n) :
    2 ^ floorLog2 fuel n ≤ n ∧ n < 2 ^ (floorLog2 fuel n + 1) := by
  induction fuel generalizing n with
  | zero => omega
  | succ fuel ih =>
    unfold floorLog2
    by_cases h2 : n < 2
    · simp only [h2, if_true]
      omega
    · simp only [h2, if_false]
      obtain ⟨hlo, hhi⟩ := ih (n / 2) (by omega) (by omega)
      constructor
      · rw [pow_succ]
        omega
      · rw [pow_succ]
        omega

/-- The rounding agrees with JavaScript on reference values: the literals
`0.1`, `0.2`, `199.99` and `39.998`, an integer, the largest finite number and
the overflow threshold, and ties in the subnormal range. -/
theorem toDouble_reference_values :
    toDouble (1 / 10) = .fin (3602879701896397 / 2 ^ 55) ∧
      toDouble (2 / 10) = .fin (3602879701896397 / 2 ^ 54) ∧
      toDouble (19999 / 100) = .fin (879565321755689 / 2 ^ 42) ∧
      toDouble (39998 / 1000) = .fin (5629218059236409 / 2 ^ 47) ∧
      toDouble (-1 / 3) = .fin (-6004799503160661 / 2 ^ 54) ∧
      toDouble 200 = .fin 200 ∧
      toDouble (2 ^ 53 + 1) = .fin (2 ^ 53) ∧
      toDouble (2 ^ 1024 - 2 ^ 970 - 1) = .fin (2 ^ 1024 - 2 ^ 971) ∧
      toDouble (2 ^ 1024 - 2 ^ 970) = .inf false ∧
      toDouble (1 / 2 ^ 1075) = .fin 0 ∧
      toDouble (3 / 2 ^ 1075) = .fin (1 / 2 ^ 1073) := by
  decide!

/-- The operations agree with JavaScript on reference values: `0.1 + 0.2`,
`10 - 12`, `Math.max(0, -2)`, and `toFixed(2)` of `12 / 10 * 100`,
`1 / 3 * 100`, `0`, `-0.001`, `1.005`, `1234567.89`, `1e21`, `2 ** 70`, `1e23`
and the largest finite number. -/
theorem arithmetic_reference_values :
    (toDouble (1 / 10)).add (toDouble (2 / 10)) = .fin (1351079888211149 / 2 ^ 52) ∧
      (JsNumber.fin 10).sub (.fin 12) = .fin (-2) ∧
      JsNumber.max (.fin 0) (.fin (-2)) = .fin 0 ∧
      (((JsNumber.fin 12).div (.fin 10)).mul (.fin 100)).toFixed2 = "120.00" ∧
      (((JsNumber.fin 1).div (.fin 3)).mul (.fin 100)).toFixed2 = "33.33" ∧
      (JsNumber.fin 0).toFixed2 = "0.00" ∧
      (toDouble (-1 / 1000)).toFixed2 = "-0.00" ∧
      (toDouble (1005 / 1000)).toFixed2 = "1.00" ∧
      (toDouble (123456789 / 100)).toFixed2 = "1234567.89" ∧
      (toDouble (10 ^ 21)).toFixed2 = "1e+21" ∧
      (toDouble (2 ^ 70)).toFixed2 = "1.1805916207174113e+21" ∧
      (toDouble (10 ^ 23)).toFixed2 = "1e+23" ∧
      (toDouble (2 ^ 1024 - 2 ^ 970 - 1)).toFixed2 = "1.7976931348623157e+308" := by
  decide!

/-! ## Order properties of the rounding -/

/-- The rounding in terms of `magnitude`. -/
theorem toDouble_of_ne_zero (q : ℚ) (hq : q ≠ 0) :
    toDouble q =
      if (2 : ℚ) ^ 1024 ≤ magnitude q.num.natAbs q.den then .inf (decide (q < 0))
      else .fin (if q < 0 then -magnitude q.num.natAbs q.den
        else magnitude q.num.natAbs q.den) := by
  simp only [toDouble, if_neg hq, magnitude, significand, quantum]

/-- Rounding to the nearest natural number is monotone. -/
theorem roundHalfEven_mono (N₁ D₁ N₂ D₂ : Nat) (h₁ : 0 < D₁) (h₂ : 0 < D₂)
    (h : N₁ * D₂ ≤ N₂ * D₁) : roundHalfEven N₁ D₁ ≤ roundHalfEven N₂ D₂ := by
  have e₁ := Nat.div_add_mod N₁ D₁
  have e₂ := Nat.div_add_mod N₂ D₂
  have r₁ := Nat.mod_lt N₁ h₁
  have r₂ := Nat.mod_lt N₂ h₂
  unfold roundHalfEven
  simp only
  generalize N₁ / D₁ = f₁ at *
  generalize N₂ / D₂ = f₂ at *
  generalize N₁ % D₁ = a at *
  generalize N₂ % D₂ = b at *
  subst e₁ e₂
  have hf : f₁ ≤ f₂ := by
    by_contra hlt
    have h3 : f₂ + 1 ≤ f₁ := by omega
    have h4 : D₁ * D₂ * (f₂ + 1) ≤ D₁ * D₂ * f₁ := Nat.mul_le_mul_left _ h3
    have h5 : b * D₁ < D₂ * D₁ := Nat.mul_lt_mul_of_pos_right r₂ h₁
    nlinarith
  rcases Nat.lt_or_ge f₁ f₂ with hlt | hge
  · split_ifs <;> omega
  · have hfe : f₁ = f₂ := by omega
    subst hfe
    have hab : a * D₂ ≤ b * D₁ := by nlinarith
    have c₁ : 2 * a < D₁ ↔ 2 * (a * D₂) < D₁ * D₂ := by
      rw [← mul_assoc]
      exact (Nat.mul_lt_mul_right h₂).symm
    have c₂ : D₁ < 2 * a ↔ D₁ * D₂ < 2 * (a * D₂) := by
      rw [← mul_assoc]
      exact (Nat.mul_lt_mul_right h₂).symm
    have c₃ : 2 * b < D₂ ↔ 2 * (b * D₁) < D₁ * D₂ := by
      rw [← mul_assoc, mul_comm D₁ D₂]
      exact (Nat.mul_lt_mul_right h₁).symm
    have c₄ : D₂ < 2 * b ↔ D₁ * D₂ < 2 * (b * D₁) := by
      rw [← mul_assoc, mul_comm D₁ D₂]
      exact (Nat.mul_lt_mul_right h₁).symm
    simp only [c₁, c₂, c₃, c₄]
    generalize a * D₂ = x at *
    generalize b * D₁ = y at *
    generalize D₁ * D₂ = z at *
    split_ifs <;> omega

/-- A whole number rounds to itself. -/
theorem roundHalfEven_one (j : Nat) : roundHalfEven j 1 = j := by
  simp [roundHalfEven, Nat.mod_one]

/-- A power of two with a non-negative integer exponent. -/
theorem two_zpow_toNat (k : Int) (hk : 0 ≤ k) : (2 : ℚ) ^ k.toNat = (2 : ℚ) ^ k := by
  conv_rhs => rw [← Int.toNat_of_nonneg hk]
  rw [zpow_natCast]

/-- A power of two with a negative integer exponent. -/
theorem two_zpow_neg_toNat (k : Int) (hk : k < 0) :
    (2 : ℚ) ^ (-k).toNat = ((2 : ℚ) ^ k)⁻¹ := by
  rw [two_zpow_toNat (-k) (by omega), zpow_neg]

/-- What `belowPow2` decides. -/
theorem belowPow2_iff (n d : Nat) (hd : 0 < d) (e : Int) :
    belowPow2 n d e = true ↔ (n : ℚ) / d < (2 : ℚ) ^ e := by
  have hd' : (0 : ℚ) < d := by exact_mod_cast hd
  have hp : (0 : ℚ) < (2 : ℚ) ^ e := zpow_pos (by norm_num) e
  unfold belowPow2
  by_cases he : 0 ≤ e
  · rw [if_pos he, decide_eq_true_iff, div_lt_iff₀ hd', ← two_zpow_toNat e he]
    constructor
    · intro h
      have : ((n : Nat) : ℚ) < ((d * 2 ^ e.toNat : Nat) : ℚ) := by exact_mod_cast h
      push_cast at this
      linarith
    · intro h
      have : ((n : Nat) : ℚ) < ((d * 2 ^ e.toNat : Nat) : ℚ) := by
        push_cast
        linarith
      exact_mod_cast this
  · rw [if_neg he, decide_eq_true_iff, div_lt_iff₀ hd']
    have hinv := two_zpow_neg_toNat e (by omega)
    have hq : (2 : ℚ) ^ (-e).toNat * (2 : ℚ) ^ e = 1 := by
      rw [hinv]
      exact inv_mul_cancel₀ (ne_of_gt hp)
    have hpos : (0 : ℚ) < (2 : ℚ) ^ (-e).toNat := by positivity
    constructor
    · intro h
      have h1 : ((n * 2 ^ (-e).toNat : Nat) : ℚ) < ((d : Nat) : ℚ) := by exact_mod_cast h
      push_cast at h1
      have h2 : (n : ℚ) * (2 : ℚ) ^ (-e).toNat * (2 : ℚ) ^ e < d * (2 : ℚ) ^ e :=
        mul_lt_mul_of_pos_right h1 hp
      rw [mul_assoc, hq] at h2
      linarith
    · intro h
      have h2 : (n : ℚ) * (2 : ℚ) ^ (-e).toNat < (2 : ℚ) ^ e * d * (2 : ℚ) ^ (-e).toNat :=
        mul_lt_mul_of_pos_right h hpos
      have h3 : (2 : ℚ) ^ e * d * (2 : ℚ) ^ (-e).toNat =
          d * ((2 : ℚ) ^ (-e).toNat * (2 : ℚ) ^ e) := by ring
      rw [h3, hq] at h2
      have h1 : ((n * 2 ^ (-e).toNat : Nat) : ℚ) < ((d : Nat) : ℚ) := by
        push_cast
        linarith
      exact_mod_cast h1

/-- The binary exponent brackets the rational: `2 ^ e ≤ n / d < 2 ^ (e + 1)`. -/
theorem binaryExponent_spec (n d : Nat) (hn : 0 < n) (hd : 0 < d) :
    (2 : ℚ) ^ binaryExponent n d ≤ (n : ℚ) / d ∧
      (n : ℚ) / d < (2 : ℚ) ^ (binaryExponent n d + 1) := by
  obtain ⟨hnlo, hnhi⟩ := floorLog2_bounds n n le_rfl hn
  obtain ⟨hdlo, hdhi⟩ := floorLog2_bounds d d le_rfl hd
  have hd' : (0 : ℚ) < d := by exact_mod_cast hd
  unfold binaryExponent
  simp only
  have h2 : (2 : ℚ) ≠ 0 := by norm_num
  have hnlo' : (2 : ℚ) ^ (floorLog2 n n : Int) ≤ n := by
    rw [zpow_natCast]
    exact_mod_cast hnlo
  have hnhi' : (n : ℚ) < (2 : ℚ) ^ ((floorLog2 n n : Int) + 1) := by
    have : (n : ℚ) < (2 : ℚ) ^ (floorLog2 n n + 1) := by exact_mod_cast hnhi
    rwa [← zpow_natCast, Nat.cast_add, Nat.cast_one] at this
  have hdlo' : (2 : ℚ) ^ (floorLog2 d d : Int) ≤ d := by
    rw [zpow_natCast]
    exact_mod_cast hdlo
  have hdhi' : (d : ℚ) < (2 : ℚ) ^ ((floorLog2 d d : Int) + 1) := by
    have : (d : ℚ) < (2 : ℚ) ^ (floorLog2 d d + 1) := by exact_mod_cast hdhi
    rwa [← zpow_natCast, Nat.cast_add, Nat.cast_one] at this
  generalize (floorLog2 n n : Int) = a at *
  generalize (floorLog2 d d : Int) = b at *
  have hpb : (0 : ℚ) < (2 : ℚ) ^ b := zpow_pos (by norm_num) b
  have hlow : (2 : ℚ) ^ (a - b - 1) ≤ (n : ℚ) / d := by
    rw [le_div_iff₀ hd']
    have e1 : (2 : ℚ) ^ a = (2 : ℚ) ^ (a - b - 1) * (2 : ℚ) ^ (b + 1) := by
      rw [← zpow_add₀ h2]
      congr 1
      ring
    have hp : (0 : ℚ) < (2 : ℚ) ^ (a - b - 1) := zpow_pos (by norm_num) _
    nlinarith
  have hhigh : (n : ℚ) / d < (2 : ℚ) ^ (a - b + 1) := by
    rw [div_lt_iff₀ hd']
    have e1 : (2 : ℚ) ^ (a + 1) = (2 : ℚ) ^ (a - b + 1) * (2 : ℚ) ^ b := by
      rw [← zpow_add₀ h2]
      congr 1
      ring
    have hp : (0 : ℚ) < (2 : ℚ) ^ (a - b + 1) := zpow_pos (by norm_num) _
    nlinarith
  by_cases hb : belowPow2 n d (a - b) = true
  · rw [if_pos hb]
    refine ⟨hlow, ?_⟩
    rw [sub_add_cancel]
    exact (belowPow2_iff n d hd _).1 hb
  · rw [if_neg hb]
    refine ⟨?_, hhigh⟩
    rw [belowPow2_iff n d hd] at hb
    exact not_lt.1 hb

/-- Rounding to the nearest natural number is monotone in the rational. -/
theorem roundHalfEven_mono_rat (N₁ D₁ N₂ D₂ : Nat) (h₁ : 0 < D₁) (h₂ : 0 < D₂)
    (h : (N₁ : ℚ) / D₁ ≤ (N₂ : ℚ) / D₂) : roundHalfEven N₁ D₁ ≤ roundHalfEven N₂ D₂ := by
  apply roundHalfEven_mono N₁ D₁ N₂ D₂ h₁ h₂
  have h₁' : (0 : ℚ) < D₁ := by exact_mod_cast h₁
  have h₂' : (0 : ℚ) < D₂ := by exact_mod_cast h₂
  rw [div_le_div_iff₀ h₁' h₂'] at h
  exact_mod_cast h

/-- The significand is the rounding of `n / d` counted in quanta. -/
theorem significand_eq (n d : Nat) (hd : 0 < d) :
    ∃ N D : Nat, 0 < D ∧ significand n d = roundHalfEven N D ∧
      (N : ℚ) / D = (n : ℚ) / d / (2 : ℚ) ^ quantum n d := by
  have hd' : (0 : ℚ) < d := by exact_mod_cast hd
  have hp : (0 : ℚ) < (2 : ℚ) ^ quantum n d := zpow_pos (by norm_num) _
  unfold significand
  by_cases hk : 0 ≤ quantum n d
  · refine ⟨n, d * 2 ^ (quantum n d).toNat, by positivity, by rw [if_pos hk], ?_⟩
    push_cast
    rw [two_zpow_toNat _ hk, div_div]
  · refine ⟨n * 2 ^ (-(quantum n d)).toNat, d, hd, by rw [if_neg hk], ?_⟩
    push_cast
    rw [two_zpow_neg_toNat _ (by omega)]
    field_simp
    exact Or.inl (mul_comm _ _)

/-- The magnitude is the significand times the quantum. -/
theorem magnitude_eq (n d : Nat) :
    magnitude n d = (significand n d : ℚ) * (2 : ℚ) ^ quantum n d := by
  unfold magnitude
  by_cases hk : 0 ≤ quantum n d
  · rw [if_pos hk]
    push_cast
    rw [two_zpow_toNat _ hk]
  · rw [if_neg hk]
    push_cast
    rw [two_zpow_neg_toNat _ (by omega), div_inv_eq_mul]

/-- At most `j` quanta round to at most `j`. -/
theorem significand_le (n d : Nat) (hd : 0 < d) (j : Nat)
    (h : (n : ℚ) / d ≤ j * (2 : ℚ) ^ quantum n d) : significand n d ≤ j := by
  obtain ⟨N, D, hD, hs, hND⟩ := significand_eq n d hd
  have hp : (0 : ℚ) < (2 : ℚ) ^ quantum n d := zpow_pos (by norm_num) _
  rw [hs, ← roundHalfEven_one j]
  apply roundHalfEven_mono_rat N D j 1 hD Nat.one_pos
  rw [hND, Nat.cast_one, div_one, div_le_iff₀ hp]
  exact h

/-- At least `j` quanta round to at least `j`. -/
theorem le_significand (n d : Nat) (hd : 0 < d) (j : Nat)
    (h : (j : ℚ) * (2 : ℚ) ^ quantum n d ≤ (n : ℚ) / d) : j ≤ significand n d := by
  obtain ⟨N, D, hD, hs, hND⟩ := significand_eq n d hd
  have hp : (0 : ℚ) < (2 : ℚ) ^ quantum n d := zpow_pos (by norm_num) _
  rw [hs, ← roundHalfEven_one j]
  apply roundHalfEven_mono_rat j 1 N D Nat.one_pos hD
  rw [hND, Nat.cast_one, div_one, le_div_iff₀ hp]
  exact h

/-- With the same quantum, a larger rational has a larger significand. -/
theorem significand_mono (n₁ d₁ n₂ d₂ : Nat) (h₁ : 0 < d₁) (h₂ : 0 < d₂)
    (hk : quantum n₁ d₁ = quantum n₂ d₂) (h : (n₁ : ℚ) / d₁ ≤ (n₂ : ℚ) / d₂) :
    significand n₁ d₁ ≤ significand n₂ d₂ := by
  obtain ⟨N₁, D₁, hD₁, hs₁, hND₁⟩ := significand_eq n₁ d₁ h₁
  obtain ⟨N₂, D₂, hD₂, hs₂, hND₂⟩ := significand_eq n₂ d₂ h₂
  have hp : (0 : ℚ) < (2 : ℚ) ^ quantum n₂ d₂ := zpow_pos (by norm_num) _
  rw [hs₁, hs₂]
  apply roundHalfEven_mono_rat N₁ D₁ N₂ D₂ hD₁ hD₂
  rw [hND₁, hND₂, hk]
  exact div_le_div_of_nonneg_right h (le_of_lt hp)

/-- The quantum is the binary exponent less 52, and at least `2 ^ (-1074)`. -/
theorem quantum_cases (n d : Nat) :
    (quantum n d = binaryExponent n d - 52 ∧ -1074 ≤ binaryExponent n d - 52) ∨
      (quantum n d = -1074 ∧ binaryExponent n d - 52 ≤ -1074) := by
  unfold quantum
  rcases le_total (binaryExponent n d - 52) (-1074) with h | h
  · right
    exact ⟨max_eq_right h, h⟩
  · left
    exact ⟨max_eq_left h, h⟩

/-- The magnitude is at most `2 ^ 53` quanta. -/
theorem magnitude_le (n d : Nat) (hn : 0 < n) (hd : 0 < d) :
    magnitude n d ≤ (2 : ℚ) ^ (quantum n d + 53) := by
  obtain ⟨_, hhi⟩ := binaryExponent_spec n d hn hd
  have hp : (0 : ℚ) < (2 : ℚ) ^ quantum n d := zpow_pos (by norm_num) _
  have hle : binaryExponent n d + 1 ≤ quantum n d + 53 := by
    rcases quantum_cases n d with ⟨h, _⟩ | ⟨h, h'⟩ <;> omega
  have h1 : (2 : ℚ) ^ (binaryExponent n d + 1) ≤ (2 : ℚ) ^ (quantum n d + 53) :=
    zpow_le_zpow_right₀ (by norm_num) hle
  have h2 : (2 : ℚ) ^ (quantum n d + 53) = ((2 ^ 53 : Nat) : ℚ) * (2 : ℚ) ^ quantum n d := by
    rw [zpow_add₀ (by norm_num : (2 : ℚ) ≠ 0), mul_comm]
    norm_num
  have hs : significand n d ≤ 2 ^ 53 := by
    apply significand_le n d hd
    rw [← h2]
    linarith
  rw [magnitude_eq, h2]
  apply mul_le_mul_of_nonneg_right _ (le_of_lt hp)
  exact_mod_cast hs

/-- In the normal range, the magnitude is at least `2 ^ 52` quanta. -/
theorem le_magnitude (n d : Nat) (hn : 0 < n) (hd : 0 < d)
    (hk : quantum n d = binaryExponent n d - 52) :
    (2 : ℚ) ^ (quantum n d + 52) ≤ magnitude n d := by
  obtain ⟨hlo, _⟩ := binaryExponent_spec n d hn hd
  have hp : (0 : ℚ) < (2 : ℚ) ^ quantum n d := zpow_pos (by norm_num) _
  have he : binaryExponent n d = quantum n d + 52 := by omega
  rw [he] at hlo
  have h2 : (2 : ℚ) ^ (quantum n d + 52) = ((2 ^ 52 : Nat) : ℚ) * (2 : ℚ) ^ quantum n d := by
    rw [zpow_add₀ (by norm_num : (2 : ℚ) ≠ 0), mul_comm]
    norm_num
  have hs : 2 ^ 52 ≤ significand n d := by
    apply le_significand n d hd
    rw [← h2]
    exact hlo
  rw [magnitude_eq, h2]
  apply mul_le_mul_of_nonneg_right _ (le_of_lt hp)
  exact_mod_cast hs

/-- The magnitude is monotone in the rational. -/
theorem magnitude_mono (n₁ d₁ n₂ d₂ : Nat) (hn₁ : 0 < n₁) (hd₁ : 0 < d₁) (hn₂ : 0 < n₂)
    (hd₂ : 0 < d₂) (h : (n₁ : ℚ) / d₁ ≤ (n₂ : ℚ) / d₂) :
    magnitude n₁ d₁ ≤ magnitude n₂ d₂ := by
  obtain ⟨hlo₁, _⟩ := binaryExponent_spec n₁ d₁ hn₁ hd₁
  obtain ⟨_, hhi₂⟩ := binaryExponent_spec n₂ d₂ hn₂ hd₂
  have hlt : (2 : ℚ) ^ binaryExponent n₁ d₁ < (2 : ℚ) ^ (binaryExponent n₂ d₂ + 1) := by
    linarith
  rw [zpow_lt_zpow_iff_right₀ (by norm_num)] at hlt
  rcases quantum_cases n₁ d₁ with ⟨k₁, b₁⟩ | ⟨k₁, b₁⟩ <;>
    rcases quantum_cases n₂ d₂ with ⟨k₂, b₂⟩ | ⟨k₂, b₂⟩
  all_goals
    rcases eq_or_lt_of_le (show quantum n₁ d₁ ≤ quantum n₂ d₂ by omega) with hk | hk
    · rw [magnitude_eq, magnitude_eq, hk]
      apply mul_le_mul_of_nonneg_right _ (le_of_lt (zpow_pos (by norm_num) _))
      exact_mod_cast significand_mono n₁ d₁ n₂ d₂ hd₁ hd₂ hk h
    · first
        | omega
        | exact le_trans (magnitude_le n₁ d₁ hn₁ hd₁)
            (le_trans (zpow_le_zpow_right₀ (by norm_num) (by omega))
              (le_magnitude n₂ d₂ hn₂ hd₂ k₂))

/-- A rational on the grid, `M × 2 ^ K` with `M < 2 ^ 53` and `K ≥ -1074`, is
its own magnitude. -/
theorem magnitude_grid (n d : Nat) (hn : 0 < n) (hd : 0 < d) (M : Nat) (K : Int)
    (hM : M < 2 ^ 53) (hK : -1074 ≤ K) (hx : (n : ℚ) / d = M * (2 : ℚ) ^ K) :
    magnitude n d = M * (2 : ℚ) ^ K := by
  obtain ⟨hlo, _⟩ := binaryExponent_spec n d hn hd
  have h2 : (2 : ℚ) ≠ 0 := by norm_num
  have hpK : (0 : ℚ) < (2 : ℚ) ^ K := zpow_pos (by norm_num) _
  have hlt : (2 : ℚ) ^ binaryExponent n d < (2 : ℚ) ^ (K + 53) := by
    have e1 : (2 : ℚ) ^ (K + 53) = ((2 ^ 53 : Nat) : ℚ) * (2 : ℚ) ^ K := by
      rw [zpow_add₀ h2, mul_comm]
      norm_num
    have e2 : (M : ℚ) < ((2 ^ 53 : Nat) : ℚ) := by exact_mod_cast hM
    rw [e1]
    calc (2 : ℚ) ^ binaryExponent n d ≤ (n : ℚ) / d := hlo
      _ = M * (2 : ℚ) ^ K := hx
      _ < ((2 ^ 53 : Nat) : ℚ) * (2 : ℚ) ^ K := mul_lt_mul_of_pos_right e2 hpK
  rw [zpow_lt_zpow_iff_right₀ (by norm_num)] at hlt
  have hkK : quantum n d ≤ K := by
    rcases quantum_cases n d with ⟨h, _⟩ | ⟨h, _⟩ <;> omega
  have hJ : ((M * 2 ^ (K - quantum n d).toNat : Nat) : ℚ) * (2 : ℚ) ^ quantum n d =
      M * (2 : ℚ) ^ K := by
    push_cast
    rw [two_zpow_toNat _ (by omega), mul_assoc, ← zpow_add₀ h2, sub_add_cancel]
  have hs : significand n d = M * 2 ^ (K - quantum n d).toNat := by
    apply le_antisymm
    · apply significand_le n d hd
      rw [hJ, hx]
    · apply le_significand n d hd
      rw [hJ, hx]
  rw [magnitude_eq, hs, hJ]

/-- The significand has at most 53 bits, or is `2 ^ 53`. -/
theorem significand_le_pow (n d : Nat) (hn : 0 < n) (hd : 0 < d) :
    significand n d ≤ 2 ^ 53 := by
  have h := magnitude_le n d hn hd
  have hp : (0 : ℚ) < (2 : ℚ) ^ quantum n d := zpow_pos (by norm_num) _
  have h2 : (2 : ℚ) ^ (quantum n d + 53) = ((2 ^ 53 : Nat) : ℚ) * (2 : ℚ) ^ quantum n d := by
    rw [zpow_add₀ (by norm_num : (2 : ℚ) ≠ 0), mul_comm]
    norm_num
  rw [magnitude_eq, h2] at h
  have h3 := le_of_mul_le_mul_right h hp
  exact_mod_cast h3

/-- The numerator and denominator that `toDouble` works on give `|q|`. -/
theorem natAbs_div_den (q : ℚ) : ((q.num.natAbs : Nat) : ℚ) / q.den = |q| := by
  have hden : (0 : ℚ) < q.den := by exact_mod_cast q.den_pos
  conv_rhs => rw [← Rat.num_div_den q]
  rw [abs_div, abs_of_pos hden, Nat.cast_natAbs, Int.cast_abs]

/-- The rounding of a positive rational. -/
theorem toDouble_pos (q : ℚ) (hq : 0 < q) :
    toDouble q =
      if (2 : ℚ) ^ 1024 ≤ magnitude q.num.natAbs q.den then .inf false
      else .fin (magnitude q.num.natAbs q.den) := by
  rw [toDouble_of_ne_zero q (ne_of_gt hq)]
  have : ¬ q < 0 := not_lt.2 (le_of_lt hq)
  simp [this]

/-- Rounding commutes with negation. -/
theorem toDouble_neg (q : ℚ) : toDouble (-q) = (toDouble q).neg := by
  by_cases hq : q = 0
  · subst hq
    simp [toDouble, JsNumber.neg]
  · have hq' : -q ≠ 0 := neg_ne_zero.2 hq
    rw [toDouble_of_ne_zero q hq, toDouble_of_ne_zero (-q) hq']
    have e1 : (-q).num.natAbs = q.num.natAbs := by
      rw [Rat.neg_num, Int.natAbs_neg]
    have e2 : (-q).den = q.den := Rat.neg_den q
    rw [e1, e2]
    rcases lt_or_gt_of_ne hq with h | h
    · have h1 : ¬ (-q < 0) := by
        rw [not_lt]
        linarith
      by_cases hov : (2 : ℚ) ^ 1024 ≤ magnitude q.num.natAbs q.den
      · simp [hov, h, h1, JsNumber.neg]
      · simp [hov, h, h1, JsNumber.neg]
    · have h1 : -q < 0 := by linarith
      have h2 : ¬ q < 0 := not_lt.2 (le_of_lt h)
      by_cases hov : (2 : ℚ) ^ 1024 ≤ magnitude q.num.natAbs q.den
      · simp [hov, h1, h2, JsNumber.neg]
      · simp [hov, h1, h2, JsNumber.neg]

/-- A positive rational on the binary64 grid rounds to itself. -/
theorem toDouble_grid_pos (M : Nat) (K : Int) (hM : M ≤ 2 ^ 53) (hK : -1074 ≤ K)
    (hlt : (M : ℚ) * (2 : ℚ) ^ K < (2 : ℚ) ^ 1024) :
    toDouble (M * (2 : ℚ) ^ K) = .fin (M * (2 : ℚ) ^ K) := by
  have hpK : (0 : ℚ) < (2 : ℚ) ^ K := zpow_pos (by norm_num) _
  rcases Nat.eq_zero_or_pos M with h0 | hpos
  · subst h0
    simp [toDouble]
  · have hq : (0 : ℚ) < M * (2 : ℚ) ^ K := by positivity
    have hn : 0 < (M * (2 : ℚ) ^ K).num.natAbs :=
      Int.natAbs_pos.2 (ne_of_gt (Rat.num_pos.2 hq))
    have hx := natAbs_div_den (M * (2 : ℚ) ^ K)
    rw [abs_of_pos hq] at hx
    have hmag : magnitude (M * (2 : ℚ) ^ K).num.natAbs (M * (2 : ℚ) ^ K).den =
        M * (2 : ℚ) ^ K := by
      rcases eq_or_lt_of_le hM with he | hl
      · have e3 : (M : ℚ) * (2 : ℚ) ^ K = ((2 ^ 52 : Nat) : ℚ) * (2 : ℚ) ^ (K + 1) := by
          rw [he, zpow_add₀ (by norm_num : (2 : ℚ) ≠ 0)]
          push_cast
          ring
        rw [e3] at hx ⊢
        exact magnitude_grid _ _ (by rw [← e3]; exact hn) (Rat.den_pos _) (2 ^ 52) (K + 1)
          (by norm_num) (by omega) hx
      · exact magnitude_grid _ _ hn (Rat.den_pos _) M K hl hK hx
    rw [toDouble_pos _ hq, hmag, if_neg (not_le.2 hlt)]

/-- Rounding is idempotent: a value of `toDouble` rounds to itself. -/
theorem toDouble_idem (q r : ℚ) (h : toDouble q = .fin r) : toDouble r = .fin r := by
  have key : ∀ p : ℚ, 0 < p → ∀ t : ℚ, toDouble p = .fin t → toDouble t = .fin t := by
    intro p hp t ht
    have hn : 0 < p.num.natAbs := Int.natAbs_pos.2 (ne_of_gt (Rat.num_pos.2 hp))
    rw [toDouble_pos p hp] at ht
    by_cases hov : (2 : ℚ) ^ 1024 ≤ magnitude p.num.natAbs p.den
    · rw [if_pos hov] at ht
      cases ht
    · rw [if_neg hov] at ht
      injection ht with ht
      rw [← ht, magnitude_eq]
      apply toDouble_grid_pos _ _ (significand_le_pow _ _ hn p.den_pos)
      · rcases quantum_cases p.num.natAbs p.den with ⟨h1, h2⟩ | ⟨h1, _⟩ <;> omega
      · rw [← magnitude_eq]
        exact not_le.1 hov
  rcases lt_trichotomy q 0 with hneg | hzero | hpos
  · have h1 : toDouble (-q) = .fin (-r) := by
      rw [toDouble_neg, h]
      rfl
    have h2 := key (-q) (by linarith) (-r) h1
    have h3 := toDouble_neg (-r)
    rw [neg_neg, h2] at h3
    rw [h3]
    simp [JsNumber.neg]
  · subst hzero
    have : r = 0 := by
      simp [toDouble] at h
      exact h.symm
    subst this
    simp [toDouble]
  · exact key q hpos r h

/-- The magnitude is not negative. -/
theorem magnitude_nonneg (n d : Nat) : 0 ≤ magnitude n d := by
  rw [magnitude_eq]
  have hp : (0 : ℚ) < (2 : ℚ) ^ quantum n d := zpow_pos (by norm_num) _
  positivity

/-- The values at least a finite number. -/
theorem JsNumber.ge_fin_iff (x : JsNumber) (c : ℚ) :
    x.ge (.fin c) = true ↔ x = .inf false ∨ ∃ a, x = .fin a ∧ c ≤ a := by
  cases x with
  | fin a => simp [JsNumber.ge]
  | inf s => cases s <;> simp [JsNumber.ge]
  | nan => simp [JsNumber.ge]

/-- The values at most a finite number. -/
theorem JsNumber.fin_ge_iff (x : JsNumber) (c : ℚ) :
    (JsNumber.fin c).ge x = true ↔ x = .inf true ∨ ∃ a, x = .fin a ∧ a ≤ c := by
  cases x with
  | fin a => simp [JsNumber.ge]
  | inf s => cases s <;> simp [JsNumber.ge]
  | nan => simp [JsNumber.ge]

/-- The order `>=` is transitive. -/
theorem JsNumber.ge_trans (a b c : JsNumber) (hab : a.ge b = true) (hbc : b.ge c = true) :
    a.ge c = true := by
  cases a <;> cases b <;> cases c <;> simp_all [JsNumber.ge] <;>
    first
      | exact le_trans hbc hab
      | (rcases hab with h | h <;> simp_all)

/-- Negation reverses the order `>=`. -/
theorem JsNumber.ge_neg (a b : JsNumber) : a.neg.ge b.neg = b.ge a := by
  cases a <;> cases b <;> simp [JsNumber.ge, JsNumber.neg]
  rename_i s t
  cases s <;> cases t <;> rfl

/-- A non-negative rational rounds to a non-negative number. -/
theorem toDouble_nonneg (q : ℚ) (hq : 0 ≤ q) : (toDouble q).ge (.fin 0) = true := by
  rcases eq_or_lt_of_le hq with h0 | hpos
  · subst h0
    simp [toDouble, JsNumber.ge]
  · rw [toDouble_pos q hpos]
    by_cases hov : (2 : ℚ) ^ 1024 ≤ magnitude q.num.natAbs q.den
    · simp [hov, JsNumber.ge]
    · simp [hov, JsNumber.ge, magnitude_nonneg]

/-- Rounding is monotone on positive rationals. -/
theorem toDouble_mono_pos (q₁ q₂ : ℚ) (h₁ : 0 < q₁) (h : q₁ ≤ q₂) :
    (toDouble q₂).ge (toDouble q₁) = true := by
  have h₂ : 0 < q₂ := lt_of_lt_of_le h₁ h
  have hn₁ : 0 < q₁.num.natAbs := Int.natAbs_pos.2 (ne_of_gt (Rat.num_pos.2 h₁))
  have hn₂ : 0 < q₂.num.natAbs := Int.natAbs_pos.2 (ne_of_gt (Rat.num_pos.2 h₂))
  have hm := magnitude_mono q₁.num.natAbs q₁.den q₂.num.natAbs q₂.den hn₁ q₁.den_pos hn₂
    q₂.den_pos (by rw [natAbs_div_den, natAbs_div_den, abs_of_pos h₁, abs_of_pos h₂]; exact h)
  rw [toDouble_pos q₁ h₁, toDouble_pos q₂ h₂]
  by_cases hov₁ : (2 : ℚ) ^ 1024 ≤ magnitude q₁.num.natAbs q₁.den
  · have hov₂ : (2 : ℚ) ^ 1024 ≤ magnitude q₂.num.natAbs q₂.den := le_trans hov₁ hm
    simp [hov₁, hov₂, JsNumber.ge]
  · by_cases hov₂ : (2 : ℚ) ^ 1024 ≤ magnitude q₂.num.natAbs q₂.den
    · simp [hov₁, hov₂, JsNumber.ge]
    · simp [hov₁, hov₂, JsNumber.ge, hm]

/-- Rounding is monotone. -/
theorem toDouble_mono (q₁ q₂ : ℚ) (h : q₁ ≤ q₂) :
    (toDouble q₂).ge (toDouble q₁) = true := by
  rcases lt_or_ge 0 q₁ with h₁ | h₁
  · exact toDouble_mono_pos q₁ q₂ h₁ h
  · have hlow : (JsNumber.fin 0).ge (toDouble q₁) = true := by
      have := toDouble_nonneg (-q₁) (by linarith)
      rw [toDouble_neg] at this
      have e : (JsNumber.fin 0) = (JsNumber.fin 0).neg := by simp [JsNumber.neg]
      rw [e, JsNumber.ge_neg] at this
      exact this
    rcases lt_or_ge q₂ 0 with h₂ | h₂
    · have := toDouble_mono_pos (-q₂) (-q₁) (by linarith) (by linarith)
      rw [toDouble_neg, toDouble_neg, JsNumber.ge_neg] at this
      exact this
    · exact JsNumber.ge_trans _ _ _ (toDouble_nonneg q₂ h₂) hlow

/-! ## What a call of `applyCampaignToUser` does -/

theorem orZero_eq_getD (x : Option Int) : orZero x = x.getD 0 := by
  cases x with
  | none => rfl
  | some n =>
    by_cases h : n = 0 <;> simp [orZero, h]

/-- A call that throws leaves the store as it was. -/
theorem applyCampaignToUser_error_store (s : Store) (now campaignId userId : Int)
    (e : ApplyError) (h : (applyCampaignToUser s now campaignId userId).2 = .error e) :
    (applyCampaignToUser s now campaignId userId).1 = s := by
  unfold applyCampaignToUser at h ⊢
  cases hc : Campaign.findByPk s campaignId with
  | none => rfl
  | some campaign =>
    cases hu : User.findByPk s userId with
    | none => rfl
    | some up =>
      obtain ⟨user, package⟩ := up
      cases h1 : campaign.notActiveAt now with
      | true => simp [h1]
      | false =>
        cases h2 : campaign.limitReached with
        | true => simp [h1, h2]
        | false =>
          cases hf : UserCampaign.findOne s userId campaignId with
          | some uc => simp [h1, h2]
          | none =>
            cases hd : discountApplied campaign package with
            | none => simp [h1, h2, hd]
            | some discount => simp [hc, hu, h1, h2, hf, hd] at h

/-- The shape of a successful call: both rows are found, every check passes,
one row is appended and the counter of the campaign is incremented. -/
theorem applyCampaignToUser_ok (s : Store) (now campaignId userId : Int) (r : ApplyResult)
    (h : (applyCampaignToUser s now campaignId userId).2 = .ok r) :
    ∃ campaign user package discount,
      Campaign.findByPk s campaignId = some campaign ∧
      User.findByPk s userId = some (user, package) ∧
      campaign.notActiveAt now = false ∧
      campaign.limitReached = false ∧
      UserCampaign.findOne s userId campaignId = none ∧
      discountApplied campaign package = some discount ∧
      r.userCampaign = newUserCampaign s now campaign userId campaignId discount ∧
      r.benefits = ⟨discount, orZero campaign.free_data_gb, orZero campaign.free_voice_minutes⟩ ∧
      r.success = true ∧
      (applyCampaignToUser s now campaignId userId).1 =
        { s with
          userCampaigns := s.userCampaigns ++ [r.userCampaign]
          campaigns := s.campaigns.map (Campaign.increment campaignId) } := by
  unfold applyCampaignToUser at h ⊢
  cases hc : Campaign.findByPk s campaignId with
  | none => simp [hc] at h
  | some campaign =>
    cases hu : User.findByPk s userId with
    | none => simp [hc, hu] at h
    | some up =>
      obtain ⟨user, package⟩ := up
      cases h1 : campaign.notActiveAt now with
      | true => simp [hc, hu, h1] at h
      | false =>
        cases h2 : campaign.limitReached with
        | true => simp [hc, hu, h1, h2] at h
        | false =>
          cases hf : UserCampaign.findOne s userId campaignId with
          | some uc => simp [hc, hu, h1, h2, hf] at h
          | none =>
            cases hd : discountApplied campaign package with
            | none => simp [hc, hu, h1, h2, hf, hd] at h
            | some discount =>
              simp only [hc, hu, h1, h2, hf, hd, Bool.false_eq_true, if_false,
                Except.ok.injEq] at h
              subst h
              exact ⟨campaign, user, package, discount, rfl, rfl, h1, h2, rfl, hd, rfl, rfl,
                rfl, by simp [h1, h2, hd]⟩

theorem JsNumber.truthy_of_ne (a : JsNumber) (h0 : a ≠ .fin 0) (hn : a ≠ .nan) :
    a.truthy = true := by
  cases a with
  | fin q =>
    have : q ≠ 0 := fun hq => h0 (by rw [hq])
    simp [JsNumber.truthy, this]
  | inf b => rfl
  | nan => exact absurd rfl hn

theorem Campaign.findByPk_id (s : Store) (campaignId : Int) (campaign : Campaign)
    (h : Campaign.findByPk s campaignId = some campaign) : campaign.id = campaignId := by
  have := List.find?_some h
  simpa using this

theorem Campaign.increment_id (campaignId : Int) (c : Campaign) :
    (Campaign.increment campaignId c).id = c.id := by
  unfold Campaign.increment
  split <;> rfl

theorem Campaign.find?_map_increment (l : List Campaign) (campaignId id : Int) :
    (l.map (Campaign.increment campaignId)).find? (fun c => c.id == id) =
      (l.find? (fun c => c.id == id)).map (Campaign.increment campaignId) := by
  induction l with
  | nil => rfl
  | cons x xs ih =>
    simp only [List.map_cons, List.find?_cons, Campaign.increment_id]
    cases hx : (x.id == id) with
    | true => rfl
    | false => exact ih

/-! ## Claims on `applyCampaignToUser` -/

/-- C9: when no campaign has id `campaignId` or no user has id `userId`,
`applyCampaignToUser` throws "Campaign or user not found", whatever else the
store holds and whatever the instant, and leaves the store as it was. -/
theorem applyCampaignToUser_not_found (s : Store) (now campaignId userId : Int)
    (h : (∀ c ∈ s.campaigns, c.id ≠ campaignId) ∨ (∀ u ∈ s.users, u.id ≠ userId)) :
    (applyCampaignToUser s now campaignId userId).2 = .error .notFound ∧
      (applyCampaignToUser s now campaignId userId).1 = s ∧
      ApplyError.message .notFound =
        some "Error applying campaign: Campaign or user not found" := by
  have key : (applyCampaignToUser s now campaignId userId).2 = .error .notFound := by
    unfold applyCampaignToUser
    rcases h with h | h
    · have hc : Campaign.findByPk s campaignId = none := by
        unfold Campaign.findByPk
        rw [List.find?_eq_none]
        intro c hmem
        simpa using h c hmem
      simp [hc]
    · have hu : User.findByPk s userId = none := by
        unfold User.findByPk
        have : s.users.find? (fun u => u.id == userId) = none := by
          rw [List.find?_eq_none]
          intro u hmem
          simpa using h u hmem
        simp [this]
      cases hc : Campaign.findByPk s campaignId <;> simp [hu]
  exact ⟨key, applyCampaignToUser_error_store s now campaignId userId _ key, rfl⟩

theorem applyCampaignToUser_not_found_witness :
    (∀ c ∈ exampleStore.campaigns, c.id ≠ 7) ∧
      (applyCampaignToUser exampleStore 1500 7 1).2 = .error .notFound ∧
      (applyCampaignToUser exampleStore 1500 7 1).1 = exampleStore ∧
      ApplyError.message .notFound =
        some "Error applying campaign: Campaign or user not found" :=
  ⟨by decide, applyCampaignToUser_not_found exampleStore 1500 7 1 (Or.inl (by decide))⟩

/-- C8: for an existing campaign and an existing user, `applyCampaignToUser`
throws "Campaign is not active or has expired" exactly when `is_active` is
false or `now < start_date` or `now > end_date`; both ends of the window are
inside it. -/
theorem applyCampaignToUser_not_active_iff (s : Store) (now campaignId userId : Int)
    (campaign : Campaign) (up : User × Option Package)
    (hc : Campaign.findByPk s campaignId = some campaign)
    (hu : User.findByPk s userId = some up) :
    ((applyCampaignToUser s now campaignId userId).2 = .error .notActive ↔
        (campaign.is_active = false ∨ now < campaign.start_date ∨ campaign.end_date < now)) ∧
      ApplyError.message .notActive =
        some "Error applying campaign: Campaign is not active or has expired" := by
  refine ⟨?_, rfl⟩
  obtain ⟨user, package⟩ := up
  have hna : campaign.notActiveAt now = true ↔
      (campaign.is_active = false ∨ now < campaign.start_date ∨ campaign.end_date < now) := by
    simp [Campaign.notActiveAt, or_assoc]
  rw [← hna]
  unfold applyCampaignToUser
  simp only [hc, hu]
  cases h1 : campaign.notActiveAt now with
  | true => simp
  | false =>
    cases h2 : campaign.limitReached with
    | true => simp
    | false =>
      cases hf : UserCampaign.findOne s userId campaignId with
      | some uc => simp
      | none =>
        cases hd : discountApplied campaign package with
        | none => simp
        | some discount => simp

theorem applyCampaignToUser_not_active_iff_witness :
    Campaign.findByPk exampleStore 1 = some exampleCampaign ∧
      User.findByPk exampleStore 1 = some (exampleUser, some examplePackage) ∧
      ((applyCampaignToUser exampleStore 2000 1 1).2 = .error .notActive ↔
        (exampleCampaign.is_active = false ∨ (2000 : Int) < exampleCampaign.start_date ∨
          exampleCampaign.end_date < 2000)) ∧
      ApplyError.message .notActive =
        some "Error applying campaign: Campaign is not active or has expired" :=
  ⟨by decide, by decide,
    applyCampaignToUser_not_active_iff exampleStore 2000 1 1 exampleCampaign
      (exampleUser, some examplePackage) (by decide) (by decide)⟩

/-- C5: when the campaign's `discount_amount` is a nonzero number, a successful
`applyCampaignToUser` returns and stores `discount_applied = discount_amount`,
whatever `discount_percentage` and the package price are. -/
theorem applyCampaignToUser_amount_wins (s : Store) (now campaignId userId : Int)
    (campaign : Campaign) (a : JsNumber) (r : ApplyResult)
    (hc : Campaign.findByPk s campaignId = some campaign)
    (ha : campaign.discount_amount = some a) (h0 : a ≠ .fin 0) (hn : a ≠ .nan)
    (h : (applyCampaignToUser s now campaignId userId).2 = .ok r) :
    r.benefits.discount_applied = a ∧
      r.userCampaign.discount_applied = some a ∧
      (applyCampaignToUser s now campaignId userId).1.userCampaigns =
        s.userCampaigns ++ [r.userCampaign] := by
  obtain ⟨campaign', user, package, discount, hc', -, -, -, -, hd, hrow, hben, -, hs⟩ :=
    applyCampaignToUser_ok s now campaignId userId r h
  rw [hc] at hc'
  cases hc'
  have hda : discount = a := by
    simp [discountApplied, ha, JsNumber.truthy_of_ne a h0 hn] at hd
    exact hd.symm
  subst hda
  refine ⟨by rw [hben], by rw [hrow]; rfl, by rw [hs]⟩

theorem applyCampaignToUser_amount_wins_witness :
    exampleCampaign.discount_amount = some (.fin 50) ∧
      exampleCampaign.discount_percentage = some (.fin 20) ∧
      examplePackage.price = .fin 100 ∧
      (applyCampaignToUser exampleStore 1500 1 1).2 = .ok exampleResult ∧
      exampleResult.benefits.discount_applied = .fin 50 ∧
      exampleResult.userCampaign.discount_applied = some (.fin 50) ∧
      (applyCampaignToUser exampleStore 1500 1 1).1.userCampaigns =
        exampleStore.userCampaigns ++ [exampleResult.userCampaign] :=
  ⟨rfl, rfl, rfl, by rfl,
    applyCampaignToUser_amount_wins exampleStore 1500 1 1 exampleCampaign (.fin 50)
      exampleResult (by decide) rfl (by decide) (by decide) (by rfl)⟩

/-- C7: a successful `applyCampaignToUser(c, u)` appends exactly one
`UserCampaign` row, with `user_id = u`, `campaign_id = c`, status "active",
`expires_at` the campaign's `end_date` and the two bonuses (`free_data_gb` or
0, `free_voice_minutes` or 0); it adds 1 to the `current_uses` of the campaign
of id `c` and changes no other campaign column, no other campaign, no user and
no package; the returned benefits are the three values stored in the row. -/
theorem applyCampaignToUser_effect (s : Store) (now campaignId userId : Int)
    (campaign : Campaign) (r : ApplyResult)
    (hc : Campaign.findByPk s campaignId = some campaign)
    (h : (applyCampaignToUser s now campaignId userId).2 = .ok r) :
    (applyCampaignToUser s now campaignId userId).1.userCampaigns =
        s.userCampaigns ++ [r.userCampaign] ∧
      r.userCampaign.user_id = userId ∧
      r.userCampaign.campaign_id = campaignId ∧
      r.userCampaign.status = "active" ∧
      r.userCampaign.expires_at = some campaign.end_date ∧
      r.userCampaign.data_bonus_gb = some (campaign.free_data_gb.getD 0) ∧
      r.userCampaign.voice_bonus_minutes = some (campaign.free_voice_minutes.getD 0) ∧
      Campaign.findByPk (applyCampaignToUser s now campaignId userId).1 campaignId =
        some { campaign with current_uses := campaign.current_uses + 1 } ∧
      (applyCampaignToUser s now campaignId userId).1.campaigns =
        s.campaigns.map
          (fun c => if c.id = campaignId then { c with current_uses := c.current_uses + 1 }
            else c) ∧
      (applyCampaignToUser s now campaignId userId).1.users = s.users ∧
      (applyCampaignToUser s now campaignId userId).1.packages = s.packages ∧
      r.userCampaign.discount_applied = some r.benefits.discount_applied ∧
      r.userCampaign.data_bonus_gb = some r.benefits.data_bonus_gb ∧
      r.userCampaign.voice_bonus_minutes = some r.benefits.voice_bonus_minutes := by
  obtain ⟨campaign', user, package, discount, hc', -, -, -, -, -, hrow, hben, -, hs⟩ :=
    applyCampaignToUser_ok s now campaignId userId r h
  rw [hc] at hc'
  cases hc'
  have hid := Campaign.findByPk_id s campaignId campaign hc
  have hmap : s.campaigns.map (Campaign.increment campaignId) =
      s.campaigns.map
        (fun c => if c.id = campaignId then { c with current_uses := c.current_uses + 1 }
          else c) := by
    apply List.map_congr_left
    intro c _
    simp [Campaign.increment]
  have hfind : Campaign.findByPk (applyCampaignToUser s now campaignId userId).1 campaignId =
      some { campaign with current_uses := campaign.current_uses + 1 } := by
    rw [hs]
    unfold Campaign.findByPk at hc ⊢
    simp only [Campaign.find?_map_increment, hc, Option.map_some']
    simp [Campaign.increment, hid]
  refine ⟨by rw [hs], by rw [hrow]; rfl, by rw [hrow]; rfl, by rw [hrow]; rfl,
    by rw [hrow]; rfl, ?_, ?_, hfind, by rw [hs, ← hmap], by rw [hs], by rw [hs],
    by rw [hrow, hben]; rfl, by rw [hrow, hben]; rfl, by rw [hrow, hben]; rfl⟩
  · rw [hrow, ← orZero_eq_getD]; rfl
  · rw [hrow, ← orZero_eq_getD]; rfl

theorem applyCampaignToUser_effect_witness :
    Campaign.findByPk exampleStore 1 = some exampleCampaign ∧
      (applyCampaignToUser exampleStore 1500 1 1).2 = .ok exampleResult ∧
      (applyCampaignToUser exampleStore 1500 1 1).1.userCampaigns =
        exampleStore.userCampaigns ++ [exampleResult.userCampaign] ∧
      exampleResult.userCampaign.user_id = 1 ∧
      exampleResult.userCampaign.campaign_id = 1 ∧
      exampleResult.userCampaign.status = "active" ∧
      exampleResult.userCampaign.expires_at = some exampleCampaign.end_date ∧
      exampleResult.userCampaign.data_bonus_gb = some (exampleCampaign.free_data_gb.getD 0) ∧
      exampleResult.userCampaign.voice_bonus_minutes =
        some (exampleCampaign.free_voice_minutes.getD 0) ∧
      Campaign.findByPk (applyCampaignToUser exampleStore 1500 1 1).1 1 =
        some { exampleCampaign with current_uses := exampleCampaign.current_uses + 1 } ∧
      (applyCampaignToUser exampleStore 1500 1 1).1.campaigns =
        exampleStore.campaigns.map
          (fun c => if c.id = 1 then { c with current_uses := c.current_uses + 1 } else c) ∧
      (applyCampaignToUser exampleStore 1500 1 1).1.users = exampleStore.users ∧
      (applyCampaignToUser exampleStore 1500 1 1).1.packages = exampleStore.packages ∧
      exampleResult.userCampaign.discount_applied =
        some exampleResult.benefits.discount_applied ∧
      exampleResult.userCampaign.data_bonus_gb = some exampleResult.benefits.data_bonus_gb ∧
      exampleResult.userCampaign.voice_bonus_minutes =
        some exampleResult.benefits.voice_bonus_minutes :=
  ⟨by decide, by decide,
    applyCampaignToUser_effect exampleStore 1500 1 1 exampleCampaign exampleResult
      (by decide) (by decide)⟩

/-- C4 (the code at the failing input): the campaign is restricted to PKG002
and PKG003, the user is on PKG001, and `applyCampaignToUser` succeeds and
stores an active `UserCampaign`. -/
theorem applyCampaignToUser_ignores_applicable_packages :
    restrictedCampaign.applicable_packages = some ["PKG002", "PKG003"] ∧
      exampleUser.current_package_id = some "PKG001" ∧
      restrictedCampaign.excludesPackage exampleUser.current_package_id = true ∧
      (applyCampaignToUser (storeWith restrictedCampaign examplePackage) 1500 1 1).2 =
        .ok exampleResult ∧
      (applyCampaignToUser (storeWith restrictedCampaign examplePackage) 1500 1 1).1.userCampaigns =
        [exampleRow] := by
  decide

/-- C6 (counterexample): with `discount_amount = 0`, `discount_percentage = 20`
and the package price `199.99`, the call succeeds and returns and stores
`39.998000000000005`, which is neither the real number 39.998, nor the number
written `39.998`, nor the exact value of price × 20 / 100. -/
theorem applyCampaignToUser_percentage_not_exact :
    percentCampaign.discount_amount = some (.fin 0) ∧
      percentCampaign.discount_percentage = some (.fin 20) ∧
      pricedPackage.price = toDouble (19999 / 100) ∧
      pricedPackage.price = .fin (879565321755689 / 4398046511104) ∧
      (applyCampaignToUser (storeWith percentCampaign pricedPackage) 1500 1 1).2 =
        .ok pricedResult ∧
      pricedResult.userCampaign.discount_applied =
        some (.fin (2814609029618205 / 70368744177664)) ∧
      pricedResult.benefits.discount_applied ≠ .fin (39998 / 1000) ∧
      pricedResult.benefits.discount_applied ≠ toDouble (39998 / 1000) ∧
      pricedResult.benefits.discount_applied ≠
        .fin (879565321755689 / 4398046511104 * 20 / 100) := by
  decide!

/-- C6 (amended): when `discount_amount` is zero or unset, a successful
`applyCampaignToUser` stores, for a nonzero `discount_percentage`, the binary64
product `price * (discount_percentage / 100)` of the price of the user's
package (quotient and product each rounded to nearest), and stores 0 when
`discount_percentage` is zero or unset as well. -/
theorem applyCampaignToUser_percentage_discount (s : Store) (now campaignId userId : Int)
    (campaign : Campaign) (user : User) (package : Option Package) (r : ApplyResult)
    (hc : Campaign.findByPk s campaignId = some campaign)
    (hu : User.findByPk s userId = some (user, package))
    (ha : campaign.discount_amount = none ∨ campaign.discount_amount = some (.fin 0))
    (h : (applyCampaignToUser s now campaignId userId).2 = .ok r) :
    (∀ pct, campaign.discount_percentage = some pct → pct ≠ .fin 0 → pct ≠ .nan →
        ∃ pkg, package = some pkg ∧
          r.userCampaign.discount_applied = some (pkg.price.mul (pct.div (.fin 100)))) ∧
      (campaign.discount_percentage = none ∨ campaign.discount_percentage = some (.fin 0) →
        r.userCampaign.discount_applied = some (.fin 0)) ∧
      (applyCampaignToUser s now campaignId userId).1.userCampaigns =
        s.userCampaigns ++ [r.userCampaign] := by
  obtain ⟨campaign', user', package', discount, hc', hu', -, -, -, hd, hrow, -, -, hs⟩ :=
    applyCampaignToUser_ok s now campaignId userId r h
  rw [hc] at hc'
  rw [hu] at hu'
  cases hc'
  cases hu'
  have hrd : r.userCampaign.discount_applied = some discount := by rw [hrow]; rfl
  have hpd : percentageDiscount campaign package = some discount := by
    rcases ha with ha | ha
    · simpa [discountApplied, ha] using hd
    · simpa [discountApplied, ha, JsNumber.truthy] using hd
  refine ⟨?_, ?_, by rw [hs]⟩
  · intro pct hp h0 hn
    have ht := JsNumber.truthy_of_ne pct h0 hn
    cases package with
    | none => simp [percentageDiscount, hp, ht] at hpd
    | some pkg =>
      refine ⟨pkg, rfl, ?_⟩
      simp only [percentageDiscount, hp, ht, if_true, Option.some.injEq] at hpd
      rw [hrd, hpd]
  · intro hp
    rcases hp with hp | hp
    · simp only [percentageDiscount, hp, Option.some.injEq] at hpd
      rw [hrd, hpd]
    · simp only [percentageDiscount, hp, JsNumber.truthy, ne_eq, not_true_eq_false,
        decide_False, Bool.false_eq_true, if_false, Option.some.injEq] at hpd
      rw [hrd, hpd]

theorem applyCampaignToUser_percentage_discount_witness :
    Campaign.findByPk (storeWith percentCampaign pricedPackage) 1 = some percentCampaign ∧
      User.findByPk (storeWith percentCampaign pricedPackage) 1 =
        some (exampleUser, some pricedPackage) ∧
      percentCampaign.discount_amount = some (.fin 0) ∧
      (applyCampaignToUser (storeWith percentCampaign pricedPackage) 1500 1 1).2 =
        .ok pricedResult ∧
      (∀ pct, percentCampaign.discount_percentage = some pct → pct ≠ .fin 0 → pct ≠ .nan →
        ∃ pkg, some pricedPackage = some pkg ∧
          pricedResult.userCampaign.discount_applied =
            some (pkg.price.mul (pct.div (.fin 100)))) ∧
      (percentCampaign.discount_percentage = none ∨
          percentCampaign.discount_percentage = some (.fin 0) →
        pricedResult.userCampaign.discount_applied = some (.fin 0)) ∧
      (applyCampaignToUser (storeWith percentCampaign pricedPackage) 1500 1 1).1.userCampaigns =
        (storeWith percentCampaign pricedPackage).userCampaigns ++ [pricedResult.userCampaign] :=
  ⟨by decide!, by decide!, rfl, by decide!,
    applyCampaignToUser_percentage_discount (storeWith percentCampaign pricedPackage) 1500 1 1
      percentCampaign exampleUser (some pricedPackage) pricedResult (by decide!) (by decide!)
      (Or.inr rfl) (by decide!)⟩

/-- A call for a pair that already has an active application throws one of the
invalid-state errors. -/
theorem applyCampaignToUser_rejected_of_active (s : Store) (now campaignId userId : Int)
    (campaign : Campaign) (up : User × Option Package) (uc : UserCampaign)
    (hc : Campaign.findByPk s campaignId = some campaign)
    (hu : User.findByPk s userId = some up)
    (hf : UserCampaign.findOne s userId campaignId = some uc) :
    ∃ e, (applyCampaignToUser s now campaignId userId).2 = .error e ∧
      e.isInvalidState = true := by
  obtain ⟨user, package⟩ := up
  unfold applyCampaignToUser
  simp only [hc, hu, hf]
  cases h1 : campaign.notActiveAt now with
  | true => exact ⟨.notActive, by simp, rfl⟩
  | false =>
    cases h2 : campaign.limitReached with
    | true => exact ⟨.limitReached, by simp, rfl⟩
    | false => exact ⟨.alreadyApplied, by simp, rfl⟩

/-- C1: after a successful `applyCampaignToUser(c, u)`, a following
`applyCampaignToUser(c, u)` on the resulting store, at any instant, throws one
of the invalid-state errors and leaves the store (hence the single
`UserCampaign` row of the first call) as it was. -/
theorem applyCampaignToUser_twice_rejected (s : Store) (now later campaignId userId : Int)
    (r : ApplyResult) (h : (applyCampaignToUser s now campaignId userId).2 = .ok r) :
    (∃ e, (applyCampaignToUser (applyCampaignToUser s now campaignId userId).1 later
          campaignId userId).2 = .error e ∧ e.isInvalidState = true) ∧
      (applyCampaignToUser (applyCampaignToUser s now campaignId userId).1 later
          campaignId userId).1 = (applyCampaignToUser s now campaignId userId).1 := by
  obtain ⟨campaign, user, package, discount, hc, hu, -, -, hf, -, hrow, -, -, hs⟩ :=
    applyCampaignToUser_ok s now campaignId userId r h
  have hc2 : Campaign.findByPk (applyCampaignToUser s now campaignId userId).1 campaignId =
      some (Campaign.increment campaignId campaign) := by
    rw [hs]
    unfold Campaign.findByPk at hc ⊢
    simp only [Campaign.find?_map_increment, hc, Option.map_some']
  have hu2 : User.findByPk (applyCampaignToUser s now campaignId userId).1 userId =
      some (user, package) := by
    rw [hs]
    exact hu
  have hactive : UserCampaign.isActiveFor userId campaignId r.userCampaign = true := by
    rw [hrow]
    simp [UserCampaign.isActiveFor, newUserCampaign]
  have hf2 : UserCampaign.findOne (applyCampaignToUser s now campaignId userId).1 userId
      campaignId = some r.userCampaign := by
    rw [hs]
    unfold UserCampaign.findOne at hf ⊢
    simp [List.find?_append, hf, hactive]
  have key := applyCampaignToUser_rejected_of_active _ later campaignId userId _ _ _
    hc2 hu2 hf2
  obtain ⟨e, he, hinv⟩ := key
  exact ⟨⟨e, he, hinv⟩, applyCampaignToUser_error_store _ later campaignId userId e he⟩

theorem applyCampaignToUser_twice_rejected_witness :
    (applyCampaignToUser exampleStore 1500 1 1).2 = .ok exampleResult ∧
      (∃ e, (applyCampaignToUser (applyCampaignToUser exampleStore 1500 1 1).1 1501 1 1).2 =
          .error e ∧ e.isInvalidState = true) ∧
      (applyCampaignToUser (applyCampaignToUser exampleStore 1500 1 1).1 1501 1 1).1 =
        (applyCampaignToUser exampleStore 1500 1 1).1 :=
  ⟨by decide,
    applyCampaignToUser_twice_rejected exampleStore 1500 1501 1 1 exampleResult (by decide)⟩

/-! ## Claims on the user category -/

/-- C10: the user category of `getEligibleCampaignsForUser` is the first match
of: `payment_status` "overdue" gives "overdue_users"; else a package of price
at least 200 gives "premium_users"; else `created_at` later than 30 days before
now gives "new_users"; else "all".  A user without package has no price, and on
finite prices `>=` is the order of the numbers. -/
theorem userCategory_first_match (user : User) (package : Option Package) (now : Int) :
    (user.payment_status = some "overdue" →
        userCategory user package now = "overdue_users") ∧
      (user.payment_status ≠ some "overdue" →
        (∃ pkg, package = some pkg ∧ pkg.price.ge (.fin 200) = true) →
        userCategory user package now = "premium_users") ∧
      (user.payment_status ≠ some "overdue" →
        ¬ (∃ pkg, package = some pkg ∧ pkg.price.ge (.fin 200) = true) →
        now - 30 * 24 * 60 * 60 * 1000 < user.created_at →
        userCategory user package now = "new_users") ∧
      (user.payment_status ≠ some "overdue" →
        ¬ (∃ pkg, package = some pkg ∧ pkg.price.ge (.fin 200) = true) →
        ¬ (now - 30 * 24 * 60 * 60 * 1000 < user.created_at) →
        userCategory user package now = "all") ∧
      (∀ q : ℚ, (JsNumber.fin q).ge (.fin 200) = true ↔ 200 ≤ q) := by
  refine ⟨?_, ?_, ?_, ?_, ?_⟩
  · intro h
    simp [userCategory, h]
  · rintro h ⟨pkg, rfl, hp⟩
    simp [userCategory, h, hp]
  · intro h hp hnew
    norm_num at hnew
    cases package with
    | none => simp [userCategory, h, hnew]
    | some pkg =>
      have : pkg.price.ge (.fin 200) = false := by
        cases hge : pkg.price.ge (.fin 200) with
        | false => rfl
        | true => exact absurd ⟨pkg, rfl, hge⟩ hp
      simp [userCategory, h, this, hnew]
  · intro h hp hnew
    norm_num at hnew
    cases package with
    | none => simp [userCategory, h, hnew]
    | some pkg =>
      have : pkg.price.ge (.fin 200) = false := by
        cases hge : pkg.price.ge (.fin 200) with
        | false => rfl
        | true => exact absurd ⟨pkg, rfl, hge⟩ hp
      simp [userCategory, h, this, hnew]
  · intro q
    simp [JsNumber.ge]

/-! ## Invariants over sequences of calls -/

theorem length_filter_map_le {α : Type} (p : α → Bool) (f : α → α)
    (hf : ∀ x, p (f x) = true → p x = true) (l : List α) :
    ((l.map f).filter p).length ≤ (l.filter p).length := by
  induction l with
  | nil => simp
  | cons x xs ih =>
    simp only [List.map_cons, List.filter_cons]
    cases hfx : p (f x) with
    | true =>
      simp only [hf x hfx, if_true, List.length_cons]
      omega
    | false =>
      cases hx : p x with
      | true =>
        simp only [Bool.false_eq_true, if_false, if_true, List.length_cons]
        omega
      | false => simpa using ih

theorem activeUnique_applyCampaignToUser (s : Store) (now campaignId userId : Int)
    (h : ActiveUnique s) : ActiveUnique (applyCampaignToUser s now campaignId userId).1 := by
  cases hres : (applyCampaignToUser s now campaignId userId).2 with
  | error e =>
    rw [applyCampaignToUser_error_store s now campaignId userId e hres]
    exact h
  | ok r =>
    obtain ⟨campaign, user, package, discount, -, -, -, -, hf, -, hrow, -, -, hs⟩ :=
      applyCampaignToUser_ok s now campaignId userId r hres
    intro u c
    rw [hs]
    simp only [List.filter_append, List.length_append]
    cases hact : UserCampaign.isActiveFor u c r.userCampaign with
    | false =>
      have := h u c
      simp [List.filter_cons, hact]
      exact this
    | true =>
      have huc : u = userId ∧ c = campaignId := by
        rw [hrow] at hact
        simp [UserCampaign.isActiveFor, newUserCampaign] at hact
        exact ⟨hact.1.symm, hact.2.symm⟩
      obtain ⟨rfl, rfl⟩ := huc
      have hnil : s.userCampaigns.filter (UserCampaign.isActiveFor u c) = [] := by
        unfold UserCampaign.findOne at hf
        rw [List.find?_eq_none] at hf
        rw [List.filter_eq_nil_iff]
        exact hf
      simp [hnil, List.filter_cons, hact]

theorem activeUnique_expireOldCampaigns (s : Store) (now : Int) (h : ActiveUnique s) :
    ActiveUnique (expireOldCampaigns s now).1 := by
  intro u c
  refine le_trans ?_ (h u c)
  unfold expireOldCampaigns
  apply length_filter_map_le
  intro x hx
  by_cases ho : x.isOverdue now = true
  · simp [ho, UserCampaign.isActiveFor] at hx
  · simpa [ho] using hx

/-- C2: if a store has at most one active `UserCampaign` per
(user_id, campaign_id) pair, so has every store reached from it by
`applyCampaignToUser` and `expireOldCampaigns` calls run one after the other. -/
theorem activeUnique_runCalls (s : Store) (calls : List Call) (h : ActiveUnique s) :
    ActiveUnique (runCalls s calls) := by
  unfold runCalls
  induction calls generalizing s with
  | nil => exact h
  | cons call rest ih =>
    simp only [List.foldl_cons]
    apply ih
    cases call with
    | apply now campaignId userId => exact activeUnique_applyCampaignToUser s now campaignId userId h
    | expire now => exact activeUnique_expireOldCampaigns s now h

theorem activeUnique_runCalls_witness :
    ActiveUnique appliedStore ∧
      ActiveUnique
        (runCalls appliedStore [.apply 1500 1 1, .expire 2500, .apply 1600 1 1]) :=
  have h0 : ActiveUnique appliedStore := by
    intro u c
    simp only [appliedStore, List.filter_cons, List.filter_nil]
    split <;> simp
  ⟨h0, activeUnique_runCalls appliedStore _ h0⟩

/-- One call keeps the counter of a campaign with a nonzero limit within the
limit. -/
theorem Call.run_within_limit (s : Store) (call : Call) (campaignId : Int)
    (campaign : Campaign) (m : Int)
    (hc : Campaign.findByPk s campaignId = some campaign)
    (hm : campaign.max_uses = some m) (hm0 : m ≠ 0) (hle : campaign.current_uses ≤ m) :
    ∃ campaign', Campaign.findByPk (call.run s) campaignId = some campaign' ∧
      campaign'.max_uses = some m ∧ campaign'.current_uses ≤ m := by
  cases call with
  | expire now => exact ⟨campaign, hc, hm, hle⟩
  | apply now cid uid =>
    show ∃ campaign', Campaign.findByPk (applyCampaignToUser s now cid uid).1 campaignId =
      some campaign' ∧ campaign'.max_uses = some m ∧ campaign'.current_uses ≤ m
    cases hres : (applyCampaignToUser s now cid uid).2 with
    | error e =>
      rw [applyCampaignToUser_error_store s now cid uid e hres]
      exact ⟨campaign, hc, hm, hle⟩
    | ok r =>
      obtain ⟨applied, user, package, discount, hc0, -, -, hlim, -, -, -, -, -, hs⟩ :=
        applyCampaignToUser_ok s now cid uid r hres
      have hfind : Campaign.findByPk (applyCampaignToUser s now cid uid).1 campaignId =
          some (Campaign.increment cid campaign) := by
        rw [hs]
        unfold Campaign.findByPk at hc ⊢
        simp only [Campaign.find?_map_increment, hc, Option.map_some']
      refine ⟨_, hfind, ?_, ?_⟩
      · unfold Campaign.increment
        split <;> exact hm
      · have hid := Campaign.findByPk_id s campaignId campaign hc
        by_cases hsame : campaignId = cid
        · subst hsame
          rw [hc] at hc0
          cases hc0
          have hlt : campaign.current_uses < m := by
            simp [Campaign.limitReached, hm, hm0] at hlim
            exact hlim
          simp only [Campaign.increment, hid, beq_self_eq_true, if_true]
          omega
        · have hne : (campaign.id == cid) = false := by
            rw [hid]
            simpa using hsame
          simpa [Campaign.increment, hne] using hle

/-- C3, at the input where the code breaks it: a campaign with `max_uses = 0`
(set, not null) and `current_uses = 0` is within its limit, so the invariant
allows it no use at all; yet the guard `campaign.max_uses && ...` skips a zero
limit, one `applyCampaignToUser` succeeds and leaves `current_uses = 1`, above
the maximum number of uses. -/
theorem current_uses_exceeds_zero_limit :
    Campaign.findByPk (storeWith zeroLimitCampaign examplePackage) 1 = some zeroLimitCampaign ∧
      zeroLimitCampaign.max_uses = some 0 ∧
      zeroLimitCampaign.current_uses ≤ 0 ∧
      (applyCampaignToUser (storeWith zeroLimitCampaign examplePackage) 1500 1 1).2 =
        .ok exampleResult ∧
      Campaign.findByPk
          (runCalls (storeWith zeroLimitCampaign examplePackage) [.apply 1500 1 1]) 1 =
        some { zeroLimitCampaign with current_uses := 1 } ∧
      ¬ ({ zeroLimitCampaign with current_uses := 1 } : Campaign).current_uses ≤ 0 := by
  decide

/-- Apart from a zero limit the pre-check does enforce the limit: a campaign
whose `max_uses` is set to a nonzero value and whose `current_uses` does not
exceed it keeps `max_uses` and `current_uses ≤ max_uses` after any sequence of
calls (successful or rejected `applyCampaignToUser`, and `expireOldCampaigns`)
run one after the other. -/
theorem current_uses_within_limit (s : Store) (calls : List Call) (campaignId : Int)
    (campaign : Campaign) (m : Int)
    (hc : Campaign.findByPk s campaignId = some campaign)
    (hm : campaign.max_uses = some m) (hm0 : m ≠ 0) (hle : campaign.current_uses ≤ m) :
    ∃ campaign', Campaign.findByPk (runCalls s calls) campaignId = some campaign' ∧
      campaign'.max_uses = some m ∧ campaign'.current_uses ≤ m := by
  unfold runCalls
  induction calls generalizing s campaign with
  | nil => exact ⟨campaign, hc, hm, hle⟩
  | cons call rest ih =>
    simp only [List.foldl_cons]
    obtain ⟨campaign', hc', hm', hle'⟩ :=
      Call.run_within_limit s call campaignId campaign m hc hm hm0 hle
    exact ih (call.run s) campaign' hc' hm' hle'

theorem current_uses_within_limit_witness :
    Campaign.findByPk exampleStore 1 = some exampleCampaign ∧
      exampleCampaign.max_uses = some 2 ∧ (2 : Int) ≠ 0 ∧
      exampleCampaign.current_uses ≤ 2 ∧
      ∃ campaign',
        Campaign.findByPk
            (runCalls exampleStore
              [.apply 1500 1 1, .apply 1501 1 1, .expire 1502, .apply 1503 1 1]) 1 =
          some campaign' ∧
        campaign'.max_uses = some 2 ∧ campaign'.current_uses ≤ 2 :=
  ⟨by decide, rfl, by decide, by decide,
    current_uses_within_limit exampleStore _ 1 exampleCampaign 2 (by decide) rfl (by decide)
      (by decide)⟩

/-! ## What `getEligibleCampaignsForUser` returns -/

theorem UserCampaign.isActiveFor_iff (userId campaignId : Int) (uc : UserCampaign) :
    UserCampaign.isActiveFor userId campaignId uc = true ↔
      uc.user_id = userId ∧ uc.campaign_id = campaignId ∧ uc.status = "active" := by
  simp [UserCampaign.isActiveFor, and_assoc]

theorem UserCampaign.findOne_eq_none_iff (s : Store) (userId campaignId : Int) :
    UserCampaign.findOne s userId campaignId = none ↔
      ∀ uc ∈ s.userCampaigns,
        ¬ (uc.user_id = userId ∧ uc.campaign_id = campaignId ∧ uc.status = "active") := by
  unfold UserCampaign.findOne
  rw [List.find?_eq_none]
  constructor
  · intro h uc hmem hact
    exact h uc hmem ((UserCampaign.isActiveFor_iff userId campaignId uc).2 hact)
  · intro h uc hmem hact
    exact h uc hmem ((UserCampaign.isActiveFor_iff userId campaignId uc).1 hact)

theorem Campaign.limitReached_eq_false_iff (c : Campaign) :
    c.limitReached = false ↔
      (c.max_uses = none ∨ c.max_uses = some 0 ∨
        ∃ m, c.max_uses = some m ∧ c.current_uses < m) := by
  unfold Campaign.limitReached
  cases hm : c.max_uses with
  | none => simp
  | some m =>
    by_cases h0 : m = 0
    · simp [h0]
    · simp [h0]

theorem Campaign.excludesPackage_eq_true_iff (c : Campaign) (current : Option String) :
    c.excludesPackage current = true ↔
      ∃ pkgs, c.applicable_packages = some pkgs ∧ pkgs ≠ [] ∧
        ∀ k, current = some k → k ∉ pkgs := by
  unfold Campaign.excludesPackage
  cases hp : c.applicable_packages with
  | none => simp
  | some pkgs =>
    cases current with
    | none => simp [List.length_pos]
    | some k => simp [List.length_pos]

theorem Campaign.selectedFor_iff (category : String) (now : Int) (c : Campaign) :
    c.selectedFor category now = true ↔
      (c.is_active = true ∧ c.start_date ≤ now ∧ now ≤ c.end_date ∧
        (c.target_audience = some category ∨ c.target_audience = some "all" ∨
          c.target_audience = none)) := by
  simp [Campaign.selectedFor, and_assoc, or_assoc]

/-- The result of `getEligibleCampaignsForUser` for an existing user: the
selected campaigns, filtered by the three tests of the loop. -/
theorem getEligibleCampaignsForUser_eq (s : Store) (now userId : Int) (user : User)
    (package : Option Package) (hu : User.findByPk s userId = some (user, package)) :
    getEligibleCampaignsForUser s now userId =
      some ((s.campaigns.filter
          (Campaign.selectedFor (userCategory user package now) now)).filter
        (fun campaign =>
          !(UserCampaign.findOne s userId campaign.id).isSome &&
            !campaign.excludesPackage user.current_package_id &&
            !campaign.limitReached)) := by
  unfold getEligibleCampaignsForUser
  rw [hu]

/-- What membership in the result means, in terms of the store. -/
theorem getEligibleCampaignsForUser_mem (s : Store) (now userId : Int) (user : User)
    (package : Option Package) (l : List Campaign) (c : Campaign)
    (hu : User.findByPk s userId = some (user, package))
    (h : getEligibleCampaignsForUser s now userId = some l) :
    c ∈ l ↔
      (c ∈ s.campaigns ∧ c.selectedFor (userCategory user package now) now = true ∧
        UserCampaign.findOne s userId c.id = none ∧
        c.excludesPackage user.current_package_id = false ∧
        c.limitReached = false) := by
  rw [getEligibleCampaignsForUser_eq s now userId user package hu] at h
  cases h
  have hsome : (UserCampaign.findOne s userId c.id).isSome = false ↔
      UserCampaign.findOne s userId c.id = none := by
    cases UserCampaign.findOne s userId c.id <;> simp
  simp only [List.mem_filter, Bool.and_eq_true, Bool.not_eq_true', hsome]
  tauto

theorem getEligibleCampaignsForUser_user (s : Store) (now userId : Int) (l : List Campaign)
    (h : getEligibleCampaignsForUser s now userId = some l) :
    ∃ user package, User.findByPk s userId = some (user, package) := by
  unfold getEligibleCampaignsForUser at h
  cases hu : User.findByPk s userId with
  | none => simp [hu] at h
  | some up => exact ⟨up.1, up.2, rfl⟩

/-! ## Claims on `getEligibleCampaignsForUser` -/

/-- C11: no campaign returned by `getEligibleCampaignsForUser(userId)` has a
`UserCampaign` row with that `user_id`, the campaign's id and status
"active". -/
theorem getEligibleCampaignsForUser_not_applied (s : Store) (now userId : Int)
    (l : List Campaign) (h : getEligibleCampaignsForUser s now userId = some l) :
    ∀ c ∈ l, ∀ uc ∈ s.userCampaigns,
      ¬ (uc.user_id = userId ∧ uc.campaign_id = c.id ∧ uc.status = "active") := by
  obtain ⟨user, package, hu⟩ := getEligibleCampaignsForUser_user s now userId l h
  intro c hc
  have hmem := (getEligibleCampaignsForUser_mem s now userId user package l c hu h).1 hc
  exact (UserCampaign.findOne_eq_none_iff s userId c.id).1 hmem.2.2.1

theorem getEligibleCampaignsForUser_not_applied_witness :
    getEligibleCampaignsForUser listingStore 1500 1 = some [secondCampaign, zeroCampaign] ∧
      exampleRow ∈ listingStore.userCampaigns ∧
      ∀ c ∈ [secondCampaign, zeroCampaign], ∀ uc ∈ listingStore.userCampaigns,
        ¬ (uc.user_id = 1 ∧ uc.campaign_id = c.id ∧ uc.status = "active") :=
  ⟨by decide, by decide,
    getEligibleCampaignsForUser_not_applied listingStore 1500 1 _ (by decide)⟩

/-- C12, at the input where the code breaks it: a campaign with `max_uses = 0`
(set, not null) and `current_uses = 0`, hence `current_uses ≥ max_uses`, must
never be returned; yet the guard `campaign.max_uses && ...` under "Check max
uses" skips a zero limit and `getEligibleCampaignsForUser` returns it. -/
theorem getEligibleCampaignsForUser_lists_zero_limit :
    getEligibleCampaignsForUser listingStore 1500 1 = some [secondCampaign, zeroCampaign] ∧
      zeroCampaign ∈ [secondCampaign, zeroCampaign] ∧
      zeroCampaign.max_uses = some 0 ∧
      zeroCampaign.max_uses ≠ none ∧
      zeroCampaign.current_uses ≥ 0 ∧
      ¬ zeroCampaign.current_uses < 0 := by
  decide

/-- Apart from a zero limit the listing does leave out used-up campaigns:
every campaign returned by `getEligibleCampaignsForUser` has `max_uses` unset
or zero, or `current_uses < max_uses`. -/
theorem getEligibleCampaignsForUser_within_limit (s : Store) (now userId : Int)
    (l : List Campaign) (h : getEligibleCampaignsForUser s now userId = some l) :
    ∀ c ∈ l, c.max_uses = none ∨ c.max_uses = some 0 ∨
      ∃ m, c.max_uses = some m ∧ c.current_uses < m := by
  obtain ⟨user, package, hu⟩ := getEligibleCampaignsForUser_user s now userId l h
  intro c hc
  have hmem := (getEligibleCampaignsForUser_mem s now userId user package l c hu h).1 hc
  exact (Campaign.limitReached_eq_false_iff c).1 hmem.2.2.2.2

theorem getEligibleCampaignsForUser_within_limit_witness :
    getEligibleCampaignsForUser listingStore 1500 1 = some [secondCampaign, zeroCampaign] ∧
      exhaustedCampaign ∈ listingStore.campaigns ∧
      ∀ c ∈ [secondCampaign, zeroCampaign], c.max_uses = none ∨ c.max_uses = some 0 ∨
        ∃ m, c.max_uses = some m ∧ c.current_uses < m :=
  ⟨by decide, by decide,
    getEligibleCampaignsForUser_within_limit listingStore 1500 1 _ (by decide)⟩

/-- C13: for an existing user (whose `current_package_id` may be null), every
returned campaign with a non-empty `applicable_packages` list has the user's
`current_package_id` in the list; and a selected campaign whose
`applicable_packages` is null or empty is returned as soon as it passes the two
other tests (no active application, limit not reached). -/
theorem getEligibleCampaignsForUser_packages (s : Store) (now userId : Int) (user : User)
    (package : Option Package) (l : List Campaign)
    (hu : User.findByPk s userId = some (user, package))
    (h : getEligibleCampaignsForUser s now userId = some l) :
    (∀ c ∈ l, ∀ pkgs, c.applicable_packages = some pkgs → pkgs ≠ [] →
        ∃ k, user.current_package_id = some k ∧ k ∈ pkgs) ∧
      (∀ c ∈ s.campaigns,
        c.applicable_packages = none ∨ c.applicable_packages = some [] →
        c.selectedFor (userCategory user package now) now = true →
        (∀ uc ∈ s.userCampaigns,
          ¬ (uc.user_id = userId ∧ uc.campaign_id = c.id ∧ uc.status = "active")) →
        (c.max_uses = none ∨ c.max_uses = some 0 ∨
          ∃ m, c.max_uses = some m ∧ c.current_uses < m) →
        c ∈ l) := by
  constructor
  · intro c hc pkgs hp hne
    have hmem := (getEligibleCampaignsForUser_mem s now userId user package l c hu h).1 hc
    have hex := hmem.2.2.2.1
    by_contra hcon
    have : c.excludesPackage user.current_package_id = true := by
      rw [Campaign.excludesPackage_eq_true_iff]
      refine ⟨pkgs, hp, hne, ?_⟩
      intro k hk hin
      exact hcon ⟨k, hk, hin⟩
    rw [this] at hex
    exact Bool.noConfusion hex
  · intro c hc hp hsel hact hlim
    rw [getEligibleCampaignsForUser_mem s now userId user package l c hu h]
    refine ⟨hc, hsel, (UserCampaign.findOne_eq_none_iff s userId c.id).2 hact, ?_,
      (Campaign.limitReached_eq_false_iff c).2 hlim⟩
    cases hex : c.excludesPackage user.current_package_id with
    | false => rfl
    | true =>
      obtain ⟨pkgs, hp', hne, -⟩ := (Campaign.excludesPackage_eq_true_iff c _).1 hex
      rcases hp with hp | hp
      · rw [hp] at hp'
        exact Option.noConfusion hp'
      · rw [hp] at hp'
        cases hp'
        exact absurd rfl hne

theorem getEligibleCampaignsForUser_packages_witness :
    User.findByPk listingStore 1 = some (exampleUser, some examplePackage) ∧
      getEligibleCampaignsForUser listingStore 1500 1 = some [secondCampaign, zeroCampaign] ∧
      thirdCampaign ∈ listingStore.campaigns ∧
      (∀ c ∈ [secondCampaign, zeroCampaign], ∀ pkgs, c.applicable_packages = some pkgs →
        pkgs ≠ [] → ∃ k, exampleUser.current_package_id = some k ∧ k ∈ pkgs) ∧
      (∀ c ∈ listingStore.campaigns,
        c.applicable_packages = none ∨ c.applicable_packages = some [] →
        c.selectedFor (userCategory exampleUser (some examplePackage) 1500) 1500 = true →
        (∀ uc ∈ listingStore.userCampaigns,
          ¬ (uc.user_id = 1 ∧ uc.campaign_id = c.id ∧ uc.status = "active")) →
        (c.max_uses = none ∨ c.max_uses = some 0 ∨
          ∃ m, c.max_uses = some m ∧ c.current_uses < m) →
        c ∈ [secondCampaign, zeroCampaign]) :=
  ⟨by decide, by decide, by decide,
    getEligibleCampaignsForUser_packages listingStore 1500 1 exampleUser (some examplePackage)
      _ (by decide) (by decide)⟩

/-- C14: for an existing user, the result of `getEligibleCampaignsForUser` is a
sublist, in storage order, of the campaigns selected from storage (`is_active`,
`start_date ≤ now ≤ end_date`, `target_audience` the user's category, "all" or
unset), and it contains every selected campaign that has no active
`UserCampaign` for the user, is not restricted to packages other than the
user's, and has `max_uses` unset or `current_uses < max_uses`. -/
theorem getEligibleCampaignsForUser_sublist (s : Store) (now userId : Int) (user : User)
    (package : Option Package) (l : List Campaign)
    (hu : User.findByPk s userId = some (user, package))
    (h : getEligibleCampaignsForUser s now userId = some l) :
    List.Sublist l
        (s.campaigns.filter (fun c =>
          decide (c.is_active = true ∧ c.start_date ≤ now ∧ now ≤ c.end_date ∧
            (c.target_audience = some (userCategory user package now) ∨
              c.target_audience = some "all" ∨ c.target_audience = none)))) ∧
      (∀ c ∈ s.campaigns,
        (c.is_active = true ∧ c.start_date ≤ now ∧ now ≤ c.end_date ∧
          (c.target_audience = some (userCategory user package now) ∨
            c.target_audience = some "all" ∨ c.target_audience = none)) →
        (∀ uc ∈ s.userCampaigns,
          ¬ (uc.user_id = userId ∧ uc.campaign_id = c.id ∧ uc.status = "active")) →
        ¬ (∃ pkgs, c.applicable_packages = some pkgs ∧ pkgs ≠ [] ∧
            ∀ k, user.current_package_id = some k → k ∉ pkgs) →
        (c.max_uses = none ∨ ∃ m, c.max_uses = some m ∧ c.current_uses < m) →
        c ∈ l) := by
  constructor
  · have hfilter : s.campaigns.filter
          (Campaign.selectedFor (userCategory user package now) now) =
        s.campaigns.filter (fun c =>
          decide (c.is_active = true ∧ c.start_date ≤ now ∧ now ≤ c.end_date ∧
            (c.target_audience = some (userCategory user package now) ∨
              c.target_audience = some "all" ∨ c.target_audience = none))) := by
      apply List.filter_congr
      intro c _
      rw [Bool.eq_iff_iff, Campaign.selectedFor_iff]
      simp
    rw [getEligibleCampaignsForUser_eq s now userId user package hu] at h
    cases h
    rw [← hfilter]
    exact List.filter_sublist _
  · intro c hc hsel hact hpkg hlim
    rw [getEligibleCampaignsForUser_mem s now userId user package l c hu h]
    refine ⟨hc, (Campaign.selectedFor_iff _ now c).2 hsel,
      (UserCampaign.findOne_eq_none_iff s userId c.id).2 hact, ?_, ?_⟩
    · cases hex : c.excludesPackage user.current_package_id with
      | false => rfl
      | true => exact absurd ((Campaign.excludesPackage_eq_true_iff c _).1 hex) hpkg
    · rw [Campaign.limitReached_eq_false_iff]
      rcases hlim with hlim | hlim
      · exact Or.inl hlim
      · exact Or.inr (Or.inr hlim)

theorem getEligibleCampaignsForUser_sublist_witness :
    User.findByPk listingStore 1 = some (exampleUser, some examplePackage) ∧
      getEligibleCampaignsForUser listingStore 1500 1 = some [secondCampaign, zeroCampaign] ∧
      List.Sublist [secondCampaign, zeroCampaign]
        (listingStore.campaigns.filter (fun c =>
          decide (c.is_active = true ∧ c.start_date ≤ 1500 ∧ 1500 ≤ c.end_date ∧
            (c.target_audience = some (userCategory exampleUser (some examplePackage) 1500) ∨
              c.target_audience = some "all" ∨ c.target_audience = none)))) ∧
      (∀ c ∈ listingStore.campaigns,
        (c.is_active = true ∧ c.start_date ≤ 1500 ∧ 1500 ≤ c.end_date ∧
          (c.target_audience = some (userCategory exampleUser (some examplePackage) 1500) ∨
            c.target_audience = some "all" ∨ c.target_audience = none)) →
        (∀ uc ∈ listingStore.userCampaigns,
          ¬ (uc.user_id = 1 ∧ uc.campaign_id = c.id ∧ uc.status = "active")) →
        ¬ (∃ pkgs, c.applicable_packages = some pkgs ∧ pkgs ≠ [] ∧
            ∀ k, exampleUser.current_package_id = some k → k ∉ pkgs) →
        (c.max_uses = none ∨ ∃ m, c.max_uses = some m ∧ c.current_uses < m) →
        c ∈ [secondCampaign, zeroCampaign]) :=
  ⟨by decide, by decide,
    getEligibleCampaignsForUser_sublist listingStore 1500 1 exampleUser (some examplePackage)
      _ (by decide) (by decide)⟩

/-! ## Claims on `expireOldCampaigns` -/

theorem UserCampaign.isOverdue_iff (now : Int) (uc : UserCampaign) :
    uc.isOverdue now = true ↔
      (uc.status = "active" ∧ ∃ t, uc.expires_at = some t ∧ t < now) := by
  unfold UserCampaign.isOverdue
  cases uc.expires_at <;> simp

theorem expireOldCampaigns_of_none (s : Store) (now : Int)
    (h : ∀ uc ∈ s.userCampaigns, uc.isOverdue now = false) :
    expireOldCampaigns s now = (s, 0) := by
  unfold expireOldCampaigns
  have hmap : s.userCampaigns.map
      (fun uc => if uc.isOverdue now then { uc with status := "expired" } else uc) =
      s.userCampaigns := by
    conv_rhs => rw [← List.map_id s.userCampaigns]
    apply List.map_congr_left
    intro uc hmem
    simp [h uc hmem]
  have hfilter : s.userCampaigns.filter (UserCampaign.isOverdue now) = [] := by
    rw [List.filter_eq_nil_iff]
    intro uc hmem
    simp [h uc hmem]
  rw [hmap, hfilter]
  rfl

theorem expireOldCampaigns_none_overdue (s : Store) (now : Int) :
    ∀ uc ∈ (expireOldCampaigns s now).1.userCampaigns, uc.isOverdue now = false := by
  intro uc hmem
  simp only [expireOldCampaigns, List.mem_map] at hmem
  obtain ⟨old, -, hold⟩ := hmem
  cases ho : old.isOverdue now with
  | true =>
    rw [ho] at hold
    simp only [if_true] at hold
    rw [← hold]
    simp [UserCampaign.isOverdue]
  | false =>
    rw [ho] at hold
    simp only [Bool.false_eq_true, if_false] at hold
    rw [← hold]
    exact ho

/-- C16: `expireOldCampaigns` at instant `now` sets status "expired" on
exactly the rows with status "active" and `expires_at < now`, changes nothing
else in those rows, leaves every other row (later or null `expires_at`, other
status) and every other table as it was, and returns the number of rows it
changed. -/
theorem expireOldCampaigns_effect (s : Store) (now : Int) :
    List.Forall₂
        (fun old new : UserCampaign =>
          ((old.status = "active" ∧ ∃ t, old.expires_at = some t ∧ t < now) →
              new = { old with status := "expired" }) ∧
            (¬ (old.status = "active" ∧ ∃ t, old.expires_at = some t ∧ t < now) →
              new = old))
        s.userCampaigns (expireOldCampaigns s now).1.userCampaigns ∧
      (expireOldCampaigns s now).2 =
        (s.userCampaigns.filter (fun uc => uc.isOverdue now)).length ∧
      (∀ uc : UserCampaign, uc.isOverdue now = true ↔
        (uc.status = "active" ∧ ∃ t, uc.expires_at = some t ∧ t < now)) ∧
      (expireOldCampaigns s now).1.users = s.users ∧
      (expireOldCampaigns s now).1.packages = s.packages ∧
      (expireOldCampaigns s now).1.campaigns = s.campaigns := by
  refine ⟨?_, rfl, UserCampaign.isOverdue_iff now, rfl, rfl, rfl⟩
  simp only [expireOldCampaigns]
  induction s.userCampaigns with
  | nil => exact List.Forall₂.nil
  | cons uc rest ih =>
    refine List.Forall₂.cons ⟨?_, ?_⟩ ih
    · intro h
      dsimp only
      rw [if_pos ((UserCampaign.isOverdue_iff now uc).2 h)]
    · intro h
      have : ¬ uc.isOverdue now = true := fun ho => h ((UserCampaign.isOverdue_iff now uc).1 ho)
      dsimp only
      rw [if_neg this]

/-- The rows a run at `later` picks up after a run at `now`: those that were
not overdue at `now` and are overdue at `later`. -/
theorem UserCampaign.isOverdue_after_expire (now later : Int) (uc : UserCampaign) :
    UserCampaign.isOverdue later
        (if uc.isOverdue now then { uc with status := "expired" } else uc) =
      (!uc.isOverdue now && uc.isOverdue later) := by
  cases h : uc.isOverdue now
  · simp
  · simp [UserCampaign.isOverdue]

/-- Rows that ran out between two runs: active with `now ≤ expires_at < later`. -/
theorem UserCampaign.isOverdue_between_iff (now later : Int) (uc : UserCampaign) :
    (!uc.isOverdue now && uc.isOverdue later) = true ↔
      (uc.status = "active" ∧ ∃ t, uc.expires_at = some t ∧ now ≤ t ∧ t < later) := by
  unfold UserCampaign.isOverdue
  cases uc.expires_at with
  | none => simp
  | some t =>
    by_cases hs : uc.status = "active"
    · simp [hs]
    · simp [hs]

/-- C17 (counterexample): each run reads its own clock.  On the example store a
run at instant 1000 expires nothing, and a second run in succession, at instant
1500, expires the row that ran out at 1200: it returns 1 and changes the
store the first run left. -/
theorem expireOldCampaigns_second_run_expires :
    (expireOldCampaigns expiryStore 1000).2 = 0 ∧
      (expireOldCampaigns expiryStore 1000).1.userCampaigns =
        [exampleRow, staleRow, openRow, cancelledRow] ∧
      (expireOldCampaigns (expireOldCampaigns expiryStore 1000).1 1500).2 = 1 ∧
      (expireOldCampaigns (expireOldCampaigns expiryStore 1000).1 1500).1.userCampaigns =
        [exampleRow, { staleRow with status := "expired" }, openRow, cancelledRow] ∧
      (expireOldCampaigns (expireOldCampaigns expiryStore 1000).1 1500).1.userCampaigns ≠
        (expireOldCampaigns expiryStore 1000).1.userCampaigns := by
  decide

/-- C17 (amended): when `expireOldCampaigns` runs at instant `now` and then
again at instant `later` with no write in between, the second run returns the
number of rows that were active with `now ≤ expires_at < later` (the rows that
ran out between the two runs); it returns 0 exactly when there is no such row,
and then it leaves the store as the first run left it.  That is the case
whenever the second run reads the same instant as the first, or an earlier
one. -/
theorem expireOldCampaigns_second_run (s : Store) (now later : Int) :
    (expireOldCampaigns (expireOldCampaigns s now).1 later).2 =
        (s.userCampaigns.filter (fun uc => !uc.isOverdue now && uc.isOverdue later)).length ∧
      (∀ uc : UserCampaign, (!uc.isOverdue now && uc.isOverdue later) = true ↔
        (uc.status = "active" ∧ ∃ t, uc.expires_at = some t ∧ now ≤ t ∧ t < later)) ∧
      ((expireOldCampaigns (expireOldCampaigns s now).1 later).2 = 0 ↔
        ∀ uc ∈ s.userCampaigns,
          ¬ (uc.status = "active" ∧ ∃ t, uc.expires_at = some t ∧ now ≤ t ∧ t < later)) ∧
      ((expireOldCampaigns (expireOldCampaigns s now).1 later).2 = 0 →
        expireOldCampaigns (expireOldCampaigns s now).1 later =
          ((expireOldCampaigns s now).1, 0)) ∧
      (later ≤ now →
        expireOldCampaigns (expireOldCampaigns s now).1 later =
          ((expireOldCampaigns s now).1, 0)) ∧
      expireOldCampaigns (expireOldCampaigns s now).1 now = ((expireOldCampaigns s now).1, 0) := by
  have hcount : (expireOldCampaigns (expireOldCampaigns s now).1 later).2 =
      (s.userCampaigns.filter (fun uc => !uc.isOverdue now && uc.isOverdue later)).length := by
    simp only [expireOldCampaigns, List.filter_map, List.length_map]
    congr 1
    apply List.filter_congr
    intro uc _
    exact UserCampaign.isOverdue_after_expire now later uc
  have hzero : (expireOldCampaigns (expireOldCampaigns s now).1 later).2 = 0 ↔
      ∀ uc ∈ s.userCampaigns,
        ¬ (uc.status = "active" ∧ ∃ t, uc.expires_at = some t ∧ now ≤ t ∧ t < later) := by
    rw [hcount, List.length_eq_zero, List.filter_eq_nil_iff]
    constructor
    · intro h uc hmem hbetween
      exact h uc hmem ((UserCampaign.isOverdue_between_iff now later uc).2 hbetween)
    · intro h uc hmem hbetween
      exact h uc hmem ((UserCampaign.isOverdue_between_iff now later uc).1 hbetween)
  have hsame : ∀ instant : Int,
      (∀ uc ∈ s.userCampaigns,
        ¬ (uc.status = "active" ∧ ∃ t, uc.expires_at = some t ∧ now ≤ t ∧ t < instant)) →
      expireOldCampaigns (expireOldCampaigns s now).1 instant =
        ((expireOldCampaigns s now).1, 0) := by
    intro instant h
    apply expireOldCampaigns_of_none
    intro uc' hmem
    simp only [expireOldCampaigns, List.mem_map] at hmem
    obtain ⟨uc, huc, rfl⟩ := hmem
    rw [UserCampaign.isOverdue_after_expire]
    cases hb : (!uc.isOverdue now && uc.isOverdue instant) with
    | false => rfl
    | true => exact absurd ((UserCampaign.isOverdue_between_iff now instant uc).1 hb) (h uc huc)
  refine ⟨hcount, UserCampaign.isOverdue_between_iff now later, hzero, ?_, ?_, ?_⟩
  · intro h
    exact hsame later (hzero.1 h)
  · intro hle
    apply hsame later
    rintro uc _ ⟨_, t, _, h1, h2⟩
    omega
  · apply hsame now
    rintro uc _ ⟨_, t, _, h1, h2⟩
    omega

/-- An instance of C16 and C17: of four applications only the active one past
its date is expired, and a second run at the same instant finds nothing to
expire. -/
theorem expireOldCampaigns_example :
    (expireOldCampaigns expiryStore 1500).2 = 1 ∧
      (expireOldCampaigns expiryStore 1500).1.userCampaigns =
        [exampleRow, { staleRow with status := "expired" }, openRow, cancelledRow] ∧
      (expireOldCampaigns (expireOldCampaigns expiryStore 1500).1 1500).2 = 0 := by
  decide

/-! ## Claims on the route `GET /eligible/:userId` -/

/-- C15 (the code at the failing input): for a user whose category is
"new_users" the route handler lists a campaign targeted at "premium_users",
which `CampaignService.getEligibleCampaignsForUser` leaves out. -/
theorem routerGetEligible_ignores_target_audience :
    userCategory exampleUser (some examplePackage) 1500 = "new_users" ∧
      premiumCampaign.target_audience = some "premium_users" ∧
      (routerGetEligible listingStore 1500 1).map (fun r => r.eligible_campaigns) =
        some [secondCampaign, zeroCampaign, premiumCampaign] ∧
      getEligibleCampaignsForUser listingStore 1500 1 =
        some [secondCampaign, zeroCampaign] := by
  decide

/-! ## Claims on `getUserActiveCampaigns` -/

theorem TotalBenefits.foldl_accumulate (l : List UserCampaign) (acc : TotalBenefits) :
    (l.foldl TotalBenefits.accumulate acc).total_discount =
        (l.map (fun uc => orZeroNumber uc.discount_applied)).foldl JsNumber.add
          acc.total_discount ∧
      (l.foldl TotalBenefits.accumulate acc).total_data_bonus =
        acc.total_data_bonus + (l.map (fun uc => uc.data_bonus_gb.getD 0)).sum ∧
      (l.foldl TotalBenefits.accumulate acc).total_voice_bonus =
        acc.total_voice_bonus + (l.map (fun uc => uc.voice_bonus_minutes.getD 0)).sum := by
  induction l generalizing acc with
  | nil => simp
  | cons uc rest ih =>
    obtain ⟨h1, h2, h3⟩ := ih (acc.accumulate uc)
    simp only [List.foldl_cons, List.map_cons, List.sum_cons]
    refine ⟨h1, ?_, ?_⟩
    · rw [h2]
      simp only [TotalBenefits.accumulate, orZero_eq_getD]
      omega
    · rw [h3]
      simp only [TotalBenefits.accumulate, orZero_eq_getD]
      omega

theorem UserCampaign.isCurrentFor_iff (userId now : Int) (uc : UserCampaign) :
    uc.isCurrentFor userId now = true ↔
      (uc.user_id = userId ∧ uc.status = "active" ∧ ∃ t, uc.expires_at = some t ∧ now ≤ t) := by
  unfold UserCampaign.isCurrentFor
  cases uc.expires_at <;> simp [and_assoc]

/-- C18: for an existing user, `getUserActiveCampaigns` selects exactly the rows
of the user with status "active" and `expires_at ≥ now` (each once);
`campaigns_count` is their number; `total_data_bonus` and `total_voice_bonus`
are the sums of `data_bonus_gb` and `voice_bonus_minutes` over them and
`total_discount` is the JavaScript sum (`+` from 0, in the order returned) of
`discount_applied`, a missing value counting as 0; all three are 0 when nothing
is selected. -/
theorem getUserActiveCampaigns_summary (s : Store) (now userId : Int) (r : ActiveCampaigns)
    (h : getUserActiveCampaigns s now userId = some r) :
    (∀ uc, uc ∈ r.active_campaigns.map Prod.fst ↔
        (uc ∈ s.userCampaigns ∧ uc.user_id = userId ∧ uc.status = "active" ∧
          ∃ t, uc.expires_at = some t ∧ now ≤ t)) ∧
      List.Perm (r.active_campaigns.map Prod.fst)
        (s.userCampaigns.filter (fun uc => uc.isCurrentFor userId now)) ∧
      r.campaigns_count = r.active_campaigns.length ∧
      r.total_benefits.total_data_bonus =
        ((r.active_campaigns.map Prod.fst).map (fun uc => uc.data_bonus_gb.getD 0)).sum ∧
      r.total_benefits.total_voice_bonus =
        ((r.active_campaigns.map Prod.fst).map (fun uc => uc.voice_bonus_minutes.getD 0)).sum ∧
      r.total_benefits.total_discount =
        ((r.active_campaigns.map Prod.fst).map
          (fun uc => orZeroNumber uc.discount_applied)).foldl JsNumber.add (.fin 0) ∧
      orZeroNumber none = .fin 0 ∧
      (r.active_campaigns = [] → r.total_benefits = ⟨.fin 0, 0, 0⟩) := by
  unfold getUserActiveCampaigns at h
  cases hu : User.findByPk s userId with
  | none => simp [hu] at h
  | some user =>
    simp only [hu, Option.some.injEq] at h
    subst h
    have hfst : ∀ l : List UserCampaign,
        (l.map (fun uc => (uc, Campaign.findByPk s uc.campaign_id))).map Prod.fst = l := by
      intro l
      induction l with
      | nil => rfl
      | cons x xs ih => rw [List.map_cons, List.map_cons, ih]
    have hperm := List.perm_insertionSort (fun a b : UserCampaign => b.applied_date ≤ a.applied_date)
      (s.userCampaigns.filter (UserCampaign.isCurrentFor userId now))
    obtain ⟨h1, h2, h3⟩ := TotalBenefits.foldl_accumulate
      ((s.userCampaigns.filter (UserCampaign.isCurrentFor userId now)).insertionSort
        (fun a b => b.applied_date ≤ a.applied_date)) ⟨.fin 0, 0, 0⟩
    simp only [hfst]
    refine ⟨?_, hperm, by simp, ?_, ?_, h1, rfl, ?_⟩
    · intro uc
      rw [hperm.mem_iff, List.mem_filter, UserCampaign.isCurrentFor_iff]
    · rw [h2]
      simp
    · rw [h3]
      simp
    · intro hnil
      have : (s.userCampaigns.filter (UserCampaign.isCurrentFor userId now)).insertionSort
          (fun a b => b.applied_date ≤ a.applied_date) = [] := by
        simpa using hnil
      rw [this]
      rfl

theorem getUserActiveCampaigns_summary_witness :
    getUserActiveCampaigns benefitsStore 1500 1 = some benefitsResult ∧
      benefitsResult.active_campaigns.map Prod.fst = [exampleRow, voiceRow] ∧
      benefitsResult.total_benefits = ⟨.fin 50, 5, 100⟩ ∧
      (∀ uc, uc ∈ benefitsResult.active_campaigns.map Prod.fst ↔
        (uc ∈ benefitsStore.userCampaigns ∧ uc.user_id = 1 ∧ uc.status = "active" ∧
          ∃ t, uc.expires_at = some t ∧ 1500 ≤ t)) ∧
      List.Perm (benefitsResult.active_campaigns.map Prod.fst)
        (benefitsStore.userCampaigns.filter (fun uc => uc.isCurrentFor 1 1500)) ∧
      benefitsResult.campaigns_count = benefitsResult.active_campaigns.length ∧
      benefitsResult.total_benefits.total_data_bonus =
        ((benefitsResult.active_campaigns.map Prod.fst).map
          (fun uc => uc.data_bonus_gb.getD 0)).sum ∧
      benefitsResult.total_benefits.total_voice_bonus =
        ((benefitsResult.active_campaigns.map Prod.fst).map
          (fun uc => uc.voice_bonus_minutes.getD 0)).sum ∧
      benefitsResult.total_benefits.total_discount =
        ((benefitsResult.active_campaigns.map Prod.fst).map
          (fun uc => orZeroNumber uc.discount_applied)).foldl JsNumber.add (.fin 0) ∧
      orZeroNumber none = .fin 0 ∧
      (benefitsResult.active_campaigns = [] → benefitsResult.total_benefits = ⟨.fin 0, 0, 0⟩) :=
  ⟨by decide!, by decide, rfl,
    getUserActiveCampaigns_summary benefitsStore 1500 1 benefitsResult (by decide!)⟩

/-! ## Claims on `getUserPackageInfo` -/

theorem JsNumber.max_zero_nonneg (x : JsNumber) :
    JsNumber.max (.fin 0) x ≠ .inf true ∧ ∀ q, JsNumber.max (.fin 0) x = .fin q → 0 ≤ q := by
  cases x with
  | nan =>
    constructor
    · simp [JsNumber.max]
    · intro q hq
      simp [JsNumber.max] at hq
  | inf t =>
    cases t with
    | true =>
      constructor
      · simp [JsNumber.max, JsNumber.ge]
      · intro q hq
        simp [JsNumber.max, JsNumber.ge] at hq
        rw [← hq]
    | false =>
      constructor
      · simp [JsNumber.max, JsNumber.ge]
      · intro q hq
        simp [JsNumber.max, JsNumber.ge] at hq
  | fin a =>
    by_cases ha : a ≤ 0
    · constructor
      · simp [JsNumber.max, JsNumber.ge, ha]
      · intro q hq
        simp [JsNumber.max, JsNumber.ge, ha] at hq
        rw [← hq]
    · constructor
      · simp [JsNumber.max, JsNumber.ge, ha]
      · intro q hq
        simp [JsNumber.max, JsNumber.ge, ha] at hq
        rw [← hq]
        exact le_of_lt (not_le.1 ha)

theorem usageRule_holds (used : JsNumber) (limit : Option Int) :
    UsageRule used limit (usedPercentage used limit) (remaining used limit) := by
  constructor
  · intro n hn hpos
    subst hn
    refine ⟨by simp [usedPercentage, hpos, JsNumber.ofInt], _, ?_, rfl, ?_⟩
    · simp [remaining, hpos, JsNumber.ofInt]
    · exact JsNumber.max_zero_nonneg _
  · intro n hn hle
    subst hn
    have : ¬ 0 < n := not_lt.2 hle
    simp [usedPercentage, remaining, this]

/-- C19: for a user with a resolved package, `getUserPackageInfo` reports for
data and for voice: with a limit above 0, the used percentage
`used / limit × 100` (the two-decimal text) and the remainder
`max(0, limit − used)`, which is never negative; with a limit of 0 or less
(the −1 sentinel included), the percentage 0 and the "Unlimited" marker. -/
theorem getUserPackageInfo_usage (s : Store) (user_id : Int) (user : User) (pkg : Package)
    (r : PackageInfo) (hu : User.findByPk s user_id = some (user, some pkg))
    (h : getUserPackageInfo s user_id = some r) :
    ∃ cp, r.current_package = some cp ∧
      UsageRule user.data_usage_gb pkg.data_limit_gb
        cp.usage_summary.data_used_percentage cp.usage_summary.remaining_data_gb ∧
      UsageRule (.fin user.voice_usage_minutes) pkg.voice_minutes
        cp.usage_summary.voice_used_percentage cp.usage_summary.remaining_voice_minutes := by
  unfold getUserPackageInfo at h
  simp only [hu, Option.some.injEq] at h
  subst h
  exact ⟨_, rfl, usageRule_holds _ _, usageRule_holds _ _⟩

theorem getUserPackageInfo_usage_witness :
    User.findByPk usageStore 1 = some (heavyUser, some unlimitedVoicePackage) ∧
      getUserPackageInfo usageStore 1 = some usageResult ∧
      heavyUser.data_usage_gb = .fin 12 ∧
      unlimitedVoicePackage.data_limit_gb = some 10 ∧
      unlimitedVoicePackage.voice_minutes = some (-1) ∧
      ∃ cp, usageResult.current_package = some cp ∧
        UsageRule heavyUser.data_usage_gb unlimitedVoicePackage.data_limit_gb
          cp.usage_summary.data_used_percentage cp.usage_summary.remaining_data_gb ∧
        UsageRule (.fin heavyUser.voice_usage_minutes) unlimitedVoicePackage.voice_minutes
          cp.usage_summary.voice_used_percentage cp.usage_summary.remaining_voice_minutes :=
  ⟨by decide, by decide!, rfl, rfl, rfl,
    getUserPackageInfo_usage usageStore 1 heavyUser unlimitedVoicePackage usageResult
      (by decide) (by decide!)⟩

/-! ## Claims on `getUserBillInfo` -/

theorem Bill.isOverdue_iff_rule (now : Int) (bill : Bill) :
    bill.isOverdue now = true ↔ bill.OverdueRule now := by
  simp [Bill.isOverdue, Bill.OverdueRule]

theorem Bill.filter_isOverdue (now : Int) (bills : List Bill) :
    bills.filter (Bill.isOverdue now) = bills.filter (fun b => decide (b.OverdueRule now)) := by
  apply List.filter_congr
  intro b _
  rw [Bool.eq_iff_iff, Bill.isOverdue_iff_rule]
  simp

theorem sumAmounts_eq (bills : List Bill) :
    sumAmounts bills =
      (bills.map (fun b => orZeroNumber b.total_amount)).foldl JsNumber.add (.fin 0) := by
  unfold sumAmounts
  rw [List.foldl_map]

/-- C20: for every fetched bill list and instant `now`, `overdue_bills_count`
is the number of fetched bills that are "overdue" or ("pending" with
`due_date < now`), `overdue_amount` is the JavaScript sum (`+` from 0, in
fetched order, a missing amount counting as 0) of `total_amount` over those
bills, and the `is_overdue` flag of each returned bill is that same predicate;
so a pending bill with a past `due_date` is counted as overdue.  The object
returned by `getUserBillInfo` holds this summary and these bills for the list
it fetched. -/
theorem getUserBillInfo_overdue (bills : List Bill) (count : Nat) (now : Int) :
    (billingSummary count bills now).overdue_bills_count =
        (bills.filter (fun b => decide (b.OverdueRule now))).length ∧
      (billingSummary count bills now).overdue_amount =
        ((bills.filter (fun b => decide (b.OverdueRule now))).map
          (fun b => orZeroNumber b.total_amount)).foldl JsNumber.add (.fin 0) ∧
      orZeroNumber none = .fin 0 ∧
      List.Forall₂
        (fun (b : Bill) (rb : RecentBill) =>
          rb.bill_id = b.bill_id ∧ rb.amount = b.total_amount ∧
            (rb.is_overdue = true ↔ b.OverdueRule now))
        bills (bills.map (recentBill now)) ∧
      (∀ b ∈ bills, ∀ d, b.payment_status = some "pending" → b.due_date = some d → d < now →
        (recentBill now b).is_overdue = true ∧
          b ∈ bills.filter (fun b => decide (b.OverdueRule now))) ∧
      (∀ (s : Store) (user_id : Int) (options : BillOptions) (r : BillInfo),
        getUserBillInfo s now user_id options = some r →
        r.billing_summary =
            billingSummary (Bill.findAndCountAll s user_id options).1
              (Bill.findAndCountAll s user_id options).2 now ∧
          r.recent_bills = (Bill.findAndCountAll s user_id options).2.map (recentBill now)) := by
  refine ⟨?_, ?_, rfl, ?_, ?_, ?_⟩
  · simp only [billingSummary, Bill.filter_isOverdue]
  · simp only [billingSummary, Bill.filter_isOverdue, sumAmounts_eq]
  · induction bills with
    | nil => exact List.Forall₂.nil
    | cons b rest ih =>
      exact List.Forall₂.cons ⟨rfl, rfl, Bill.isOverdue_iff_rule now b⟩ ih
  · intro b hb d hp hd hlt
    have hrule : b.OverdueRule now := Or.inr ⟨hp, by rw [hd]; exact hlt⟩
    refine ⟨(Bill.isOverdue_iff_rule now b).2 hrule, ?_⟩
    rw [List.mem_filter]
    exact ⟨hb, by simpa using hrule⟩
  · intro s user_id options r h
    unfold getUserBillInfo at h
    cases hu : s.users.find? (fun u => u.id == user_id) with
    | none => simp [hu] at h
    | some user =>
      simp only [hu, Option.some.injEq] at h
      subst h
      exact ⟨rfl, rfl⟩

/-- An instance of C20: of four fetched bills, the one marked overdue and the
pending one due at instant 1000 are overdue at instant 1500. -/
theorem getUserBillInfo_example :
    (getUserBillInfo billingStore 1500 1 {}).map (fun r => r.billing_summary) =
        some ⟨4, .fin 400, 2, .fin 250⟩ ∧
      (getUserBillInfo billingStore 1500 1 {}).map
          (fun r => r.recent_bills.map (fun b => (b.bill_id, b.payment_status, b.is_overdue))) =
        some [("BILL004", some "pending", false), ("BILL001", some "pending", true),
          ("BILL002", some "overdue", true), ("BILL003", some "paid", false)] := by
  decide!

/-! ## Claims on `getUserDashboard` -/

/-- C21: for every billing summary, ticket summary and alert list, the account
status is the first match of: `overdue_bills_count > 0` gives
"payment_required"; else `open_tickets > 2` gives "support_needed"; else an
alert of type "urgent" gives "attention_required"; else "good"; one overdue
bill with five open tickets gives "payment_required"; and the status returned
by `getUserDashboard` is this one, for its billing summary, its ticket summary
and its alerts. -/
theorem accountStatus_first_match (overdue_bills_count open_tickets : Nat)
    (allAlerts : List Alert) :
    (0 < overdue_bills_count →
        accountStatus overdue_bills_count open_tickets allAlerts = "payment_required") ∧
      (overdue_bills_count = 0 → 2 < open_tickets →
        accountStatus overdue_bills_count open_tickets allAlerts = "support_needed") ∧
      (overdue_bills_count = 0 → open_tickets ≤ 2 →
        (∃ alert ∈ allAlerts, alert.type = "urgent") →
        accountStatus overdue_bills_count open_tickets allAlerts = "attention_required") ∧
      (overdue_bills_count = 0 → open_tickets ≤ 2 →
        (¬ ∃ alert ∈ allAlerts, alert.type = "urgent") →
        accountStatus overdue_bills_count open_tickets allAlerts = "good") ∧
      accountStatus 1 5 allAlerts = "payment_required" ∧
      (∀ (s : Store) (now user_id : Int) (d : Dashboard),
        getUserDashboard s now user_id = some d →
        d.account_status =
          accountStatus d.billing_info.1.billing_summary.overdue_bills_count
            d.support_info.1.tickets_summary.open_tickets d.alerts ∧
        d.alerts = d.package_info.2 ++ d.billing_info.2 ++ d.support_info.2) := by
  have hany : allAlerts.any (fun alert => alert.type == "urgent") = true ↔
      ∃ alert ∈ allAlerts, alert.type = "urgent" := by
    simp [List.any_eq_true]
  refine ⟨?_, ?_, ?_, ?_, rfl, ?_⟩
  · intro h
    simp [accountStatus, h]
  · intro h0 h2
    simp [accountStatus, h0, h2]
  · intro h0 h2 hu
    have : ¬ 2 < open_tickets := by omega
    simp only [accountStatus, h0, lt_irrefl, if_false, this, hany.2 hu, if_true]
  · intro h0 h2 hu
    have h2' : ¬ 2 < open_tickets := by omega
    have hf : allAlerts.any (fun alert => alert.type == "urgent") = false := by
      cases hb : allAlerts.any (fun alert => alert.type == "urgent") with
      | false => rfl
      | true => exact absurd (hany.1 hb) hu
    simp only [accountStatus, h0, lt_irrefl, if_false, h2', hf, Bool.false_eq_true]
  · intro s now user_id d h
    unfold getUserDashboard at h
    cases hp : getUserPackageInfoWithAlerts s user_id with
    | none => simp [hp] at h
    | some packageInfo =>
      cases hb : getUserBillInfoWithReminders s now user_id with
      | none => simp [hp, hb] at h
      | some billInfo =>
        cases ht : getUserTicketsWithAlerts s now user_id with
        | none => simp [hp, hb, ht] at h
        | some ticketInfo =>
          simp only [hp, hb, ht, Option.some.injEq] at h
          subst h
          exact ⟨rfl, rfl⟩

/-! ## Further claims on `applyCampaignToUser` -/

/-- C28: whenever `applyCampaignToUser` throws one of its own errors (not
found, not active, limit reached, already applied, or the missing package of a
percentage discount), the store is as it was: no `UserCampaign` row is created
and no `current_uses` is incremented. -/
theorem applyCampaignToUser_failure_atomic (s : Store) (now campaignId userId : Int)
    (e : ApplyError) (h : (applyCampaignToUser s now campaignId userId).2 = .error e) :
    (applyCampaignToUser s now campaignId userId).1 = s ∧
      (applyCampaignToUser s now campaignId userId).1.userCampaigns = s.userCampaigns ∧
      (applyCampaignToUser s now campaignId userId).1.campaigns = s.campaigns ∧
      (e = .notFound ∨ e = .notActive ∨ e = .limitReached ∨ e = .alreadyApplied ∨
        e = .packageMissing) := by
  have hs := applyCampaignToUser_error_store s now campaignId userId e h
  refine ⟨hs, by rw [hs], by rw [hs], ?_⟩
  cases e <;> simp

theorem applyCampaignToUser_failure_atomic_witness :
    (applyCampaignToUser noPackageStore 1500 1 1).2 = .error .packageMissing ∧
      (applyCampaignToUser noPackageStore 1500 1 1).1 = noPackageStore ∧
      (applyCampaignToUser noPackageStore 1500 1 1).1.userCampaigns =
        noPackageStore.userCampaigns ∧
      (applyCampaignToUser noPackageStore 1500 1 1).1.campaigns = noPackageStore.campaigns ∧
      ((ApplyError.packageMissing = .notFound) ∨ (ApplyError.packageMissing = .notActive) ∨
        (ApplyError.packageMissing = .limitReached) ∨
        (ApplyError.packageMissing = .alreadyApplied) ∨
        (ApplyError.packageMissing = .packageMissing)) :=
  ⟨by decide,
    applyCampaignToUser_failure_atomic noPackageStore 1500 1 1 .packageMissing (by decide)⟩

/-- Each of the five errors does occur, and leaves the store as it was. -/
theorem applyCampaignToUser_failure_examples :
    (applyCampaignToUser exampleStore 1500 7 1) = (exampleStore, .error .notFound) ∧
      (applyCampaignToUser exampleStore 2500 1 1) = (exampleStore, .error .notActive) ∧
      (applyCampaignToUser listingStore 1500 4 1) = (listingStore, .error .limitReached) ∧
      (applyCampaignToUser appliedStore 1500 1 1) = (appliedStore, .error .alreadyApplied) ∧
      (applyCampaignToUser noPackageStore 1500 1 1) =
        (noPackageStore, .error .packageMissing) := by
  decide

/-- C27 (the code at the failing input): for a user without package, the 20
percent campaign is returned by `getEligibleCampaignsForUser`, and
`applyCampaignToUser` for it, on the same store at the same instant, throws
(reading `price` of the null package) instead of succeeding. -/
theorem getEligibleCampaignsForUser_lists_unappliable :
    noPackageUser.current_package_id = none ∧
      User.findByPk noPackageStore 1 = some (noPackageUser, none) ∧
      getEligibleCampaignsForUser noPackageStore 1500 1 = some [percentCampaign] ∧
      percentCampaign.id = 1 ∧
      applyCampaignToUser noPackageStore 1500 1 1 =
        (noPackageStore, .error .packageMissing) := by
  decide

/-! ## Claims on `getUserSupportTickets` -/

/-- C22 (the code at the failing input): of two closed tickets, one resolved
after four days and one without `resolved_at`, the mean over the tickets that
have a `resolved_at` is four days, and `avg_resolution_days` is 2: the ticket
without `resolved_at` is counted in the divisor. -/
theorem avgResolutionDays_counts_unresolved :
    resolvedTicket.status = "closed" ∧ closedTicket.status = "closed" ∧
      resolvedTicket.resolved_at = some (resolvedTicket.created_at + 4 * 86400000) ∧
      closedTicket.resolved_at = none ∧
      (getUserSupportTickets resolutionStore 1500 1 {}).map
          (fun r => (r.tickets.map (fun t => t.ticket_id), r.tickets_summary.resolved_tickets,
            r.tickets_summary.avg_resolution_days)) =
        some (["TKT004", "TKT003"], 2, .fin 2) := by
  decide!

/-- C24 (the code at the failing input): of a high-priority and a low-priority
ticket, `getUserSupportTickets` returns the low one first: the order is that of
the priority texts, in which "low" comes after "high". -/
theorem getUserSupportTickets_low_before_high :
    (getUserSupportTickets priorityStore 1500 1 {}).map
          (fun r => r.tickets.map (fun t => (t.ticket_id, t.priority))) =
        some [("TKT002", "low"), ("TKT001", "high")] ∧
      "high" < "low" ∧ "low" < "medium" ∧ "medium" < "urgent" := by
  decide!

/-! ## Claims on `getCampaignAnalytics` -/

/-- C25 (counterexample): for a campaign with three rows and discounts 50, 25
and 25, the total is 100 and `average_discount_per_user` is the text "33.33",
which is not the number 100 / 3 (neither as a value nor once parsed). -/
theorem getCampaignAnalytics_average_is_text :
    (Campaign.userCampaigns analyticsStore exampleCampaign).length = 3 ∧
      (getCampaignAnalytics analyticsStore 1).map (fun r => r.financial_impact) =
        some ⟨.fin 100, .string "33.33"⟩ ∧
      JsScalar.string "33.33" ≠ .number ((JsNumber.fin 100).div (.fin 3)) ∧
      parseFloat "33.33" ≠ (JsNumber.fin 100).div (.fin 3) ∧
      parseFloat "33.33" ≠ .fin (100 / 3) := by
  decide!

/-- C25 (amended): for an existing campaign, `total_discount_given` is the
JavaScript sum (`+` from 0, in storage order) of `discount_applied`, a missing
value counting as 0, over the rows of the campaign, and
`average_discount_per_user` is the two-decimal text (`toFixed(2)`) of that
total divided by the number of rows, or the number 0 when the campaign has no
row, in which case nothing is divided. -/
theorem getCampaignAnalytics_financial_impact (s : Store) (campaignId : Int)
    (campaign : Campaign) (r : CampaignAnalytics)
    (hc : Campaign.findByPk s campaignId = some campaign)
    (h : getCampaignAnalytics s campaignId = some r) :
    r.financial_impact.total_discount_given =
        ((s.userCampaigns.filter (fun uc => uc.campaign_id = campaign.id)).map
          (fun uc => orZeroNumber uc.discount_applied)).foldl JsNumber.add (.fin 0) ∧
      orZeroNumber none = .fin 0 ∧
      r.usage_stats.total_applications =
        (s.userCampaigns.filter (fun uc => uc.campaign_id = campaign.id)).length ∧
      (0 < r.usage_stats.total_applications →
        r.financial_impact.average_discount_per_user =
          .string (r.financial_impact.total_discount_given.div
            (.fin r.usage_stats.total_applications)).toFixed2) ∧
      (r.usage_stats.total_applications = 0 →
        r.financial_impact.average_discount_per_user = .number (.fin 0) ∧
        r.financial_impact.total_discount_given = .fin 0) := by
  unfold getCampaignAnalytics at h
  simp only [hc, Option.some.injEq] at h
  subst h
  have hrows : Campaign.userCampaigns s campaign =
      s.userCampaigns.filter (fun uc => uc.campaign_id = campaign.id) := by
    unfold Campaign.userCampaigns
    apply List.filter_congr
    intro uc _
    rfl
  refine ⟨?_, rfl, ?_, ?_, ?_⟩
  · show sumDiscounts (campaign.userCampaigns s) = _
    rw [hrows]
    unfold sumDiscounts
    rw [List.foldl_map]
  · show (campaign.userCampaigns s).length = _
    rw [hrows]
  · intro hpos
    have hpos' : 0 < (campaign.userCampaigns s).length := hpos
    show (financialImpact (campaign.userCampaigns s)).average_discount_per_user = _
    simp only [financialImpact, if_pos hpos', JsNumber.ofInt, Int.cast_natCast]
  · intro hzero
    have hnil : campaign.userCampaigns s = [] := List.length_eq_zero.1 hzero
    show (financialImpact (campaign.userCampaigns s)).average_discount_per_user = _ ∧
      (financialImpact (campaign.userCampaigns s)).total_discount_given = _
    rw [hnil]
    exact ⟨rfl, rfl⟩

theorem getCampaignAnalytics_financial_impact_witness :
    Campaign.findByPk analyticsStore 1 = some exampleCampaign ∧
      (getCampaignAnalytics analyticsStore 1).map (fun r => r.financial_impact) =
        some ⟨.fin 100, .string "33.33"⟩ ∧
      ∃ r, getCampaignAnalytics analyticsStore 1 = some r ∧
        r.financial_impact.total_discount_given =
          ((analyticsStore.userCampaigns.filter
              (fun uc => uc.campaign_id = exampleCampaign.id)).map
            (fun uc => orZeroNumber uc.discount_applied)).foldl JsNumber.add (.fin 0) ∧
        orZeroNumber none = .fin 0 ∧
        r.usage_stats.total_applications =
          (analyticsStore.userCampaigns.filter
            (fun uc => uc.campaign_id = exampleCampaign.id)).length ∧
        (0 < r.usage_stats.total_applications →
          r.financial_impact.average_discount_per_user =
            .string (r.financial_impact.total_discount_given.div
              (.fin r.usage_stats.total_applications)).toFixed2) ∧
        (r.usage_stats.total_applications = 0 →
          r.financial_impact.average_discount_per_user = .number (.fin 0) ∧
          r.financial_impact.total_discount_given = .fin 0) :=
  ⟨by decide, by decide!,
    match h : getCampaignAnalytics analyticsStore 1 with
    | some r =>
      ⟨r, rfl, getCampaignAnalytics_financial_impact analyticsStore 1 exampleCampaign r
        (by decide) h⟩
    | none => absurd h (by decide!)⟩

/-! ## Concurrent calls of `applyCampaignToUser` -/

/-- Run alone, the five steps of a call do what `applyCampaignToUser` does. -/
theorem ApplyCall.run_eq (call : ApplyCall) (s : Store) :
    call.run 5 (s, .start) =
      ((applyCampaignToUser s call.now call.campaignId call.userId).1,
        .done (applyCampaignToUser s call.now call.campaignId call.userId).2) := by
  have hdone : ∀ (n : Nat) (t : Store) (res : Except ApplyError ApplyResult),
      call.run n (t, .done res) = (t, .done res) := by
    intro n
    induction n with
    | zero => intro t res; rfl
    | succ n ih => intro t res; exact ih t res
  show call.run 4 (s, .haveCampaign (Campaign.findByPk s call.campaignId)) = _
  cases hc : Campaign.findByPk s call.campaignId with
  | none =>
    have hR : applyCampaignToUser s call.now call.campaignId call.userId =
        (s, .error .notFound) := by
      simp [applyCampaignToUser, hc]
    have hstep : call.step s (.haveCampaign none) = (s, .done (.error .notFound)) := by
      simp [ApplyCall.step]
    show call.run 3 (call.step s (.haveCampaign none)) = _
    rw [hstep, hdone, hR]
  | some campaign =>
    cases hu : User.findByPk s call.userId with
    | none =>
      have hR : applyCampaignToUser s call.now call.campaignId call.userId =
          (s, .error .notFound) := by
        simp [applyCampaignToUser, hc, hu]
      have hstep : call.step s (.haveCampaign (some campaign)) =
          (s, .done (.error .notFound)) := by
        simp [ApplyCall.step, hu]
      show call.run 3 (call.step s (.haveCampaign (some campaign))) = _
      rw [hstep, hdone, hR]
    | some up =>
      obtain ⟨user, package⟩ := up
      cases h1 : campaign.notActiveAt call.now with
      | true =>
        have hR : applyCampaignToUser s call.now call.campaignId call.userId =
            (s, .error .notActive) := by
          simp [applyCampaignToUser, hc, hu, h1]
        have hstep : call.step s (.haveCampaign (some campaign)) =
            (s, .done (.error .notActive)) := by
          simp [ApplyCall.step, hu, h1]
        show call.run 3 (call.step s (.haveCampaign (some campaign))) = _
        rw [hstep, hdone, hR]
      | false =>
        cases h2 : campaign.limitReached with
        | true =>
          have hR : applyCampaignToUser s call.now call.campaignId call.userId =
              (s, .error .limitReached) := by
            simp [applyCampaignToUser, hc, hu, h1, h2]
          have hstep : call.step s (.haveCampaign (some campaign)) =
              (s, .done (.error .limitReached)) := by
            simp [ApplyCall.step, hu, h1, h2]
          show call.run 3 (call.step s (.haveCampaign (some campaign))) = _
          rw [hstep, hdone, hR]
        | false =>
          have hstep : call.step s (.haveCampaign (some campaign)) =
              (s, .validated campaign package) := by
            simp [ApplyCall.step, hu, h1, h2]
          show call.run 3 (call.step s (.haveCampaign (some campaign))) = _
          rw [hstep]
          cases hf : UserCampaign.findOne s call.userId call.campaignId with
          | some uc =>
            have hR : applyCampaignToUser s call.now call.campaignId call.userId =
                (s, .error .alreadyApplied) := by
              simp [applyCampaignToUser, hc, hu, h1, h2, hf]
            have hstep2 : call.step s (.validated campaign package) =
                (s, .done (.error .alreadyApplied)) := by
              simp [ApplyCall.step, hf]
            show call.run 2 (call.step s (.validated campaign package)) = _
            rw [hstep2, hdone, hR]
          | none =>
            cases hd : discountApplied campaign package with
            | none =>
              have hR : applyCampaignToUser s call.now call.campaignId call.userId =
                  (s, .error .packageMissing) := by
                simp [applyCampaignToUser, hc, hu, h1, h2, hf, hd]
              have hstep2 : call.step s (.validated campaign package) =
                  (s, .done (.error .packageMissing)) := by
                simp [ApplyCall.step, hf, hd]
              show call.run 2 (call.step s (.validated campaign package)) = _
              rw [hstep2, hdone, hR]
            | some discount =>
              have hstep2 : call.step s (.validated campaign package) =
                  (s, .checked campaign discount) := by
                simp [ApplyCall.step, hf, hd]
              show call.run 2 (call.step s (.validated campaign package)) = _
              rw [hstep2]
              simp [ApplyCall.run, ApplyCall.step, applyCampaignToUser, hc, hu, h1, h2, hf, hd]

/-- Under the sequential schedule the second call starts on the store the
first call left. -/
theorem interleave_sequential (first second : ApplyCall) (s : Store) :
    interleave first second sequentialSchedule (s, .start, .start) =
      ((second.run 5 ((first.run 5 (s, .start)).1, .start)).1,
        (first.run 5 (s, .start)).2,
        (second.run 5 ((first.run 5 (s, .start)).1, .start)).2) := by
  simp only [sequentialSchedule, interleave, ApplyCall.run]

/-- A call for a campaign that has reached its limit throws and leaves the
store as it was. -/
theorem applyCampaignToUser_fails_of_limit (s : Store) (now campaignId userId : Int)
    (campaign : Campaign) (hc : Campaign.findByPk s campaignId = some campaign)
    (hlim : campaign.limitReached = true) :
    ∃ e, applyCampaignToUser s now campaignId userId = (s, .error e) := by
  unfold applyCampaignToUser
  cases hu : User.findByPk s userId with
  | none => exact ⟨.notFound, by simp [hc]⟩
  | some up =>
    obtain ⟨user, package⟩ := up
    cases h1 : campaign.notActiveAt now with
    | true => exact ⟨.notActive, by simp [hc, h1]⟩
    | false => exact ⟨.limitReached, by simp [hc, h1, hlim]⟩

/-- C26 (counterexample): with `max_uses = 1` and `current_uses = 0`, two calls
for two different users whose steps interleave so that both pass the limit
check before either writes both succeed, and `current_uses` ends at 2 with two
rows created. -/
theorem interleaved_calls_overshoot :
    Campaign.findByPk raceStore 1 = some singleUseCampaign ∧
      singleUseCampaign.max_uses = some 1 ∧ singleUseCampaign.current_uses = 0 ∧
      firstCall.userId ≠ secondCall.userId ∧
      (interleave firstCall secondCall racingSchedule (raceStore, .start, .start)).2.1.succeeded =
        true ∧
      (interleave firstCall secondCall racingSchedule (raceStore, .start, .start)).2.2.succeeded =
        true ∧
      (Campaign.findByPk
          (interleave firstCall secondCall racingSchedule (raceStore, .start, .start)).1 1).map
          (fun c => (c.max_uses, c.current_uses)) = some (some 1, 2) ∧
      (interleave firstCall secondCall racingSchedule
        (raceStore, .start, .start)).1.userCampaigns.length = 2 := by
  decide

/-- C26 (amended): for a campaign with `max_uses = 1` and `current_uses = 0`,
when a call that succeeds is followed, after it has finished, by a second call
for the same campaign, the first succeeds, the second throws, the store is the
one the first call left and `current_uses` ends at 1. -/
theorem sequential_calls_within_limit (s : Store) (first second : ApplyCall)
    (campaign : Campaign) (r : ApplyResult)
    (hsame : second.campaignId = first.campaignId)
    (hc : Campaign.findByPk s first.campaignId = some campaign)
    (hm : campaign.max_uses = some 1) (h0 : campaign.current_uses = 0)
    (h : (applyCampaignToUser s first.now first.campaignId first.userId).2 = .ok r) :
    (interleave first second sequentialSchedule (s, .start, .start)).2.1 = .done (.ok r) ∧
      (interleave first second sequentialSchedule (s, .start, .start)).2.2.failed = true ∧
      (interleave first second sequentialSchedule (s, .start, .start)).1 =
        (applyCampaignToUser s first.now first.campaignId first.userId).1 ∧
      ∃ after,
        Campaign.findByPk (interleave first second sequentialSchedule (s, .start, .start)).1
            first.campaignId = some after ∧
          after.max_uses = some 1 ∧ after.current_uses = 1 := by
  obtain ⟨campaign', user, package, discount, hc', -, -, -, -, -, -, -, -, hs⟩ :=
    applyCampaignToUser_ok s first.now first.campaignId first.userId r h
  rw [hc] at hc'
  cases hc'
  have hid := Campaign.findByPk_id s first.campaignId campaign hc
  have hfind : Campaign.findByPk
      (applyCampaignToUser s first.now first.campaignId first.userId).1 first.campaignId =
      some { campaign with current_uses := 1 } := by
    rw [hs]
    unfold Campaign.findByPk at hc ⊢
    simp only [Campaign.find?_map_increment, hc, Option.map_some']
    simp [Campaign.increment, hid, h0]
  have hlim : ({ campaign with current_uses := 1 } : Campaign).limitReached = true := by
    simp [Campaign.limitReached, hm]
  have hsecond : ∃ e,
      applyCampaignToUser (applyCampaignToUser s first.now first.campaignId first.userId).1
        second.now second.campaignId second.userId =
      ((applyCampaignToUser s first.now first.campaignId first.userId).1, .error e) := by
    rw [hsame]
    exact applyCampaignToUser_fails_of_limit _ second.now first.campaignId second.userId _
      hfind hlim
  obtain ⟨e, he⟩ := hsecond
  rw [interleave_sequential, ApplyCall.run_eq]
  dsimp only
  rw [ApplyCall.run_eq, he, h]
  exact ⟨rfl, rfl, rfl, _, hfind, hm, rfl⟩

theorem sequential_calls_within_limit_witness :
    secondCall.campaignId = firstCall.campaignId ∧
      Campaign.findByPk raceStore firstCall.campaignId = some singleUseCampaign ∧
      singleUseCampaign.max_uses = some 1 ∧ singleUseCampaign.current_uses = 0 ∧
      (applyCampaignToUser raceStore firstCall.now firstCall.campaignId firstCall.userId).2 =
        .ok exampleResult ∧
      (interleave firstCall secondCall sequentialSchedule (raceStore, .start, .start)).2.1 =
        .done (.ok exampleResult) ∧
      (interleave firstCall secondCall sequentialSchedule
        (raceStore, .start, .start)).2.2.failed = true ∧
      (interleave firstCall secondCall sequentialSchedule (raceStore, .start, .start)).1 =
        (applyCampaignToUser raceStore firstCall.now firstCall.campaignId firstCall.userId).1 ∧
      ∃ after,
        Campaign.findByPk
            (interleave firstCall secondCall sequentialSchedule (raceStore, .start, .start)).1
            firstCall.campaignId = some after ∧
          after.max_uses = some 1 ∧ after.current_uses = 1 :=
  ⟨rfl, by decide, rfl, rfl, by decide,
    sequential_calls_within_limit raceStore firstCall secondCall singleUseCampaign exampleResult
      rfl (by decide) rfl rfl (by decide)⟩

/-! ## The status "attention_required" -/

theorem usageAlerts_type (packageInfo : PackageInfo) :
    ∀ alert ∈ usageAlerts packageInfo, alert.type = "warning" := by
  intro alert hmem
  unfold usageAlerts at hmem
  cases hp : packageInfo.current_package with
  | none => simp [hp] at hmem
  | some pkg =>
    simp only [hp, List.mem_append] at hmem
    rcases hmem with hmem | hmem
    · split at hmem
      · simp only [List.mem_singleton] at hmem
        rw [hmem]
      · simp at hmem
    · split at hmem
      · simp only [List.mem_singleton] at hmem
        rw [hmem]
      · simp at hmem

theorem paymentReminders_urgent (billInfo : BillInfo) :
    (∃ alert ∈ paymentReminders billInfo, alert.type = "urgent") ↔
      0 < billInfo.billing_summary.overdue_bills_count := by
  unfold paymentReminders
  by_cases h : 0 < billInfo.billing_summary.overdue_bills_count
  · simp [h]
  · by_cases h2 : billInfo.billing_summary.total_owed.gt (.fin 0) = true
    · simp [h, h2]
    · simp [h, h2]

theorem ticketAlerts_urgent (ticketInfo : TicketInfo) :
    (∃ alert ∈ ticketAlerts ticketInfo, alert.type = "urgent") ↔
      ∃ t ∈ ticketInfo.tickets, t.priority = "urgent" ∧ t.status = "open" := by
  have hlen : 0 < (ticketInfo.tickets.filter
      (fun t => t.priority == "urgent" && t.status == "open")).length ↔
      ∃ t ∈ ticketInfo.tickets, t.priority = "urgent" ∧ t.status = "open" := by
    rw [List.length_pos, Ne, List.filter_eq_nil_iff]
    simp
  rw [← hlen]
  unfold ticketAlerts
  by_cases h : 0 < (ticketInfo.tickets.filter
      (fun t => t.priority == "urgent" && t.status == "open")).length
  · simp [h]
  · by_cases h2 : 0 < (ticketInfo.tickets.filter (fun t => t.is_overdue)).length
    · simp [h, h2]
    · simp [h, h2]

theorem accountStatus_attention_iff (overdue_bills_count open_tickets : Nat)
    (allAlerts : List Alert) :
    accountStatus overdue_bills_count open_tickets allAlerts = "attention_required" ↔
      (overdue_bills_count = 0 ∧ open_tickets ≤ 2 ∧
        ∃ alert ∈ allAlerts, alert.type = "urgent") := by
  have hany : allAlerts.any (fun alert => alert.type == "urgent") = true ↔
      ∃ alert ∈ allAlerts, alert.type = "urgent" := by
    simp [List.any_eq_true]
  unfold accountStatus
  by_cases h0 : 0 < overdue_bills_count
  · simp only [h0, if_true]
    constructor
    · intro h
      exact absurd h (by decide)
    · rintro ⟨h, -, -⟩
      omega
  · by_cases h2 : 2 < open_tickets
    · simp only [h0, if_false, h2, if_true]
      constructor
      · intro h
        exact absurd h (by decide)
      · rintro ⟨-, h, -⟩
        omega
    · by_cases hu : allAlerts.any (fun alert => alert.type == "urgent") = true
      · simp only [h0, if_false, h2, hu, if_true, true_iff]
        exact ⟨by omega, by omega, hany.1 hu⟩
      · simp only [h0, if_false, h2, hu]
        constructor
        · intro h
          exact absurd h (by decide)
        · rintro ⟨-, -, h⟩
          exact absurd (hany.2 h) hu

theorem getUserSupportTickets_open_pos (s : Store) (now user_id : Int)
    (options : TicketOptions) (ticketInfo : TicketInfo)
    (h : getUserSupportTickets s now user_id options = some ticketInfo)
    (hopen : ∃ t ∈ ticketInfo.tickets, t.status = "open") :
    0 < ticketInfo.tickets_summary.open_tickets := by
  unfold getUserSupportTickets at h
  cases hu : s.users.find? (fun u => u.id == user_id) with
  | none => simp [hu] at h
  | some user =>
    simp only [hu, Option.some.injEq] at h
    subst h
    obtain ⟨t, hmem, hstatus⟩ := hopen
    simp only [List.mem_map] at hmem
    obtain ⟨ticket, hticket, rfl⟩ := hmem
    show 0 < ((SupportTicket.findAndCountAll s user_id options).2.filter
      SupportTicket.isOpen).length
    rw [List.length_pos, Ne, List.filter_eq_nil_iff]
    intro hnone
    apply hnone ticket hticket
    have : ticket.status = "open" := hstatus
    simp [SupportTicket.isOpen, this]

/-- C29: `getUserDashboard` yields "attention_required" if and only if
`overdue_bills_count` is 0, `open_tickets` is 1 or 2, and one of the fetched
tickets is urgent and open; an urgent billing reminder is emitted only when
`overdue_bills_count > 0`, which yields "payment_required". -/
theorem getUserDashboard_attention_required (s : Store) (now user_id : Int) (d : Dashboard)
    (h : getUserDashboard s now user_id = some d) :
    (d.account_status = "attention_required" ↔
        (d.billing_info.1.billing_summary.overdue_bills_count = 0 ∧
          (d.support_info.1.tickets_summary.open_tickets = 1 ∨
            d.support_info.1.tickets_summary.open_tickets = 2) ∧
          ∃ t ∈ d.support_info.1.tickets, t.priority = "urgent" ∧ t.status = "open")) ∧
      (∀ alert ∈ d.billing_info.2, alert.type = "urgent" →
        0 < d.billing_info.1.billing_summary.overdue_bills_count) ∧
      (0 < d.billing_info.1.billing_summary.overdue_bills_count →
        d.account_status = "payment_required") := by
  unfold getUserDashboard at h
  cases hp : getUserPackageInfoWithAlerts s user_id with
  | none => simp [hp] at h
  | some packageInfo =>
    cases hb : getUserBillInfoWithReminders s now user_id with
    | none => simp [hp, hb] at h
    | some billInfo =>
      cases ht : getUserTicketsWithAlerts s now user_id with
      | none => simp [hp, hb, ht] at h
      | some ticketInfo =>
        simp only [hp, hb, ht, Option.some.injEq] at h
        subst h
        have hpa : packageInfo.2 = usageAlerts packageInfo.1 := by
          unfold getUserPackageInfoWithAlerts at hp
          cases hg : getUserPackageInfo s user_id with
          | none => simp [hg] at hp
          | some pi =>
            simp only [hg, Option.map_some', Option.some.injEq] at hp
            rw [← hp]
        have hba : billInfo.2 = paymentReminders billInfo.1 := by
          unfold getUserBillInfoWithReminders at hb
          cases hg : getUserBillInfo s now user_id {} with
          | none => simp [hg] at hb
          | some bi =>
            simp only [hg, Option.map_some', Option.some.injEq] at hb
            rw [← hb]
        have hta : ticketInfo.2 = ticketAlerts ticketInfo.1 ∧
            getUserSupportTickets s now user_id {} = some ticketInfo.1 := by
          unfold getUserTicketsWithAlerts at ht
          cases hg : getUserSupportTickets s now user_id {} with
          | none => simp [hg] at ht
          | some ti =>
            simp only [hg, Option.map_some', Option.some.injEq] at ht
            rw [← ht]
            exact ⟨rfl, rfl⟩
        have hurgent : (∃ alert ∈ packageInfo.2 ++ billInfo.2 ++ ticketInfo.2,
            alert.type = "urgent") ↔
            (0 < billInfo.1.billing_summary.overdue_bills_count ∨
              ∃ t ∈ ticketInfo.1.tickets, t.priority = "urgent" ∧ t.status = "open") := by
          rw [← paymentReminders_urgent, ← ticketAlerts_urgent, ← hba, ← hta.1]
          constructor
          · rintro ⟨alert, hmem, htype⟩
            simp only [List.mem_append] at hmem
            rcases hmem with (hmem | hmem) | hmem
            · rw [hpa] at hmem
              have := usageAlerts_type packageInfo.1 alert hmem
              rw [this] at htype
              exact absurd htype (by decide)
            · exact Or.inl ⟨alert, hmem, htype⟩
            · exact Or.inr ⟨alert, hmem, htype⟩
          · rintro (⟨alert, hmem, htype⟩ | ⟨alert, hmem, htype⟩)
            · exact ⟨alert, by simp [hmem], htype⟩
            · exact ⟨alert, by simp [hmem], htype⟩
        refine ⟨?_, ?_, ?_⟩
        · show accountStatus billInfo.1.billing_summary.overdue_bills_count
              ticketInfo.1.tickets_summary.open_tickets
              (packageInfo.2 ++ billInfo.2 ++ ticketInfo.2) = "attention_required" ↔
            (billInfo.1.billing_summary.overdue_bills_count = 0 ∧
              (ticketInfo.1.tickets_summary.open_tickets = 1 ∨
                ticketInfo.1.tickets_summary.open_tickets = 2) ∧
              ∃ t ∈ ticketInfo.1.tickets, t.priority = "urgent" ∧ t.status = "open")
          rw [accountStatus_attention_iff, hurgent]
          constructor
          · rintro ⟨h0, h2, hu⟩
            rcases hu with hu | hu
            · omega
            · have hpos := getUserSupportTickets_open_pos s now user_id {} ticketInfo.1 hta.2
                (by obtain ⟨t, hm, -, hs⟩ := hu; exact ⟨t, hm, hs⟩)
              exact ⟨h0, by omega, hu⟩
          · rintro ⟨h0, h12, hu⟩
            exact ⟨h0, by omega, Or.inr hu⟩
        · intro alert hmem htype
          rw [hba] at hmem
          exact (paymentReminders_urgent billInfo.1).1 ⟨alert, hmem, htype⟩
        · intro hpos
          show accountStatus _ _ (packageInfo.2 ++ billInfo.2 ++ ticketInfo.2) = _
          simp [accountStatus, hpos]

theorem getUserDashboard_attention_required_witness :
    (getUserDashboard urgentStore 1500 1).map (fun d => d.account_status) =
        some "attention_required" ∧
      ∃ d, getUserDashboard urgentStore 1500 1 = some d ∧
        (d.account_status = "attention_required" ↔
          (d.billing_info.1.billing_summary.overdue_bills_count = 0 ∧
            (d.support_info.1.tickets_summary.open_tickets = 1 ∨
              d.support_info.1.tickets_summary.open_tickets = 2) ∧
            ∃ t ∈ d.support_info.1.tickets, t.priority = "urgent" ∧ t.status = "open")) ∧
        (∀ alert ∈ d.billing_info.2, alert.type = "urgent" →
          0 < d.billing_info.1.billing_summary.overdue_bills_count) ∧
        (0 < d.billing_info.1.billing_summary.overdue_bills_count →
          d.account_status = "payment_required") :=
  ⟨by decide!,
    match h : getUserDashboard urgentStore 1500 1 with
    | some d => ⟨d, rfl, getUserDashboard_attention_required urgentStore 1500 1 d h⟩
    | none => absurd h (by decide!)⟩

/-! ## Sums of bill amounts -/

/-- The amount `x || 0` of a bill whose amount is missing or not negative is
not negative. -/
theorem orZeroNumber_nonneg (o : Option JsNumber)
    (h : ∀ x, o = some x → x.ge (.fin 0) = true) : (orZeroNumber o).ge (.fin 0) = true := by
  cases o with
  | none => simp [orZeroNumber, JsNumber.ge]
  | some a =>
    unfold orZeroNumber
    by_cases ht : a.truthy = true
    · simp only [ht, if_true]
      exact h a rfl
    · simp only [ht]
      simp [JsNumber.ge]

/-- Adding a non-negative amount to a non-negative binary64 value (or to
`Infinity`) gives such a value again. -/
theorem JsNumber.add_nonneg (a x : JsNumber)
    (ha : a = .inf false ∨ ∃ r, 0 ≤ r ∧ a = .fin r ∧ toDouble r = .fin r)
    (hx : x.ge (.fin 0) = true) :
    a.add x = .inf false ∨ ∃ r, 0 ≤ r ∧ a.add x = .fin r ∧ toDouble r = .fin r := by
  rw [JsNumber.ge_fin_iff] at hx
  rcases hx with rfl | ⟨y, rfl, hy⟩
  · rcases ha with rfl | ⟨r, _, rfl, _⟩
    · left
      simp [JsNumber.add]
    · left
      simp [JsNumber.add]
  · rcases ha with rfl | ⟨r, hr, rfl, _⟩
    · left
      simp [JsNumber.add]
    · have hsum := toDouble_nonneg (r + y) (by linarith)
      rw [JsNumber.ge_fin_iff] at hsum
      rcases hsum with h | ⟨t, ht, ht0⟩
      · left
        simp [JsNumber.add, h]
      · right
        exact ⟨t, ht0, by simp [JsNumber.add, ht], toDouble_idem _ _ ht⟩

/-- Adding the same non-negative amount keeps the order of two sums. -/
theorem JsNumber.add_mono (a b x : JsNumber)
    (ha : a = .inf false ∨ ∃ r, 0 ≤ r ∧ a = .fin r ∧ toDouble r = .fin r)
    (hb : b = .inf false ∨ ∃ r, 0 ≤ r ∧ b = .fin r ∧ toDouble r = .fin r)
    (hx : x.ge (.fin 0) = true) (h : b.ge a = true) : (b.add x).ge (a.add x) = true := by
  rw [JsNumber.ge_fin_iff] at hx
  rcases hx with rfl | ⟨y, rfl, hy⟩
  · rcases ha with rfl | ⟨r, _, rfl, _⟩ <;> rcases hb with rfl | ⟨t, _, rfl, _⟩ <;>
      simp [JsNumber.add, JsNumber.ge]
  · rcases ha with rfl | ⟨r, hr, rfl, _⟩ <;> rcases hb with rfl | ⟨t, ht, rfl, _⟩
    · simp [JsNumber.add, JsNumber.ge]
    · simp [JsNumber.ge] at h
    · have hsum := toDouble_nonneg (r + y) (by linarith)
      rw [JsNumber.ge_fin_iff] at hsum
      rcases hsum with h1 | ⟨u, hu, _⟩
      · simp [JsNumber.add, JsNumber.ge, h1]
      · simp [JsNumber.add, JsNumber.ge, hu]
    · have hrt : r ≤ t := by simpa [JsNumber.ge] using h
      exact toDouble_mono (r + y) (t + y) (by linarith)

/-- Adding a non-negative amount does not make a sum smaller. -/
theorem JsNumber.le_add (a x : JsNumber)
    (ha : a = .inf false ∨ ∃ r, 0 ≤ r ∧ a = .fin r ∧ toDouble r = .fin r)
    (hx : x.ge (.fin 0) = true) : (a.add x).ge a = true := by
  rw [JsNumber.ge_fin_iff] at hx
  rcases hx with rfl | ⟨y, rfl, hy⟩
  · rcases ha with rfl | ⟨r, _, rfl, _⟩ <;> simp [JsNumber.add, JsNumber.ge]
  · rcases ha with rfl | ⟨r, hr, rfl, hrr⟩
    · simp [JsNumber.add, JsNumber.ge]
    · have := toDouble_mono r (r + y) (by linarith)
      rw [hrr] at this
      exact this

/-- Every bill that is overdue at `now` is owed. -/
theorem Bill.isOwed_of_isOverdue (now : Int) (bill : Bill) (h : bill.isOverdue now = true) :
    bill.isOwed = true := by
  simp only [Bill.isOverdue, Bool.or_eq_true, Bool.and_eq_true] at h
  simp only [Bill.isOwed, Bool.or_eq_true]
  rcases h with h | ⟨h, _⟩
  · exact Or.inr h
  · exact Or.inl h

/-- The sum over the overdue bills stays below the sum over the owed bills,
from any two ordered starting values. -/
theorem foldl_overdue_le_owed (now : Int) (bills : List Bill) (a b : JsNumber)
    (ha : a = .inf false ∨ ∃ r, 0 ≤ r ∧ a = .fin r ∧ toDouble r = .fin r)
    (hb : b = .inf false ∨ ∃ r, 0 ≤ r ∧ b = .fin r ∧ toDouble r = .fin r)
    (h : b.ge a = true)
    (hamount : ∀ bill ∈ bills, ∀ x, bill.total_amount = some x → x.ge (.fin 0) = true) :
    ((bills.filter Bill.isOwed).foldl
        (fun sum bill => sum.add (orZeroNumber bill.total_amount)) b).ge
      ((bills.filter (Bill.isOverdue now)).foldl
        (fun sum bill => sum.add (orZeroNumber bill.total_amount)) a) = true := by
  induction bills generalizing a b with
  | nil => exact h
  | cons bill rest ih =>
    have hx := orZeroNumber_nonneg bill.total_amount (hamount bill (List.mem_cons_self _ _))
    have hrest : ∀ bill ∈ rest, ∀ x, bill.total_amount = some x → x.ge (.fin 0) = true :=
      fun c hc => hamount c (List.mem_cons_of_mem _ hc)
    by_cases ho : bill.isOverdue now = true
    · have hw := Bill.isOwed_of_isOverdue now bill ho
      rw [List.filter_cons_of_pos hw, List.filter_cons_of_pos ho, List.foldl_cons,
        List.foldl_cons]
      exact ih _ _ (JsNumber.add_nonneg a _ ha hx) (JsNumber.add_nonneg b _ hb hx)
        (JsNumber.add_mono a b _ ha hb hx h) hrest
    · rw [List.filter_cons_of_neg ho]
      by_cases hw : bill.isOwed = true
      · rw [List.filter_cons_of_pos hw, List.foldl_cons]
        exact ih _ _ ha (JsNumber.add_nonneg b _ hb hx)
          (JsNumber.ge_trans _ _ _ (JsNumber.le_add b _ hb hx) h) hrest
      · rw [List.filter_cons_of_neg hw]
        exact ih a b ha hb h hrest

/-- C30: for every fetched bill list whose `total_amount` values are missing or
not negative, `overdue_amount ≤ total_owed` in the summary of
`getUserBillInfo`: every bill that satisfies the overdue predicate has
`payment_status` "pending" or "overdue", so the overdue bills are the owed
bills that the predicate selects; a bill with `payment_status = "paid"` is
never flagged `is_overdue`, is neither owed nor overdue, and both sums are the
same with the paid bills left out.  The object returned by `getUserBillInfo`
holds this summary for the list it fetched. -/
theorem getUserBillInfo_overdue_le_owed (bills : List Bill) (count : Nat) (now : Int)
    (hamount : ∀ bill ∈ bills, ∀ x, bill.total_amount = some x → x.ge (.fin 0) = true) :
    (billingSummary count bills now).total_owed.ge
        (billingSummary count bills now).overdue_amount = true ∧
      (∀ bill : Bill, bill.isOverdue now = true →
        (bill.payment_status = some "pending" ∨ bill.payment_status = some "overdue") ∧
          bill.isOwed = true) ∧
      bills.filter (Bill.isOverdue now) =
        (bills.filter Bill.isOwed).filter (Bill.isOverdue now) ∧
      (∀ bill : Bill, bill.payment_status = some "paid" →
        (recentBill now bill).is_overdue = false ∧ bill.isOwed = false ∧
          bill.isOverdue now = false) ∧
      (billingSummary count
          (bills.filter (fun bill => bill.payment_status != some "paid")) now).total_owed =
        (billingSummary count bills now).total_owed ∧
      (billingSummary count
          (bills.filter (fun bill => bill.payment_status != some "paid")) now).overdue_amount =
        (billingSummary count bills now).overdue_amount ∧
      (∀ (s : Store) (user_id : Int) (options : BillOptions) (r : BillInfo),
        getUserBillInfo s now user_id options = some r →
        r.billing_summary =
          billingSummary (Bill.findAndCountAll s user_id options).1
            (Bill.findAndCountAll s user_id options).2 now) := by
  have hpaid : ∀ bill : Bill, bill.payment_status = some "paid" →
      bill.isOwed = false ∧ bill.isOverdue now = false := by
    intro bill hp
    simp [Bill.isOwed, Bill.isOverdue, hp]
  refine ⟨?_, ?_, ?_, ?_, ?_, ?_, ?_⟩
  · exact foldl_overdue_le_owed now bills (.fin 0) (.fin 0)
      (Or.inr ⟨0, le_rfl, rfl, by simp [toDouble]⟩)
      (Or.inr ⟨0, le_rfl, rfl, by simp [toDouble]⟩) (by simp [JsNumber.ge]) hamount
  · intro bill h
    have hw := Bill.isOwed_of_isOverdue now bill h
    refine ⟨?_, hw⟩
    simpa [Bill.isOwed] using hw
  · rw [List.filter_filter]
    apply List.filter_congr
    intro bill _
    cases h : bill.isOverdue now
    · rfl
    · simp [Bill.isOwed_of_isOverdue now bill h]
  · intro bill hp
    exact ⟨(hpaid bill hp).2, (hpaid bill hp).1, (hpaid bill hp).2⟩
  · show sumAmounts _ = sumAmounts _
    rw [List.filter_filter]
    congr 1
    apply List.filter_congr
    intro bill _
    by_cases hp : bill.payment_status = some "paid"
    · simp [(hpaid bill hp).1, hp]
    · simp [hp]
  · show sumAmounts _ = sumAmounts _
    rw [List.filter_filter]
    congr 1
    apply List.filter_congr
    intro bill _
    by_cases hp : bill.payment_status = some "paid"
    · simp [(hpaid bill hp).2, hp]
    · simp [hp]
  · intro s user_id options r h
    unfold getUserBillInfo at h
    cases hu : s.users.find? (fun u => u.id == user_id) with
    | none => simp [hu] at h
    | some user =>
      simp only [hu, Option.some.injEq] at h
      subst h
      rfl

/-- An instance of C30: of the four bills fetched from the example store, three
are owed (400 in all) and two of those are overdue at instant 1500 (250). -/
theorem getUserBillInfo_overdue_le_owed_witness :
    (Bill.findAndCountAll billingStore 1 {}).2 =
        [futureBill, pendingBill, overdueBill, paidBill] ∧
      (∀ bill ∈ [futureBill, pendingBill, overdueBill, paidBill],
        ∀ x, bill.total_amount = some x → x.ge (.fin 0) = true) ∧
      (billingSummary 4 [futureBill, pendingBill, overdueBill, paidBill] 1500).total_owed =
        .fin 400 ∧
      (billingSummary 4 [futureBill, pendingBill, overdueBill, paidBill] 1500).overdue_amount =
        .fin 250 ∧
      (billingSummary 4 [futureBill, pendingBill, overdueBill, paidBill] 1500).total_owed.ge
        (billingSummary 4 [futureBill, pendingBill, overdueBill, paidBill] 1500).overdue_amount =
        true :=
  have hamount : ∀ bill ∈ [futureBill, pendingBill, overdueBill, paidBill],
      ∀ x, bill.total_amount = some x → x.ge (.fin 0) = true := by
    intro bill hb x hx
    simp only [List.mem_cons, List.mem_singleton, List.not_mem_nil, or_false] at hb
    rcases hb with rfl | rfl | rfl | rfl <;>
      (cases hx
       decide)
  ⟨by decide, hamount, by decide!, by decide!,
    (getUserBillInfo_overdue_le_owed [futureBill, pendingBill, overdueBill, paidBill] 4 1500
      hamount).1⟩

/-! ## Days since a ticket was opened -/

/-- A rational on the binary64 grid, of either sign, rounds to itself. -/
theorem toDouble_grid (m K : Int) (hm : |m| ≤ 2 ^ 53) (hK : -1074 ≤ K)
    (hlt : (|m| : ℚ) * (2 : ℚ) ^ K < (2 : ℚ) ^ 1024) :
    toDouble (m * (2 : ℚ) ^ K) = .fin (m * (2 : ℚ) ^ K) := by
  have hM : m.natAbs ≤ 2 ^ 53 := by
    have : (m.natAbs : Int) ≤ 2 ^ 53 := by
      rw [Int.natCast_natAbs]
      exact hm
    exact_mod_cast this
  have hcast : ((m.natAbs : Nat) : ℚ) = |(m : ℚ)| := by
    rw [Nat.cast_natAbs, Int.cast_abs]
  have hpos := toDouble_grid_pos m.natAbs K hM hK (by rw [hcast]; exact hlt)
  rw [hcast] at hpos
  rcases le_or_lt 0 m with h | h
  · have : |(m : ℚ)| = m := abs_of_nonneg (by exact_mod_cast h)
    rw [this] at hpos
    exact hpos
  · have hneg : |(m : ℚ)| = -m := abs_of_neg (by exact_mod_cast h)
    rw [hneg] at hpos
    have h2 := toDouble_neg (-(m : ℚ) * (2 : ℚ) ^ K)
    rw [hpos] at h2
    have e : -(-(m : ℚ) * (2 : ℚ) ^ K) = m * (2 : ℚ) ^ K := by ring
    rw [e] at h2
    rw [h2]
    simp [JsNumber.neg]

/-- An integer of at most 53 bits rounds to itself. -/
theorem toDouble_int (z : Int) (hz : |z| ≤ 2 ^ 53) : toDouble (z : ℚ) = .fin z := by
  have h := toDouble_grid z 0 hz (by norm_num) (by
    rw [zpow_zero, mul_one]
    have : (|z| : ℚ) ≤ 2 ^ 53 := by exact_mod_cast hz
    exact lt_of_le_of_lt this (by norm_num))
  rw [zpow_zero, mul_one] at h
  exact h

/-- The elapsed time is the rounded difference of the two instants. -/
theorem elapsedMs_eq (later earlier : Int) :
    elapsedMs later earlier = toDouble ((later - earlier : Int) : ℚ) := by
  simp only [elapsedMs, JsNumber.sub, JsNumber.neg, JsNumber.add, JsNumber.ofInt]
  congr 1
  push_cast
  ring

/-- A number above a number above `c` is above `c`. -/
theorem JsNumber.gt_of_ge_of_gt (x p : JsNumber) (c : ℚ) (hxp : x.ge p = true)
    (hp : p.gt (.fin c) = true) : x.gt (.fin c) = true := by
  cases x <;> cases p <;> simp_all [JsNumber.ge, JsNumber.gt]
  exact lt_of_lt_of_le hp hxp

/-- The call `Math.ceil` keeps a number above an integer above it. -/
theorem JsNumber.ceil_gt (x : JsNumber) (c : Int) (h : x.gt (.fin c) = true) :
    x.ceil.gt (.fin c) = true := by
  cases x with
  | fin t =>
    simp only [JsNumber.gt, decide_eq_true_iff] at h
    simp only [JsNumber.ceil, JsNumber.gt, decide_eq_true_iff]
    exact lt_of_lt_of_le h (Int.le_ceil t)
  | inf s => exact h
  | nan => exact h

/-- The call `Math.ceil` keeps a number at most an integer below it or at
it. -/
theorem JsNumber.ceil_not_gt (x : JsNumber) (c : Int) (h : (JsNumber.fin c).ge x = true) :
    x.ceil.gt (.fin c) = false := by
  rw [JsNumber.fin_ge_iff] at h
  rcases h with rfl | ⟨t, rfl, ht⟩
  · simp [JsNumber.ceil, JsNumber.gt]
  · simp only [JsNumber.ceil, JsNumber.gt, decide_eq_false_iff_not, not_lt]
    exact_mod_cast Int.ceil_le.2 ht

/-- A ticket has been open for more than seven days, in the count of
`daysOpen`, exactly when more than `7 × 24` hours have passed. -/
theorem daysOpen_gt_seven (now : Int) (ticket : SupportTicket) :
    (daysOpen now ticket).gt (.fin 7) = true ↔
      7 * 24 * 60 * 60 * 1000 < now - ticket.created_at := by
  have hday : msPerDay = .fin 86400000 := by
    unfold msPerDay
    norm_num
  unfold daysOpen
  rw [elapsedMs_eq, hday]
  generalize now - ticket.created_at = e
  constructor
  · intro h
    by_contra hle
    have hle' : e ≤ 604800000 := by omega
    have h1 := toDouble_mono (e : ℚ) ((604800000 : Int) : ℚ) (by exact_mod_cast hle')
    rw [toDouble_int 604800000 (by norm_num), JsNumber.fin_ge_iff] at h1
    have h7 : toDouble ((7 : Int) : ℚ) = .fin ((7 : Int) : ℚ) := toDouble_int 7 (by norm_num)
    have hfalse : (((toDouble (e : ℚ)).div (.fin 86400000)).ceil).gt (.fin ((7 : Int) : ℚ)) =
        false := by
      apply JsNumber.ceil_not_gt
      rcases h1 with h1 | ⟨a, h1, ha⟩
      · rw [h1]
        simp [JsNumber.div, JsNumber.ge]
      · rw [h1]
        have hq : (JsNumber.fin a).div (.fin 86400000) = toDouble (a / 86400000) := by
          simp [JsNumber.div]
        rw [hq, ← h7]
        apply toDouble_mono
        rw [div_le_iff₀ (by norm_num)]
        push_cast at ha ⊢
        linarith
    have e7 : ((7 : Int) : ℚ) = 7 := by norm_num
    rw [e7] at hfalse
    rw [hfalse] at h
    cases h
  · intro h
    have hge : (604800001 : Int) ≤ e := by omega
    have h1 := toDouble_mono ((604800001 : Int) : ℚ) (e : ℚ) (by exact_mod_cast hge)
    rw [toDouble_int 604800001 (by norm_num), JsNumber.ge_fin_iff] at h1
    have e7 : (7 : ℚ) = ((7 : Int) : ℚ) := by norm_num
    rw [e7]
    apply JsNumber.ceil_gt
    rcases h1 with h1 | ⟨a, h1, ha⟩
    · rw [h1]
      simp [JsNumber.div, JsNumber.gt]
    · rw [h1]
      have hq : (JsNumber.fin a).div (.fin 86400000) = toDouble (a / 86400000) := by
        simp [JsNumber.div]
      rw [hq]
      have hpivot : (toDouble (604800001 / 86400000)).gt (.fin ((7 : Int) : ℚ)) = true := by
        decide!
      refine JsNumber.gt_of_ge_of_gt _ _ _ ?_ hpivot
      apply toDouble_mono
      rw [div_le_div_iff₀ (by norm_num) (by norm_num)]
      push_cast at ha
      linarith

/-- Within `2 ^ 52` milliseconds (142 thousand years) either way, `daysOpen` is
the exact ceiling of the elapsed time in days. -/
theorem daysOpen_exact (now : Int) (ticket : SupportTicket)
    (h : |now - ticket.created_at| ≤ 2 ^ 52) :
    daysOpen now ticket =
      .fin (Int.ceil (((now - ticket.created_at : Int) : ℚ) / 86400000)) := by
  have hday : msPerDay = .fin 86400000 := by
    unfold msPerDay
    norm_num
  unfold daysOpen
  rw [elapsedMs_eq, hday]
  generalize now - ticket.created_at = e at h
  rw [abs_le] at h
  obtain ⟨hlo, hhi⟩ := h
  rw [toDouble_int e (by rw [abs_le]; constructor <;> omega)]
  have hq : (JsNumber.fin (e : ℚ)).div (.fin 86400000) = toDouble ((e : ℚ) / 86400000) := by
    simp [JsNumber.div]
  rw [hq]
  have hlo' : (-(2 ^ 52 : ℚ)) ≤ e := by exact_mod_cast hlo
  have hhi' : (e : ℚ) ≤ 2 ^ 52 := by exact_mod_cast hhi
  generalize hc : Int.ceil ((e : ℚ) / 86400000) = c
  have hx1 : (e : ℚ) / 86400000 ≤ c := by
    rw [← hc]
    exact Int.le_ceil _
  have hx2 : ((c - 1 : Int) : ℚ) < (e : ℚ) / 86400000 := by
    rw [← Int.lt_ceil, hc]
    omega
  have hcu : c ≤ 2 ^ 26 := by
    rw [← hc, Int.ceil_le, div_le_iff₀ (by norm_num)]
    push_cast
    linarith
  have hcl : -(2 ^ 26) < c := by
    have : (-(2 ^ 26 : ℚ)) < c := by
      refine lt_of_lt_of_le ?_ hx1
      rw [lt_div_iff₀ (by norm_num)]
      linarith
    exact_mod_cast this
  have hup : (JsNumber.fin (c : ℚ)).ge (toDouble ((e : ℚ) / 86400000)) = true := by
    rw [← toDouble_int c (by rw [abs_le]; constructor <;> omega)]
    exact toDouble_mono _ _ hx1
  have hint : (c - 1) * 86400000 + 1 ≤ e := by
    rw [lt_div_iff₀ (by norm_num)] at hx2
    have : (c - 1) * 86400000 < e := by exact_mod_cast hx2
    omega
  have hgrid := toDouble_grid ((c - 1) * 2 ^ 27 + 1) (-27)
    (by rw [abs_le]; constructor <;> omega) (by norm_num) (by
      have hm : (|(c - 1) * 2 ^ 27 + 1| : Int) ≤ 2 ^ 53 := by
        rw [abs_le]
        constructor <;> omega
      have hm' : |(((c - 1) * 2 ^ 27 + 1 : Int) : ℚ)| ≤ 2 ^ 53 := by
        rw [← Int.cast_abs]
        exact_mod_cast hm
      have hp : (2 : ℚ) ^ (-27 : Int) ≤ 1 := by norm_num
      have hp0 : (0 : ℚ) ≤ (2 : ℚ) ^ (-27 : Int) := by norm_num
      calc |(((c - 1) * 2 ^ 27 + 1 : Int) : ℚ)| * (2 : ℚ) ^ (-27 : Int)
          ≤ 2 ^ 53 * 1 := mul_le_mul hm' hp hp0 (by norm_num)
        _ < (2 : ℚ) ^ 1024 := by norm_num)
  have hg : (((c - 1) * 2 ^ 27 + 1 : Int) : ℚ) * (2 : ℚ) ^ (-27 : Int) =
      (c : ℚ) - 1 + 1 / 134217728 := by
    push_cast
    norm_num
    ring
  rw [hg] at hgrid
  have hdown : (toDouble ((e : ℚ) / 86400000)).ge (.fin ((c : ℚ) - 1 + 1 / 134217728)) =
      true := by
    rw [← hgrid]
    apply toDouble_mono
    rw [le_div_iff₀ (by norm_num)]
    have : (((c - 1) * 86400000 + 1 : Int) : ℚ) ≤ e := by exact_mod_cast hint
    push_cast at this
    linarith
  rw [JsNumber.fin_ge_iff] at hup
  rw [JsNumber.ge_fin_iff] at hdown
  rcases hup with hup | ⟨t, ht, htc⟩
  · rcases hdown with hdown | ⟨u, hu, _⟩
    · rw [hup] at hdown
      cases hdown
    · rw [hup] at hu
      cases hu
  · rcases hdown with hdown | ⟨u, hu, huc⟩
    · rw [ht] at hdown
      cases hdown
    · rw [ht] at hu
      injection hu with hu
      subst hu
      rw [ht]
      simp only [JsNumber.ceil]
      congr 1
      have : Int.ceil t = c := by
        rw [Int.ceil_eq_iff]
        constructor
        · linarith
        · exact htc
      rw [this]

/-- C23: for every ticket and instant `now`, the element that
`getUserSupportTickets` returns for it has `days_open = Math.ceil((now -
created_at) / (1000 * 60 * 60 * 24))`, which is the exact ceiling of the
elapsed days whenever the two instants are within `2 ^ 52` milliseconds of each
other, and `is_overdue = (status = "open" and days_open > 7)`; `is_overdue`
holds exactly when the status is "open" and strictly more than `7 × 24` hours
have elapsed since `created_at`, and a ticket with any other status
("in_progress", "resolved", "closed") is never overdue.  The `tickets` list of
the returned object is built this way from the fetched tickets. -/
theorem getUserSupportTickets_overdue (now : Int) (ticket : SupportTicket) :
    (ticketView now ticket).days_open =
        (((JsNumber.ofInt now).sub (JsNumber.ofInt ticket.created_at)).div
          (.fin (1000 * 60 * 60 * 24))).ceil ∧
      (|now - ticket.created_at| ≤ 2 ^ 52 →
        (ticketView now ticket).days_open =
          .fin (Int.ceil (((now - ticket.created_at : Int) : ℚ) / (1000 * 60 * 60 * 24)))) ∧
      (ticketView now ticket).is_overdue =
        (decide (ticket.status = "open") && (ticketView now ticket).days_open.gt (.fin 7)) ∧
      ((ticketView now ticket).is_overdue = true ↔
        ticket.status = "open" ∧ 7 * 24 * 60 * 60 * 1000 < now - ticket.created_at) ∧
      (ticket.status ≠ "open" → (ticketView now ticket).is_overdue = false) ∧
      (ticket.status ∈ ["in_progress", "resolved", "closed"] →
        (ticketView now ticket).is_overdue = false) ∧
      (∀ (s : Store) (user_id : Int) (options : TicketOptions) (r : TicketInfo),
        getUserSupportTickets s now user_id options = some r →
        r.tickets = (SupportTicket.findAndCountAll s user_id options).2.map (ticketView now)) := by
  have hflag : (ticketView now ticket).is_overdue =
      (decide (ticket.status = "open") && (daysOpen now ticket).gt (.fin 7)) := rfl
  have hother : ticket.status ≠ "open" → (ticketView now ticket).is_overdue = false := by
    intro h
    rw [hflag]
    simp [h]
  refine ⟨rfl, ?_, hflag, ?_, hother, ?_, ?_⟩
  · intro h
    have e : ((1000 * 60 * 60 * 24 : ℚ)) = 86400000 := by norm_num
    rw [e]
    exact daysOpen_exact now ticket h
  · rw [hflag, Bool.and_eq_true, decide_eq_true_iff, daysOpen_gt_seven]
  · intro h
    apply hother
    intro ho
    rw [ho] at h
    revert h
    decide
  · intro s user_id options r h
    unfold getUserSupportTickets at h
    cases hu : s.users.find? (fun u => u.id == user_id) with
    | none => simp [hu] at h
    | some user =>
      simp only [hu, Option.some.injEq] at h
      subst h
      rfl

/-- Instances of C23: a ticket opened at instant 0 and still open is seven days
old and not overdue after exactly `7 × 24` hours, eight days old and overdue one
millisecond later; the same ticket in progress is not overdue after a hundred
days. -/
theorem getUserSupportTickets_overdue_example :
    ((ticketView 604800000 highTicket).days_open,
        (ticketView 604800000 highTicket).is_overdue) = (.fin 7, false) ∧
      ((ticketView 604800001 highTicket).days_open,
        (ticketView 604800001 highTicket).is_overdue) = (.fin 8, true) ∧
      ((ticketView 8640000000 { highTicket with status := "in_progress" }).days_open,
        (ticketView 8640000000 { highTicket with status := "in_progress" }).is_overdue) =
        (.fin 100, false) := by
  decide!

end TurkLogos
